import Mathlib

/-!
Verification development for the boulderdash_cpp repository.

The definitions below are a shallow embedding of src/src/boulderdash_base.cpp and
src/src/definitions.h.  Machine integers are modelled as follows:
  - uint64_t values are Nat kept below 2^64 (reductions happen at + * << as in C++);
  - int values are Int (exact; the development is faithful to the C++ whenever the
    C++ int arithmetic does not overflow, which holds for all realistic level sizes);
  - int8_t enum values are the inductive HiddenCellType below.
Grid indices are Int (the C++ computes possibly-negative flat indices).  Reads and
writes that are out of the actual vector range are undefined behaviour in the C++;
here a read yields HiddenCellType.kNull (the sentinel) and a write is a no-op.
std::vector subscripts that stay inside the vector (even when the logical row/col
wrapped) are well defined in C++ and are modelled exactly.

The element catalog (util.h: kCellTypeToElement, kElementToExplosion, direction
tables, ...) is not part of the provided sources; it is modelled from the spec
(section 4.A of spec.md), as marked on each such definition.

assert(...) statements in the C++ are compiled out in NDEBUG (release) builds and
are modelled as no-ops; each such place is marked with a comment.
-/

set_option maxRecDepth 100000
set_option maxHeartbeats 1000000

namespace boulderdash

/-! ### Portable RNG primitives (src/src/boulderdash_base.cpp lines 35-71) -/

def U64 : Nat := 2 ^ 64

def SPLIT64_S1 : Nat := 30
def SPLIT64_S2 : Nat := 27
def SPLIT64_S3 : Nat := 31
def SPLIT64_C1 : Nat := 0x9E3779B97f4A7C15
def SPLIT64_C2 : Nat := 0xBF58476D1CE4E5B9
def SPLIT64_C3 : Nat := 0x94D049BB133111EB

/-- SplitMix64 on uint64, modelled on Nat with explicit mod 2^64. -/
def splitmix64 (seed : Nat) : Nat :=
  let result := (seed + SPLIT64_C1) % U64
  let result := ((result ^^^ (result >>> SPLIT64_S1)) * SPLIT64_C2) % U64
  let result := ((result ^^^ (result >>> SPLIT64_S2)) * SPLIT64_C3) % U64
  result ^^^ (result >>> SPLIT64_S3)

/-- Xorshift64: the C++ updates the state reference and returns the new value,
so a single Nat -> Nat function models both. -/
def xorshift64 (s : Nat) : Nat :=
  let x := s
  let x := (x ^^^ (x <<< 13)) % U64
  let x := x ^^^ (x >>> 7)
  let x := (x ^^^ (x <<< 17)) % U64
  x

/-! ### Cell types (src/src/definitions.h lines 16-69) -/

inductive HiddenCellType where
  | kNull
  | kAgent
  | kEmpty
  | kDirt
  | kStone
  | kStoneFalling
  | kDiamond
  | kDiamondFalling
  | kExitClosed
  | kExitOpen
  | kAgentInExit
  | kFireflyUp
  | kFireflyLeft
  | kFireflyDown
  | kFireflyRight
  | kButterflyUp
  | kButterflyLeft
  | kButterflyDown
  | kButterflyRight
  | kWallBrick
  | kWallSteel
  | kWallMagicDormant
  | kWallMagicOn
  | kWallMagicExpired
  | kBlob
  | kExplosionDiamond
  | kExplosionBoulder
  | kExplosionEmpty
  | kGateRedClosed
  | kGateRedOpen
  | kKeyRed
  | kGateBlueClosed
  | kGateBlueOpen
  | kKeyBlue
  | kGateGreenClosed
  | kGateGreenOpen
  | kKeyGreen
  | kGateYellowClosed
  | kGateYellowOpen
  | kKeyYellow
  | kNut
  | kNutFalling
  | kBomb
  | kBombFalling
  | kOrangeUp
  | kOrangeLeft
  | kOrangeDown
  | kOrangeRight
  | kPebbleInDirt
  | kStoneInDirt
  | kVoidInDirt
  deriving DecidableEq, Repr

/-- The underlying int8_t value of each enumerator (definitions.h). -/
def HiddenCellType.toInt : HiddenCellType → Int
  | .kNull => -1
  | .kAgent => 0
  | .kEmpty => 1
  | .kDirt => 2
  | .kStone => 3
  | .kStoneFalling => 4
  | .kDiamond => 5
  | .kDiamondFalling => 6
  | .kExitClosed => 7
  | .kExitOpen => 8
  | .kAgentInExit => 9
  | .kFireflyUp => 10
  | .kFireflyLeft => 11
  | .kFireflyDown => 12
  | .kFireflyRight => 13
  | .kButterflyUp => 14
  | .kButterflyLeft => 15
  | .kButterflyDown => 16
  | .kButterflyRight => 17
  | .kWallBrick => 18
  | .kWallSteel => 19
  | .kWallMagicDormant => 20
  | .kWallMagicOn => 21
  | .kWallMagicExpired => 22
  | .kBlob => 23
  | .kExplosionDiamond => 24
  | .kExplosionBoulder => 25
  | .kExplosionEmpty => 26
  | .kGateRedClosed => 27
  | .kGateRedOpen => 28
  | .kKeyRed => 29
  | .kGateBlueClosed => 30
  | .kGateBlueOpen => 31
  | .kKeyBlue => 32
  | .kGateGreenClosed => 33
  | .kGateGreenOpen => 34
  | .kKeyGreen => 35
  | .kGateYellowClosed => 36
  | .kGateYellowOpen => 37
  | .kKeyYellow => 38
  | .kNut => 39
  | .kNutFalling => 40
  | .kBomb => 41
  | .kBombFalling => 42
  | .kOrangeUp => 43
  | .kOrangeLeft => 44
  | .kOrangeDown => 45
  | .kOrangeRight => 46
  | .kPebbleInDirt => 47
  | .kStoneInDirt => 48
  | .kVoidInDirt => 49

/-- static_cast of an int code in [0, 50) to the enum (used by the parser,
which range-checks first). -/
def hiddenCellTypeOfInt (i : Int) : HiddenCellType :=
  match i with
  | 0 => .kAgent
  | 1 => .kEmpty
  | 2 => .kDirt
  | 3 => .kStone
  | 4 => .kStoneFalling
  | 5 => .kDiamond
  | 6 => .kDiamondFalling
  | 7 => .kExitClosed
  | 8 => .kExitOpen
  | 9 => .kAgentInExit
  | 10 => .kFireflyUp
  | 11 => .kFireflyLeft
  | 12 => .kFireflyDown
  | 13 => .kFireflyRight
  | 14 => .kButterflyUp
  | 15 => .kButterflyLeft
  | 16 => .kButterflyDown
  | 17 => .kButterflyRight
  | 18 => .kWallBrick
  | 19 => .kWallSteel
  | 20 => .kWallMagicDormant
  | 21 => .kWallMagicOn
  | 22 => .kWallMagicExpired
  | 23 => .kBlob
  | 24 => .kExplosionDiamond
  | 25 => .kExplosionBoulder
  | 26 => .kExplosionEmpty
  | 27 => .kGateRedClosed
  | 28 => .kGateRedOpen
  | 29 => .kKeyRed
  | 30 => .kGateBlueClosed
  | 31 => .kGateBlueOpen
  | 32 => .kKeyBlue
  | 33 => .kGateGreenClosed
  | 34 => .kGateGreenOpen
  | 35 => .kKeyGreen
  | 36 => .kGateYellowClosed
  | 37 => .kGateYellowOpen
  | 38 => .kKeyYellow
  | 39 => .kNut
  | 40 => .kNutFalling
  | 41 => .kBomb
  | 42 => .kBombFalling
  | 43 => .kOrangeUp
  | 44 => .kOrangeLeft
  | 45 => .kOrangeDown
  | 46 => .kOrangeRight
  | 47 => .kPebbleInDirt
  | 48 => .kStoneInDirt
  | 49 => .kVoidInDirt
  | _ => .kNull

def kNumHiddenCellType : Int := 50
def kNumVisibleCellType : Int := 34

/-! ### Hash of a (kind, index) pair (boulderdash_base.cpp lines 65-71).
The C++ computes the seed in int arithmetic and converts to uint64_t
(two's complement, i.e. mod 2^64). -/

def to_local_hash (flat_size : Int) (el : HiddenCellType) (offset : Int) : Nat :=
  let seed : Nat := (Int.emod (flat_size * el.toInt + offset) (U64 : Int)).toNat
  let result := (seed + SPLIT64_C1) % U64
  let result := ((result ^^^ (result >>> SPLIT64_S1)) * SPLIT64_C2) % U64
  let result := ((result ^^^ (result >>> SPLIT64_S2)) * SPLIT64_C3) % U64
  result ^^^ (result >>> SPLIT64_S3)

/-! ### Directions and actions (definitions.h lines 112-143) -/

inductive Direction where
  | kUp
  | kRight
  | kDown
  | kLeft
  | kNoop
  | kUpRight
  | kDownRight
  | kDownLeft
  | kUpLeft
  deriving DecidableEq, Repr

/-- Enumerator order of Direction (kUp = 0 ... kUpLeft = 8), used where the C++
iterates dir_index over [0, kNumDirections) and casts. -/
def allDirections : List Direction :=
  [.kUp, .kRight, .kDown, .kLeft, .kNoop, .kUpRight, .kDownRight, .kDownLeft, .kUpLeft]

inductive Action where
  | kUp
  | kRight
  | kDown
  | kLeft
  deriving DecidableEq, Repr

def kNumActions : Int := 4
def kNumDirections : Int := 9

def action_to_direction : Action → Direction
  | .kUp => .kUp
  | .kRight => .kRight
  | .kDown => .kDown
  | .kLeft => .kLeft

/-! ### Element records and the element catalog.
Modelled from the spec: util.h (the element catalog) is not among the provided
sources.  Element carries the hidden cell kind and the property bitmask with
flags Consumable, CanExplode, Rounded, Traversable, Pushable (spec section 3 and
4.A); the visible kind and display glyph are omitted (used only by the
observation/rendering layer, outside every claim).  C++ Element equality
compares only cell_type (definitions.h lines 193-199). -/

structure Element where
  cell_type : HiddenCellType
  properties : Nat
  deriving DecidableEq, Repr

instance : BEq Element := ⟨fun a b => a.cell_type == b.cell_type⟩

namespace ElementProperties

def kConsumable : Nat := 1
def kCanExplode : Nat := 2
def kRounded : Nat := 4
def kTraversable : Nat := 8
def kPushable : Nat := 16

end ElementProperties

/-- Modelled from the spec: the property bitmask of each hidden cell kind
(spec sections 3, 4.A and the glossary; util.h is missing from the sources).
Explosion cells carry no properties, falling objects keep Consumable, the
explodable entities (agent, fireflies, butterflies, oranges, bombs) carry
CanExplode, and Traversable covers Empty, Dirt, Diamond(Falling), keys and
the open exit as in the glossary. -/
def cellProperties : HiddenCellType → Nat
  | .kNull => 0
  | .kAgent => 3        -- CanExplode | Consumable
  | .kEmpty => 9        -- Consumable | Traversable
  | .kDirt => 9         -- Consumable | Traversable
  | .kStone => 21       -- Rounded | Consumable | Pushable
  | .kStoneFalling => 1
  | .kDiamond => 13     -- Rounded | Consumable | Traversable
  | .kDiamondFalling => 9
  | .kExitClosed => 0
  | .kExitOpen => 8     -- Traversable
  | .kAgentInExit => 0
  | .kFireflyUp => 3
  | .kFireflyLeft => 3
  | .kFireflyDown => 3
  | .kFireflyRight => 3
  | .kButterflyUp => 3
  | .kButterflyLeft => 3
  | .kButterflyDown => 3
  | .kButterflyRight => 3
  | .kWallBrick => 5    -- Rounded | Consumable
  | .kWallSteel => 0
  | .kWallMagicDormant => 0
  | .kWallMagicOn => 0
  | .kWallMagicExpired => 0
  | .kBlob => 1
  | .kExplosionDiamond => 0
  | .kExplosionBoulder => 0
  | .kExplosionEmpty => 0
  | .kGateRedClosed => 0
  | .kGateRedOpen => 0
  | .kKeyRed => 9       -- Consumable | Traversable
  | .kGateBlueClosed => 0
  | .kGateBlueOpen => 0
  | .kKeyBlue => 9
  | .kGateGreenClosed => 0
  | .kGateGreenOpen => 0
  | .kKeyGreen => 9
  | .kGateYellowClosed => 0
  | .kGateYellowOpen => 0
  | .kKeyYellow => 9
  | .kNut => 21         -- Rounded | Consumable | Pushable
  | .kNutFalling => 1
  | .kBomb => 23        -- Rounded | Consumable | Pushable | CanExplode
  | .kBombFalling => 3
  | .kOrangeUp => 3
  | .kOrangeLeft => 3
  | .kOrangeDown => 3
  | .kOrangeRight => 3
  | .kPebbleInDirt => 1
  | .kStoneInDirt => 1
  | .kVoidInDirt => 1

/-- Modelled from the spec: the kCellTypeToElement table (indexed in C++ by
int(cell_type) + 1), as a total function. -/
def kCellTypeToElement (c : HiddenCellType) : Element :=
  { cell_type := c, properties := cellProperties c }

def kNullElement : Element := kCellTypeToElement .kNull
def kElAgent : Element := kCellTypeToElement .kAgent
def kElEmpty : Element := kCellTypeToElement .kEmpty
def kElDirt : Element := kCellTypeToElement .kDirt
def kElStone : Element := kCellTypeToElement .kStone
def kElStoneFalling : Element := kCellTypeToElement .kStoneFalling
def kElDiamond : Element := kCellTypeToElement .kDiamond
def kElDiamondFalling : Element := kCellTypeToElement .kDiamondFalling
def kElExitOpen : Element := kCellTypeToElement .kExitOpen
def kElAgentInExit : Element := kCellTypeToElement .kAgentInExit
def kElWallMagicDormant : Element := kCellTypeToElement .kWallMagicDormant
def kElWallMagicOn : Element := kCellTypeToElement .kWallMagicOn
def kElWallMagicExpired : Element := kCellTypeToElement .kWallMagicExpired
def kElBlob : Element := kCellTypeToElement .kBlob
def kElExplosionDiamond : Element := kCellTypeToElement .kExplosionDiamond
def kElExplosionBoulder : Element := kCellTypeToElement .kExplosionBoulder
def kElExplosionEmpty : Element := kCellTypeToElement .kExplosionEmpty
def kElNut : Element := kCellTypeToElement .kNut
def kElNutFalling : Element := kCellTypeToElement .kNutFalling
def kElBomb : Element := kCellTypeToElement .kBomb
def kElBombFalling : Element := kCellTypeToElement .kBombFalling

/-! Modelled from the spec: classification predicates over elements (util.h). -/

def IsButterfly (e : Element) : Bool :=
  e.cell_type == .kButterflyUp || e.cell_type == .kButterflyLeft ||
  e.cell_type == .kButterflyDown || e.cell_type == .kButterflyRight

def IsFirefly (e : Element) : Bool :=
  e.cell_type == .kFireflyUp || e.cell_type == .kFireflyLeft ||
  e.cell_type == .kFireflyDown || e.cell_type == .kFireflyRight

def IsOrange (e : Element) : Bool :=
  e.cell_type == .kOrangeUp || e.cell_type == .kOrangeLeft ||
  e.cell_type == .kOrangeDown || e.cell_type == .kOrangeRight

def IsMagicWall (e : Element) : Bool :=
  e.cell_type == .kWallMagicDormant || e.cell_type == .kWallMagicOn ||
  e.cell_type == .kWallMagicExpired

def IsExplosion (e : Element) : Bool :=
  e.cell_type == .kExplosionDiamond || e.cell_type == .kExplosionBoulder ||
  e.cell_type == .kExplosionEmpty

def IsKey (e : Element) : Bool :=
  e.cell_type == .kKeyRed || e.cell_type == .kKeyBlue ||
  e.cell_type == .kKeyGreen || e.cell_type == .kKeyYellow

def IsOpenGate (e : Element) : Bool :=
  e.cell_type == .kGateRedOpen || e.cell_type == .kGateBlueOpen ||
  e.cell_type == .kGateGreenOpen || e.cell_type == .kGateYellowOpen

def IsDirectionHorz (d : Direction) : Bool :=
  d == .kLeft || d == .kRight

/-- Modelled from the spec: kDirectionOffsets (dcol, drow); consistent with
IndexFromDirection in the provided source. -/
def kDirectionOffsets : Direction → Int × Int
  | .kUp => (0, -1)
  | .kRight => (1, 0)
  | .kDown => (0, 1)
  | .kLeft => (-1, 0)
  | .kNoop => (0, 0)
  | .kUpRight => (1, -1)
  | .kDownRight => (1, 1)
  | .kDownLeft => (-1, 1)
  | .kUpLeft => (-1, -1)

/-- Modelled from the spec: rotate_left on the four cardinal directions. -/
def kRotateLeft : Direction → Direction
  | .kUp => .kLeft
  | .kLeft => .kDown
  | .kDown => .kRight
  | .kRight => .kUp
  | d => d

/-- Modelled from the spec: rotate_right on the four cardinal directions. -/
def kRotateRight : Direction → Direction
  | .kUp => .kRight
  | .kRight => .kDown
  | .kDown => .kLeft
  | .kLeft => .kUp
  | d => d

/-- Modelled from the spec: facing direction of each firefly variant. -/
def kFireflyToDirection (e : Element) : Direction :=
  match e.cell_type with
  | .kFireflyUp => .kUp
  | .kFireflyLeft => .kLeft
  | .kFireflyDown => .kDown
  | .kFireflyRight => .kRight
  | _ => .kNoop

/-- Modelled from the spec: facing direction of each butterfly variant. -/
def kButterflyToDirection (e : Element) : Direction :=
  match e.cell_type with
  | .kButterflyUp => .kUp
  | .kButterflyLeft => .kLeft
  | .kButterflyDown => .kDown
  | .kButterflyRight => .kRight
  | _ => .kNoop

/-- Modelled from the spec: facing direction of each orange variant. -/
def kOrangeToDirection (e : Element) : Direction :=
  match e.cell_type with
  | .kOrangeUp => .kUp
  | .kOrangeLeft => .kLeft
  | .kOrangeDown => .kDown
  | .kOrangeRight => .kRight
  | _ => .kNoop

/-- Modelled from the spec: firefly variant facing a given direction. -/
def kDirectionToFirefly : Direction → Element
  | .kUp => kCellTypeToElement .kFireflyUp
  | .kRight => kCellTypeToElement .kFireflyRight
  | .kDown => kCellTypeToElement .kFireflyDown
  | .kLeft => kCellTypeToElement .kFireflyLeft
  | _ => kCellTypeToElement .kFireflyUp

/-- Modelled from the spec: butterfly variant facing a given direction. -/
def kDirectionToButterfly : Direction → Element
  | .kUp => kCellTypeToElement .kButterflyUp
  | .kRight => kCellTypeToElement .kButterflyRight
  | .kDown => kCellTypeToElement .kButterflyDown
  | .kLeft => kCellTypeToElement .kButterflyLeft
  | _ => kCellTypeToElement .kButterflyUp

/-- Modelled from the spec: orange variant facing a given direction. -/
def kDirectionToOrange : Direction → Element
  | .kUp => kCellTypeToElement .kOrangeUp
  | .kRight => kCellTypeToElement .kOrangeRight
  | .kDown => kCellTypeToElement .kOrangeDown
  | .kLeft => kCellTypeToElement .kOrangeLeft
  | _ => kCellTypeToElement .kOrangeUp

/-- Modelled from the spec (4.A): kElementToExplosion with the
find-or-kElExplosionEmpty default applied at every C++ call site: butterflies
(diamond-bearing) map to ExplosionDiamond, everything else defaults to
ExplosionEmpty. -/
def elementToExplosionOrEmpty (e : Element) : Element :=
  if IsButterfly e then kElExplosionDiamond else kElExplosionEmpty

/-- Modelled from the spec (4.A): explosion_to_element. -/
def kExplosionToElement (e : Element) : Element :=
  match e.cell_type with
  | .kExplosionDiamond => kElDiamond
  | .kExplosionBoulder => kElStone
  | _ => kElEmpty

/-! Reward codes (definitions.h lines 145-162). -/

def kRewardAgentDies : Nat := 1 <<< 0
def kRewardCollectDiamond : Nat := 1 <<< 1
def kRewardWalkThroughExit : Nat := 1 <<< 2
def kRewardNutToDiamond : Nat := 1 <<< 3
def kRewardButterflyToDiamond : Nat := 1 <<< 4
def kRewardCollectKey : Nat := 1 <<< 5
def kRewardCollectKeyRed : Nat := 1 <<< 6
def kRewardCollectKeyBlue : Nat := 1 <<< 7
def kRewardCollectKeyGreen : Nat := 1 <<< 8
def kRewardCollectKeyYellow : Nat := 1 <<< 9
def kRewardWalkThroughGate : Nat := 1 <<< 10
def kRewardWalkThroughGateRed : Nat := 1 <<< 11
def kRewardWalkThroughGateBlue : Nat := 1 <<< 12
def kRewardWalkThroughGateGreen : Nat := 1 <<< 13
def kRewardWalkThroughGateYellow : Nat := 1 <<< 14

/-- Modelled from the spec (4.A): explosion_to_reward; where the source sets
none, 0. -/
def kExplosionToReward (e : Element) : Nat :=
  match e.cell_type with
  | .kExplosionDiamond => kRewardNutToDiamond
  | _ => 0

/-- Modelled from the spec (4.A): magic wall conversion of the falling kinds. -/
def kMagicWallConversion (e : Element) : Element :=
  match e.cell_type with
  | .kStoneFalling => kElDiamondFalling
  | .kDiamondFalling => kElStoneFalling
  | _ => e

/-- Modelled from the spec (4.A): to_falling for the pushable kinds. -/
def kElToFalling (e : Element) : Element :=
  match e.cell_type with
  | .kStone => kElStoneFalling
  | .kDiamond => kElDiamondFalling
  | .kNut => kElNutFalling
  | .kBomb => kElBombFalling
  | _ => e

/-- Modelled from the spec (4.A): key_to_gate (the closed gate of the key color). -/
def kKeyToGate (e : Element) : Element :=
  match e.cell_type with
  | .kKeyRed => kCellTypeToElement .kGateRedClosed
  | .kKeyBlue => kCellTypeToElement .kGateBlueClosed
  | .kKeyGreen => kCellTypeToElement .kGateGreenClosed
  | _ => kCellTypeToElement .kGateYellowClosed

/-- Modelled from the spec (4.A): gate_open_map (closed gate to open gate). -/
def kGateOpenMap (e : Element) : Element :=
  match e.cell_type with
  | .kGateRedClosed => kCellTypeToElement .kGateRedOpen
  | .kGateBlueClosed => kCellTypeToElement .kGateBlueOpen
  | .kGateGreenClosed => kCellTypeToElement .kGateGreenOpen
  | _ => kCellTypeToElement .kGateYellowOpen

/-- Modelled from the spec (4.A): key_to_signal (per-color collect bits). -/
def kKeyToSignal (e : Element) : Nat :=
  match e.cell_type with
  | .kKeyRed => kRewardCollectKeyRed
  | .kKeyBlue => kRewardCollectKeyBlue
  | .kKeyGreen => kRewardCollectKeyGreen
  | _ => kRewardCollectKeyYellow

/-- Modelled from the spec (4.A): gate_to_signal (per-color walk-through bits),
keyed by the open gate. -/
def kGateToSignal (e : Element) : Nat :=
  match e.cell_type with
  | .kGateRedOpen => kRewardWalkThroughGateRed
  | .kGateBlueOpen => kRewardWalkThroughGateBlue
  | .kGateGreenOpen => kRewardWalkThroughGateGreen
  | _ => kRewardWalkThroughGateYellow

/-! ### Total list access with Int indices.
std::vector subscripting inside the vector is exact; outside it is C++ UB,
modelled as a default read / no-op write. -/

def listGetN {α : Type} : List α → Nat → α → α
  | [], _, d => d
  | a :: _, 0, _ => a
  | _ :: l, n + 1, d => listGetN l n d

def listSetN {α : Type} : List α → Nat → α → List α
  | [], _, _ => []
  | _ :: l, 0, v => v :: l
  | a :: l, n + 1, v => a :: listSetN l n v

def listGetI {α : Type} (l : List α) (i : Int) (d : α) : α :=
  if i < 0 then d else listGetN l i.toNat d

def listSetI {α : Type} (l : List α) (i : Int) (v : α) : List α :=
  if i < 0 then l else listSetN l i.toNat v

/-- The index list [0, n) of a std::views::iota(0, n) loop (empty when n ≤ 0). -/
def intRange (n : Int) : List Int :=
  (List.range n.toNat).map Int.ofNat

/-- static_cast<Direction> of a small value (enumerator order). -/
def directionOfNat (n : Nat) : Direction :=
  match n with
  | 0 => .kUp
  | 1 => .kRight
  | 2 => .kDown
  | 3 => .kLeft
  | 4 => .kNoop
  | 5 => .kUpRight
  | 6 => .kDownRight
  | 7 => .kDownLeft
  | _ => .kUpLeft

/-- DecidableEq for Except (used by concrete witnesses and counterexamples). -/
instance instDecEqExcept {e a : Type} [DecidableEq e] [DecidableEq a] :
    DecidableEq (Except e a) := fun x y =>
  match x, y with
  | Except.ok u, Except.ok v =>
    if h : u = v then isTrue (by rw [h]) else isFalse (by intro hc; cases hc; exact h rfl)
  | Except.error u, Except.error v =>
    if h : u = v then isTrue (by rw [h]) else isFalse (by intro hc; cases hc; exact h rfl)
  | Except.ok _, Except.error _ => isFalse (by intro hc; cases hc)
  | Except.error _, Except.ok _ => isFalse (by intro hc; cases hc)

/-! ### Game parameters (boulderdash_base.h lines 946-963) -/

structure GameParameters where
  gravity : Bool := false
  magic_wall_steps : Int := 140
  blob_chance : Int := 20
  /-- float in the C++; modelled as an exact rational (no claim depends on
  float rounding of blob_max_size).  The default 0.16 is the literal 4/25. -/
  blob_max_percentage : Rat := ⟨4, 25, by decide, by decide⟩
  disable_explosions : Bool := false
  butterfly_explosion_ver : Int := 1    -- ButterflyExplosionVersion::kExplode
  butterfly_move_ver : Int := 1         -- ButterflyMoveVersion::kDelay
  deriving DecidableEq, Repr

/-! ### Game state (boulderdash_base.h lines 1230-1255) -/

structure BoulderDashGameState where
  magic_wall_steps : Int
  blob_max_size : Int
  butterfly_explosion_ver : Int
  butterfly_move_ver : Int
  gems_collected : Int
  magic_wall_steps_remaining : Int
  blob_size : Int
  rows : Int
  cols : Int
  agent_idx : Int
  gems_required : Int
  random_state : Nat
  reward_signal : Nat
  hash : Nat
  blob_chance : Nat
  gravity : Bool
  disable_explosions : Bool
  magic_active : Bool
  blob_enclosed : Bool
  is_agent_alive : Bool
  is_agent_in_exit : Bool
  blob_swap : HiddenCellType
  grid : List HiddenCellType
  has_updated : List Bool
  deriving DecidableEq, Repr

namespace BoulderDashGameState

/-! ### Grid primitives (boulderdash_base.cpp lines 396-473) -/

/-- Not safe in the C++ (no bounds check); plain flat index arithmetic. -/
def IndexFromDirection (s : BoulderDashGameState) (index : Int) (direction : Direction) : Int :=
  match direction with
  | .kNoop => index
  | .kUp => index - s.cols
  | .kRight => index + 1
  | .kDown => index + s.cols
  | .kLeft => index - 1
  | .kUpRight => index - s.cols + 1
  | .kDownRight => index + s.cols + 1
  | .kUpLeft => index - s.cols - 1
  | .kDownLeft => index + s.cols - 1

/-- C++ int division and remainder truncate toward zero (Int.tdiv, Int.tmod). -/
def InBounds (s : BoulderDashGameState) (index : Int)
    (direction : Direction := Direction.kNoop) : Bool :=
  let col := Int.tmod index s.cols
  let row := Int.tdiv (index - col) s.cols
  let offsets := kDirectionOffsets direction
  let col := col + offsets.1
  let row := row + offsets.2
  decide (0 ≤ col) && decide (col < s.cols) && decide (0 ≤ row) && decide (row < s.rows)

def GetItem (s : BoulderDashGameState) (index : Int)
    (direction : Direction := Direction.kNoop) : Element :=
  kCellTypeToElement (listGetI s.grid (IndexFromDirection s index direction) .kNull)

def IsType (s : BoulderDashGameState) (index : Int) (element : Element)
    (direction : Direction := Direction.kNoop) : Bool :=
  InBounds s index direction && (GetItem s (IndexFromDirection s index direction) == element)

def HasProperty (s : BoulderDashGameState) (index : Int) (property : Nat)
    (direction : Direction := Direction.kNoop) : Bool :=
  InBounds s index direction &&
    decide ((GetItem s (IndexFromDirection s index direction)).properties &&& property > 0)

def MoveItem (s : BoulderDashGameState) (index : Int) (direction : Direction) :
    BoulderDashGameState :=
  let new_index := IndexFromDirection s index direction
  let flat_size := s.rows * s.cols
  let s := {s with hash := s.hash ^^^ to_local_hash flat_size (listGetI s.grid new_index .kNull) new_index}
  let s := {s with grid := listSetI s.grid new_index (listGetI s.grid index .kNull)}
  let s := {s with hash := s.hash ^^^ to_local_hash flat_size (listGetI s.grid new_index .kNull) new_index}
  let s := {s with hash := s.hash ^^^ to_local_hash flat_size (listGetI s.grid index .kNull) index}
  let s := {s with grid := listSetI s.grid index HiddenCellType.kEmpty}
  let s := {s with hash := s.hash ^^^ to_local_hash flat_size HiddenCellType.kEmpty index}
  {s with has_updated := listSetI s.has_updated new_index true}

def SetItem (s : BoulderDashGameState) (index : Int) (element : Element)
    (direction : Direction := Direction.kNoop) : BoulderDashGameState :=
  let new_index := IndexFromDirection s index direction
  let flat_size := s.rows * s.cols
  let s := {s with hash := s.hash ^^^ to_local_hash flat_size (listGetI s.grid new_index .kNull) new_index}
  let s := {s with grid := listSetI s.grid new_index element.cell_type}
  let s := {s with hash := s.hash ^^^ to_local_hash flat_size element.cell_type new_index}
  {s with has_updated := listSetI s.has_updated new_index true}

def IsTypeAdjacent (s : BoulderDashGameState) (index : Int) (element : Element) : Bool :=
  IsType s index element .kUp || IsType s index element .kLeft ||
  IsType s index element .kDown || IsType s index element .kRight

/-! ### Rolling, pushing, magic walls, explosions (lines 477-553) -/

def CanRollLeft (s : BoulderDashGameState) (index : Int) : Bool :=
  HasProperty s index ElementProperties.kRounded .kDown &&
  IsType s index kElEmpty .kLeft && IsType s index kElEmpty .kDownLeft

def CanRollRight (s : BoulderDashGameState) (index : Int) : Bool :=
  HasProperty s index ElementProperties.kRounded .kDown &&
  IsType s index kElEmpty .kRight && IsType s index kElEmpty .kDownRight

def RollLeft (s : BoulderDashGameState) (index : Int) (element : Element) :
    BoulderDashGameState :=
  let s := SetItem s index element
  MoveItem s index .kLeft

def RollRight (s : BoulderDashGameState) (index : Int) (element : Element) :
    BoulderDashGameState :=
  let s := SetItem s index element
  MoveItem s index .kRight

def Push (s : BoulderDashGameState) (index : Int) (stationary falling : Element)
    (direction : Direction) : BoulderDashGameState :=
  let new_index := IndexFromDirection s index direction
  if IsType s new_index kElEmpty direction then
    let next_index := IndexFromDirection s new_index direction
    let is_empty := IsType s next_index kElEmpty .kDown
    let s := MoveItem s new_index direction
    let s := SetItem s next_index (if is_empty then falling else stationary)
    let s := MoveItem s index direction
    {s with agent_idx := IndexFromDirection s index direction}
  else s

def MoveThroughMagic (s : BoulderDashGameState) (index : Int) (element : Element) :
    BoulderDashGameState :=
  if s.magic_wall_steps ≤ 0 then s
  else
    let s := {s with magic_active := true}
    let index_wall := IndexFromDirection s index .kDown
    let index_under_wall := IndexFromDirection s index_wall .kDown
    if IsType s index_under_wall kElEmpty then
      let s := SetItem s index kElEmpty
      SetItem s index_under_wall element
    else s

/-- The C++ Explode recurses without an explicit bound; its recursion depth is
bounded by the cell count (claim C3), so fuel rows*cols + 1 reproduces it.
The explosion product ex of the just-exploded cell is captured before the cell
is overwritten and is the element passed to every recursive call. -/
def Explode (fuel : Nat) (s : BoulderDashGameState) (index : Int) (element : Element)
    (direction : Direction := Direction.kNoop) : BoulderDashGameState :=
  match fuel with
  | 0 => s
  | fuel + 1 =>
    let new_index := IndexFromDirection s index direction
    let ex := elementToExplosionOrEmpty (GetItem s new_index)
    let s := if GetItem s new_index == kElAgent then {s with is_agent_alive := false} else s
    let s := SetItem s new_index element
    allDirections.foldl (fun st dir =>
      if dir == Direction.kNoop || !(InBounds st new_index dir) then st
      else if HasProperty st new_index ElementProperties.kCanExplode dir then
        Explode fuel st new_index ex dir
      else if HasProperty st new_index ElementProperties.kConsumable dir then
        let st := SetItem st new_index ex dir
        if GetItem st new_index dir == kElAgent then {st with is_agent_alive := false} else st
      else st) s

def explodeFuel (s : BoulderDashGameState) : Nat :=
  (s.rows * s.cols).toNat + 1

/-! ### Element update rules (lines 557-895) -/

def UpdateStoneFalling (s : BoulderDashGameState) (index : Int) : BoulderDashGameState :=
  if IsType s index kElEmpty .kDown then MoveItem s index .kDown
  else if s.butterfly_explosion_ver == 2 && IsButterfly (GetItem s index .kDown) then
    let s := SetItem s index kElEmpty
    let s := SetItem s index kElDiamond .kDown
    {s with reward_signal := s.reward_signal ||| kRewardButterflyToDiamond}
  else if HasProperty s index ElementProperties.kCanExplode .kDown then
    Explode (explodeFuel s) s index (elementToExplosionOrEmpty (GetItem s index .kDown)) .kDown
  else if IsType s index kElWallMagicOn .kDown || IsType s index kElWallMagicDormant .kDown then
    MoveThroughMagic s index (kMagicWallConversion (GetItem s index))
  else if IsType s index kElNut .kDown then
    let s := SetItem s index kElDiamond .kDown
    {s with reward_signal := s.reward_signal ||| kRewardNutToDiamond}
  else if IsType s index kElBomb .kDown then
    Explode (explodeFuel s) s index (elementToExplosionOrEmpty (GetItem s index))
  else if CanRollLeft s index then RollLeft s index kElStoneFalling
  else if CanRollRight s index then RollRight s index kElStoneFalling
  else SetItem s index kElStone

def UpdateStone (s : BoulderDashGameState) (index : Int) : BoulderDashGameState :=
  if !s.gravity then s
  else if IsType s index kElEmpty .kDown then
    let s := SetItem s index kElStoneFalling
    UpdateStoneFalling s index
  else if CanRollLeft s index then RollLeft s index kElStoneFalling
  else if CanRollRight s index then RollRight s index kElStoneFalling
  else s

def UpdateDiamondFalling (s : BoulderDashGameState) (index : Int) : BoulderDashGameState :=
  if IsType s index kElEmpty .kDown then MoveItem s index .kDown
  else if HasProperty s index ElementProperties.kCanExplode .kDown &&
      !(IsType s index kElBomb .kDown) && !(IsType s index kElBombFalling .kDown) then
    Explode (explodeFuel s) s index (elementToExplosionOrEmpty (GetItem s index .kDown)) .kDown
  else if IsType s index kElWallMagicOn .kDown || IsType s index kElWallMagicDormant .kDown then
    MoveThroughMagic s index (kMagicWallConversion (GetItem s index))
  else if CanRollLeft s index then RollLeft s index kElDiamondFalling
  else if CanRollRight s index then RollRight s index kElDiamondFalling
  else SetItem s index kElDiamond

def UpdateDiamond (s : BoulderDashGameState) (index : Int) : BoulderDashGameState :=
  if !s.gravity then s
  else if IsType s index kElEmpty .kDown then
    let s := SetItem s index kElDiamondFalling
    UpdateDiamondFalling s index
  else if CanRollLeft s index then RollLeft s index kElDiamondFalling
  else if CanRollRight s index then RollRight s index kElDiamondFalling
  else s

def UpdateNutFalling (s : BoulderDashGameState) (index : Int) : BoulderDashGameState :=
  if IsType s index kElEmpty .kDown then MoveItem s index .kDown
  else if CanRollLeft s index then RollLeft s index kElNutFalling
  else if CanRollRight s index then RollRight s index kElNutFalling
  else SetItem s index kElNut

def UpdateNut (s : BoulderDashGameState) (index : Int) : BoulderDashGameState :=
  if !s.gravity then s
  else if IsType s index kElEmpty .kDown then
    let s := SetItem s index kElNutFalling
    UpdateNutFalling s index
  else if CanRollLeft s index then RollLeft s index kElNutFalling
  else if CanRollRight s index then RollRight s index kElNutFalling
  else s

def UpdateBombFalling (s : BoulderDashGameState) (index : Int) : BoulderDashGameState :=
  if IsType s index kElEmpty .kDown then MoveItem s index .kDown
  else if CanRollLeft s index then RollLeft s index kElBombFalling
  else if CanRollRight s index then RollRight s index kElBombFalling
  else if !s.disable_explosions then
    Explode (explodeFuel s) s index (elementToExplosionOrEmpty (GetItem s index))
  else s

def UpdateBomb (s : BoulderDashGameState) (index : Int) : BoulderDashGameState :=
  if !s.gravity then s
  else if IsType s index kElEmpty .kDown then
    let s := SetItem s index kElBombFalling
    UpdateBombFalling s index
  else if CanRollLeft s index then RollLeft s index kElBomb
  else if CanRollRight s index then RollRight s index kElBomb
  else s

def UpdateExit (s : BoulderDashGameState) (index : Int) : BoulderDashGameState :=
  if s.gems_collected ≥ s.gems_required then SetItem s index kElExitOpen else s

def OpenGate (s : BoulderDashGameState) (element : Element) : BoulderDashGameState :=
  (intRange (s.rows * s.cols)).foldl
    (fun st index =>
      if listGetI st.grid index .kNull == element.cell_type then
        SetItem st index (kGateOpenMap (GetItem st index))
      else st) s

def UpdateAgent (s : BoulderDashGameState) (index : Int) (direction : Direction) :
    BoulderDashGameState :=
  if !(InBounds s index direction) then s
  else if IsType s index kElEmpty direction || IsType s index kElDirt direction then
    let s := MoveItem s index direction
    {s with agent_idx := IndexFromDirection s index direction}
  else if IsType s index kElDiamond direction || IsType s index kElDiamondFalling direction then
    let s := {s with gems_collected := s.gems_collected + 1,
                     reward_signal := s.reward_signal ||| kRewardCollectDiamond}
    let s := MoveItem s index direction
    {s with agent_idx := IndexFromDirection s index direction}
  else if IsDirectionHorz direction && HasProperty s index ElementProperties.kPushable direction then
    Push s index (GetItem s index direction) (kElToFalling (GetItem s index direction)) direction
  else if IsKey (GetItem s index direction) then
    let key_type := GetItem s index direction
    let s := OpenGate s (kKeyToGate key_type)
    let s := MoveItem s index direction
    let s := {s with agent_idx := IndexFromDirection s index direction}
    let s := {s with reward_signal := s.reward_signal ||| kRewardCollectKey}
    {s with reward_signal := s.reward_signal ||| kKeyToSignal key_type}
  else if IsOpenGate (GetItem s index direction) then
    let index_gate := IndexFromDirection s index direction
    if HasProperty s index_gate ElementProperties.kTraversable direction then
      let s :=
        if IsType s index_gate kElDiamond direction ||
            IsType s index_gate kElDiamondFalling direction then
          {s with gems_collected := s.gems_collected + 1,
                  reward_signal := s.reward_signal ||| kRewardCollectDiamond}
        else if IsKey (GetItem s index_gate direction) then
          let key_type := GetItem s index_gate direction
          let s := OpenGate s (kKeyToGate key_type)
          let s := {s with reward_signal := s.reward_signal ||| kRewardCollectKey}
          {s with reward_signal := s.reward_signal ||| kKeyToSignal key_type}
        else s
      let s := SetItem s index_gate kElAgent direction
      let s := SetItem s index kElEmpty
      let s := {s with agent_idx := IndexFromDirection s index_gate direction}
      let s := {s with reward_signal := s.reward_signal ||| kRewardWalkThroughGate}
      {s with reward_signal := s.reward_signal ||| kGateToSignal (GetItem s index_gate)}
    else s
  else if IsType s index kElExitOpen direction then
    let s := MoveItem s index direction
    let s := SetItem s index kElAgentInExit direction
    let s := {s with agent_idx := IndexFromDirection s index direction}
    let s := {s with is_agent_in_exit := true}
    {s with reward_signal := s.reward_signal ||| kRewardWalkThroughExit}
  else s

def UpdateFirefly (s : BoulderDashGameState) (index : Int) (direction : Direction) :
    BoulderDashGameState :=
  let new_dir := kRotateLeft direction
  if IsTypeAdjacent s index kElAgent || IsTypeAdjacent s index kElBlob then
    Explode (explodeFuel s) s index (elementToExplosionOrEmpty (GetItem s index))
  else if IsType s index kElEmpty new_dir then
    let s := SetItem s index (kDirectionToFirefly new_dir)
    MoveItem s index new_dir
  else if IsType s index kElEmpty direction then
    let s := SetItem s index (kDirectionToFirefly direction)
    MoveItem s index direction
  else
    SetItem s index (kDirectionToFirefly (kRotateRight direction))

def UpdateButterfly (s : BoulderDashGameState) (index : Int) (direction : Direction) :
    BoulderDashGameState :=
  let new_dir := kRotateRight direction
  if IsTypeAdjacent s index kElAgent || IsTypeAdjacent s index kElBlob then
    Explode (explodeFuel s) s index (elementToExplosionOrEmpty (GetItem s index))
  else if IsType s index kElEmpty new_dir then
    let s := SetItem s index (kDirectionToButterfly new_dir)
    MoveItem s index new_dir
  else if IsType s index kElEmpty direction then
    let s := SetItem s index (kDirectionToButterfly direction)
    MoveItem s index direction
  else
    let s := SetItem s index (kDirectionToButterfly (kRotateLeft direction))
    if s.butterfly_move_ver == 2 then
      let new_dir := kRotateLeft direction
      MoveItem s index new_dir
    else s

def UpdateOrange (s : BoulderDashGameState) (index : Int) (direction : Direction) :
    BoulderDashGameState :=
  if IsType s index kElEmpty direction then MoveItem s index direction
  else if IsTypeAdjacent s index kElAgent then
    Explode (explodeFuel s) s index (elementToExplosionOrEmpty (GetItem s index))
  else
    let open_dirs := [Direction.kUp, Direction.kRight, Direction.kDown, Direction.kLeft].filter
      (fun dir => !(dir == Direction.kNoop) && InBounds s index dir &&
        IsType s index kElEmpty dir)
    if !open_dirs.isEmpty then
      let r := xorshift64 s.random_state
      let s := {s with random_state := r}
      let new_dir := listGetN open_dirs (r % open_dirs.length) Direction.kUp
      SetItem s index (kDirectionToOrange new_dir)
    else s

def UpdateMagicWall (s : BoulderDashGameState) (index : Int) : BoulderDashGameState :=
  if s.magic_active then SetItem s index kElWallMagicOn
  else if s.magic_wall_steps > 0 then SetItem s index kElWallMagicDormant
  else SetItem s index kElWallMagicExpired

def BASE_CHANCE : Nat := 256

def UpdateBlob (s : BoulderDashGameState) (index : Int) : BoulderDashGameState :=
  if !(s.blob_swap == HiddenCellType.kNull) then
    SetItem s index (kCellTypeToElement s.blob_swap)
  else
    let s := {s with blob_size := s.blob_size + 1}
    let s := if IsTypeAdjacent s index kElEmpty || IsTypeAdjacent s index kElDirt then
        {s with blob_enclosed := false}
      else s
    let r := xorshift64 s.random_state
    let s := {s with random_state := r}
    let will_grow := r % BASE_CHANCE < s.blob_chance
    let r2 := xorshift64 s.random_state
    let s := {s with random_state := r2}
    let grow_dir := directionOfNat (r2 % 4)
    if will_grow && (IsType s index kElEmpty grow_dir || IsType s index kElDirt grow_dir) then
      SetItem s index kElBlob grow_dir
    else s

def UpdateExplosions (s : BoulderDashGameState) (index : Int) : BoulderDashGameState :=
  let s := {s with reward_signal := s.reward_signal ||| kExplosionToReward (GetItem s index)}
  SetItem s index (kExplosionToElement (GetItem s index))

/-! ### Tick driver (lines 173-239, 899-921) -/

def StartScan (s : BoulderDashGameState) : BoulderDashGameState :=
  let s := {s with blob_size := 0, blob_enclosed := true, reward_signal := 0}
  {s with has_updated :=
    (intRange (s.rows * s.cols)).foldl (fun u i => listSetI u i false) s.has_updated}

def EndScan (s : BoulderDashGameState) : BoulderDashGameState :=
  let s :=
    if s.blob_swap == HiddenCellType.kNull then
      let s := if s.blob_enclosed then {s with blob_swap := HiddenCellType.kDiamond} else s
      if s.blob_size > s.blob_max_size then {s with blob_swap := HiddenCellType.kStone} else s
    else s
  let s := if s.magic_active then {s with magic_wall_steps := max (s.magic_wall_steps - 1) 0}
    else s
  {s with magic_active := s.magic_active && decide (s.magic_wall_steps > 0)}

/-- One cell of the per-tick scan (the switch in apply_action, lines 182-236). -/
def dispatchCell (s : BoulderDashGameState) (i : Int) : BoulderDashGameState :=
  match listGetI s.grid i .kNull with
  | .kStone => UpdateStone s i
  | .kStoneFalling => UpdateStoneFalling s i
  | .kDiamond => UpdateDiamond s i
  | .kDiamondFalling => UpdateDiamondFalling s i
  | .kNut => UpdateNut s i
  | .kNutFalling => UpdateNutFalling s i
  | .kBomb => UpdateBomb s i
  | .kBombFalling => UpdateBombFalling s i
  | .kExitClosed => UpdateExit s i
  | .kBlob => UpdateBlob s i
  | hidden_el =>
    let element := kCellTypeToElement hidden_el
    if IsButterfly element then UpdateButterfly s i (kButterflyToDirection element)
    else if IsFirefly element then UpdateFirefly s i (kFireflyToDirection element)
    else if IsOrange element then UpdateOrange s i (kOrangeToDirection element)
    else if IsMagicWall element then UpdateMagicWall s i
    else if IsExplosion element then UpdateExplosions s i
    else s

def apply_action (s : BoulderDashGameState) (action : Action) : BoulderDashGameState :=
  -- assert(is_valid_action(action)): always true, Action has exactly the 4 values
  let s := StartScan s
  let action_direction := action_to_direction action
  let s := UpdateAgent s s.agent_idx action_direction
  let s := (intRange (s.rows * s.cols)).foldl
    (fun st i => if listGetI st.has_updated i false then st else dispatchCell st i) s
  EndScan s

def is_terminal (s : BoulderDashGameState) : Bool :=
  !s.is_agent_alive || s.is_agent_in_exit

def is_solution (s : BoulderDashGameState) : Bool :=
  s.is_agent_in_exit

def get_reward_signal (s : BoulderDashGameState) : Nat :=
  s.reward_signal

def get_hash (s : BoulderDashGameState) : Nat :=
  s.hash

/-- boulderdash_base.h lines 1021-1023: the upper bound is kNumVisibleCellType. -/
def is_valid_hidden_element (element : HiddenCellType) : Bool :=
  decide (0 ≤ element.toInt) && decide (element.toInt < kNumVisibleCellType)

end BoulderDashGameState

/-! ### Board parser (boulderdash_base.cpp lines 74-134).
The C++ splits with std::getline on the pipe character and converts tokens with
std::stoi; exceptions become Except.error.  The two assert statements (lines 83
and 88) are compiled out in NDEBUG builds and modelled as no-ops. -/

/-- Standard split on the pipe character (every delimiter produces a boundary). -/
def splitPipeAux : List Char → List Char → List (List Char)
  | [], acc => [acc.reverse]
  | c :: rest, acc =>
    if c = '|' then acc.reverse :: splitPipeAux rest [] else splitPipeAux rest (c :: acc)

/-- Token list of the C++ getline splitting loop: getline fails (producing no
token) only when it extracts no characters at all, so a final empty remainder
after the last delimiter is not a token. -/
def boardSegments (cs : List Char) : List (List Char) :=
  let parts := splitPipeAux cs []
  if parts.getLast? = some [] then parts.dropLast else parts

/-- std::stoi: optional whitespace, optional sign, at least one digit (else
invalid_argument), trailing characters ignored, int range checked (else
out_of_range).  Both exceptions surface as construction failures. -/
def stoiChars (cs : List Char) : Except String Int :=
  let cs := cs.dropWhile (fun c => c.isWhitespace)
  let signAndRest : Bool × List Char :=
    match cs with
    | '-' :: rest => (true, rest)
    | '+' :: rest => (false, rest)
    | _ => (false, cs)
  let ds := signAndRest.2.takeWhile (fun c => c.isDigit)
  if ds.isEmpty then Except.error "stoi: invalid argument"
  else
    let v : Nat := ds.foldl (fun acc c => acc * 10 + (c.toNat - 48)) 0
    let vi : Int := if signAndRest.1 then -(v : Int) else (v : Int)
    if vi < -2147483648 ∨ 2147483647 < vi then Except.error "stoi: out of range"
    else Except.ok vi

structure ParsedBoard where
  rows : Int
  cols : Int
  gems_required : Int
  grid : List HiddenCellType
  has_updated : List Bool
  agent_idx : Int
  is_agent_alive : Bool
  is_agent_in_exit : Bool
  agent_counter : Int
  deriving DecidableEq, Repr

/-- The grid-parsing loop of parse_board_str (lines 92-108); i is the running
seglist index (starting at 3). -/
def parseGridLoop (segs : List (List Char)) (i : Int) (pb : ParsedBoard) :
    Except String ParsedBoard :=
  match segs with
  | [] => Except.ok pb
  | seg :: rest => do
    let hidden_type ← stoiChars seg
    if hidden_type < 0 ∨ kNumHiddenCellType ≤ hidden_type then
      Except.error ("Unknown element type: " ++ toString hidden_type)
    else
      let el := hiddenCellTypeOfInt hidden_type
      let pb := {pb with grid := pb.grid ++ [el], has_updated := pb.has_updated ++ [false]}
      let pb :=
        if el == HiddenCellType.kAgent || el == HiddenCellType.kAgentInExit then
          {pb with agent_idx := i - 3, is_agent_alive := true,
                   is_agent_in_exit := el == HiddenCellType.kAgentInExit,
                   agent_counter := pb.agent_counter + 1}
        else pb
      parseGridLoop rest (i + 1) pb

def parse_board_str (board_str : String) : Except String ParsedBoard := do
  let seglist := boardSegments board_str.toList
  -- assert(seglist.size() >= 4): no-op in NDEBUG builds
  let rows ← stoiChars (seglist.getD 0 [])
  let cols ← stoiChars (seglist.getD 1 [])
  -- assert(seglist.size() == rows*cols + 3): no-op in NDEBUG builds; see claims C1 and C6
  let gems_required ← stoiChars (seglist.getD 2 [])
  let pb0 : ParsedBoard :=
    { rows := rows, cols := cols, gems_required := gems_required, grid := [],
      has_updated := [], agent_idx := -1, is_agent_alive := false,
      is_agent_in_exit := false, agent_counter := 0 }
  let pb ← parseGridLoop (seglist.drop 3) 3 pb0
  if pb.agent_counter == 0 then Except.error "Agent element not found"
  else if pb.agent_counter > 1 then Except.error "Too many agent elements, expected only one"
  else Except.ok pb

/-- The constructor BoulderDashGameState(board_str, params) (lines 117-134). -/
def constructState (board_str : String) (params : GameParameters) :
    Except String BoulderDashGameState := do
  let pb ← parse_board_str board_str
  let flat_size := pb.rows * pb.cols
  -- C++: static_cast<int>(static_cast<float>(cols*rows) * params.blob_max_percentage);
  -- modelled exactly: truncation toward zero of the rational flat_size * percentage
  -- (no claim depends on float rounding of this value)
  let blob_max_size :=
    Int.tdiv (flat_size * params.blob_max_percentage.num) (params.blob_max_percentage.den : Int)
  let hash := (intRange flat_size).foldl
    (fun h i => h ^^^ to_local_hash flat_size (listGetI pb.grid i .kNull) i) 0
  Except.ok {
    magic_wall_steps := params.magic_wall_steps,
    blob_max_size := blob_max_size,
    butterfly_explosion_ver := params.butterfly_explosion_ver,
    butterfly_move_ver := params.butterfly_move_ver,
    gems_collected := 0,
    magic_wall_steps_remaining := 0,
    blob_size := 0,
    rows := pb.rows,
    cols := pb.cols,
    agent_idx := pb.agent_idx,
    gems_required := pb.gems_required,
    random_state := splitmix64 0,
    reward_signal := 0,
    hash := hash,
    blob_chance := (Int.emod params.blob_chance 256).toNat,
    gravity := params.gravity,
    disable_explosions := params.disable_explosions,
    magic_active := false,
    blob_enclosed := true,
    is_agent_alive := pb.is_agent_alive,
    is_agent_in_exit := pb.is_agent_in_exit,
    blob_swap := HiddenCellType.kNull,
    grid := pb.grid,
    has_updated := pb.has_updated }

/-! ### Derived notions used by the verification (definitions, no proofs). -/

/-- XOR over all flat indices of H(grid[i], i): the from-scratch board hash of
the spec (section 3 invariant 3 and section 8). -/
def boardHashG (flat_size : Int) (grid : List HiddenCellType) : Nat :=
  (intRange flat_size).foldl
    (fun h i => h ^^^ to_local_hash flat_size (listGetI grid i .kNull) i) 0

def boardHash (s : BoulderDashGameState) : Nat :=
  boardHashG (s.rows * s.cols) s.grid

/-- States reachable through the public interface: a successful construction
from a level string, followed by any number of apply_action calls (terminal or
not). -/
inductive Reachable : BoulderDashGameState → Prop where
  | init (board_str : String) (params : GameParameters) (s : BoulderDashGameState) :
      constructState board_str params = Except.ok s → Reachable s
  | step (s : BoulderDashGameState) (a : Action) :
      Reachable s → Reachable (BoulderDashGameState.apply_action s a)

/-- Reachability restricted to well-formed constructions: the level string has
the token count rows*cols + 3 that the (NDEBUG-disabled) assert of
parse_board_str expects, which is equivalent to the parsed grid having exactly
rows*cols cells. -/
inductive ReachableWF : BoulderDashGameState → Prop where
  | init (board_str : String) (params : GameParameters) (s : BoulderDashGameState) :
      constructState board_str params = Except.ok s →
      (s.grid.length : Int) = s.rows * s.cols → ReachableWF s
  | step (s : BoulderDashGameState) (a : Action) :
      ReachableWF s → ReachableWF (BoulderDashGameState.apply_action s a)

/-- The structural well-formedness carried by every ReachableWF state. -/
def WF (s : BoulderDashGameState) : Prop :=
  0 ≤ s.rows * s.cols ∧
  (s.grid.length : Int) = s.rows * s.cols ∧
  s.has_updated.length = s.grid.length ∧
  (0 ≤ s.agent_idx ∧ s.agent_idx < s.rows * s.cols) ∧
  s.hash = boardHash s

/-- The (hash, reward_signal) pair after each step of an action sequence
(spec section 8, determinism). -/
def hashRewardTrajectory (s : BoulderDashGameState) (acts : List Action) : List (Nat × Nat) :=
  (acts.foldl
    (fun (p : BoulderDashGameState × List (Nat × Nat)) a =>
      let t := BoulderDashGameState.apply_action p.1 a
      (t, p.2 ++ [(t.hash, t.reward_signal)]))
    (s, [])).2

/-- An arbitrary inhabitant used only as the getD fallback when destructing
Except values of successful constructions. -/
def defaultState : BoulderDashGameState :=
  { magic_wall_steps := 0, blob_max_size := 0, butterfly_explosion_ver := 1,
    butterfly_move_ver := 1, gems_collected := 0, magic_wall_steps_remaining := 0,
    blob_size := 0, rows := 0, cols := 0, agent_idx := 0, gems_required := 0,
    random_state := 0, reward_signal := 0, hash := 0, blob_chance := 0,
    gravity := false, disable_explosions := false, magic_active := false,
    blob_enclosed := true, is_agent_alive := false, is_agent_in_exit := false,
    blob_swap := .kNull, grid := [], has_updated := [] }

/-- The state constructed from a level string (defaultState when construction
fails; used only on strings whose construction succeeds). -/
def stateOf (board_str : String) (params : GameParameters) : BoulderDashGameState :=
  (constructState board_str params).toOption.getD defaultState

namespace BoulderDashGameState

/-- Follows the words of the spec for claim C2 (spec 4.F Explode): identical to
Explode except that the recursive call for a CanExplode neighbor passes the
explosion product of that neighbor, recomputed at the call. -/
def ExplodeSpecNeighborProduct (fuel : Nat) (s : BoulderDashGameState) (index : Int)
    (element : Element) (direction : Direction := Direction.kNoop) : BoulderDashGameState :=
  match fuel with
  | 0 => s
  | fuel + 1 =>
    let new_index := IndexFromDirection s index direction
    let ex := elementToExplosionOrEmpty (GetItem s new_index)
    let s := if GetItem s new_index == kElAgent then {s with is_agent_alive := false} else s
    let s := SetItem s new_index element
    allDirections.foldl (fun st dir =>
      if dir == Direction.kNoop || !(InBounds st new_index dir) then st
      else if HasProperty st new_index ElementProperties.kCanExplode dir then
        ExplodeSpecNeighborProduct fuel st new_index
          (elementToExplosionOrEmpty (GetItem st new_index dir)) dir
      else if HasProperty st new_index ElementProperties.kConsumable dir then
        let st := SetItem st new_index ex dir
        if GetItem st new_index dir == kElAgent then {st with is_agent_alive := false} else st
      else st) s

/-- Follows the words of the amended claim C2: the recursive call for every
CanExplode neighbor passes the explosion product of the just-exploded cell at
the caller's target, as that cell read before it was overwritten. -/
def ExplodeSpecParentProduct (fuel : Nat) (s : BoulderDashGameState) (index : Int)
    (element : Element) (direction : Direction := Direction.kNoop) : BoulderDashGameState :=
  match fuel with
  | 0 => s
  | fuel + 1 =>
    let new_index := IndexFromDirection s index direction
    let exploded_kind := listGetI s.grid new_index .kNull
    let s := if GetItem s new_index == kElAgent then {s with is_agent_alive := false} else s
    let s := SetItem s new_index element
    allDirections.foldl (fun st dir =>
      if dir == Direction.kNoop || !(InBounds st new_index dir) then st
      else if HasProperty st new_index ElementProperties.kCanExplode dir then
        ExplodeSpecParentProduct fuel st new_index
          (elementToExplosionOrEmpty (kCellTypeToElement exploded_kind)) dir
      else if HasProperty st new_index ElementProperties.kConsumable dir then
        let st := SetItem st new_index
          (elementToExplosionOrEmpty (kCellTypeToElement exploded_kind)) dir
        if GetItem st new_index dir == kElAgent then {st with is_agent_alive := false} else st
      else st) s

/-! ### Instrumented copies counting Explode invocations (claim C3).
Each twin returns the same state as its original together with the number of
Explode invocations performed (each entered Explode call body counts once). -/

def ExplodeCount (fuel : Nat) (s : BoulderDashGameState) (index : Int) (element : Element)
    (direction : Direction := Direction.kNoop) : BoulderDashGameState × Nat :=
  match fuel with
  | 0 => (s, 0)
  | fuel + 1 =>
    let new_index := IndexFromDirection s index direction
    let ex := elementToExplosionOrEmpty (GetItem s new_index)
    let s := if GetItem s new_index == kElAgent then {s with is_agent_alive := false} else s
    let s := SetItem s new_index element
    allDirections.foldl (fun (p : BoulderDashGameState × Nat) dir =>
      let st := p.1
      if dir == Direction.kNoop || !(InBounds st new_index dir) then p
      else if HasProperty st new_index ElementProperties.kCanExplode dir then
        let q := ExplodeCount fuel st new_index ex dir
        (q.1, p.2 + q.2)
      else if HasProperty st new_index ElementProperties.kConsumable dir then
        let st := SetItem st new_index ex dir
        (if GetItem st new_index dir == kElAgent then {st with is_agent_alive := false} else st,
         p.2)
      else p) (s, 1)

def UpdateStoneFallingCount (s : BoulderDashGameState) (index : Int) :
    BoulderDashGameState × Nat :=
  if IsType s index kElEmpty .kDown then (MoveItem s index .kDown, 0)
  else if s.butterfly_explosion_ver == 2 && IsButterfly (GetItem s index .kDown) then
    let s := SetItem s index kElEmpty
    let s := SetItem s index kElDiamond .kDown
    ({s with reward_signal := s.reward_signal ||| kRewardButterflyToDiamond}, 0)
  else if HasProperty s index ElementProperties.kCanExplode .kDown then
    ExplodeCount (explodeFuel s) s index (elementToExplosionOrEmpty (GetItem s index .kDown)) .kDown
  else if IsType s index kElWallMagicOn .kDown || IsType s index kElWallMagicDormant .kDown then
    (MoveThroughMagic s index (kMagicWallConversion (GetItem s index)), 0)
  else if IsType s index kElNut .kDown then
    let s := SetItem s index kElDiamond .kDown
    ({s with reward_signal := s.reward_signal ||| kRewardNutToDiamond}, 0)
  else if IsType s index kElBomb .kDown then
    ExplodeCount (explodeFuel s) s index (elementToExplosionOrEmpty (GetItem s index))
  else if CanRollLeft s index then (RollLeft s index kElStoneFalling, 0)
  else if CanRollRight s index then (RollRight s index kElStoneFalling, 0)
  else (SetItem s index kElStone, 0)

def UpdateStoneCount (s : BoulderDashGameState) (index : Int) : BoulderDashGameState × Nat :=
  if !s.gravity then (s, 0)
  else if IsType s index kElEmpty .kDown then
    let s := SetItem s index kElStoneFalling
    UpdateStoneFallingCount s index
  else if CanRollLeft s index then (RollLeft s index kElStoneFalling, 0)
  else if CanRollRight s index then (RollRight s index kElStoneFalling, 0)
  else (s, 0)

def UpdateDiamondFallingCount (s : BoulderDashGameState) (index : Int) :
    BoulderDashGameState × Nat :=
  if IsType s index kElEmpty .kDown then (MoveItem s index .kDown, 0)
  else if HasProperty s index ElementProperties.kCanExplode .kDown &&
      !(IsType s index kElBomb .kDown) && !(IsType s index kElBombFalling .kDown) then
    ExplodeCount (explodeFuel s) s index (elementToExplosionOrEmpty (GetItem s index .kDown)) .kDown
  else if IsType s index kElWallMagicOn .kDown || IsType s index kElWallMagicDormant .kDown then
    (MoveThroughMagic s index (kMagicWallConversion (GetItem s index)), 0)
  else if CanRollLeft s index then (RollLeft s index kElDiamondFalling, 0)
  else if CanRollRight s index then (RollRight s index kElDiamondFalling, 0)
  else (SetItem s index kElDiamond, 0)

def UpdateDiamondCount (s : BoulderDashGameState) (index : Int) : BoulderDashGameState × Nat :=
  if !s.gravity then (s, 0)
  else if IsType s index kElEmpty .kDown then
    let s := SetItem s index kElDiamondFalling
    UpdateDiamondFallingCount s index
  else if CanRollLeft s index then (RollLeft s index kElDiamondFalling, 0)
  else if CanRollRight s index then (RollRight s index kElDiamondFalling, 0)
  else (s, 0)

def UpdateBombFallingCount (s : BoulderDashGameState) (index : Int) :
    BoulderDashGameState × Nat :=
  if IsType s index kElEmpty .kDown then (MoveItem s index .kDown, 0)
  else if CanRollLeft s index then (RollLeft s index kElBombFalling, 0)
  else if CanRollRight s index then (RollRight s index kElBombFalling, 0)
  else if !s.disable_explosions then
    ExplodeCount (explodeFuel s) s index (elementToExplosionOrEmpty (GetItem s index))
  else (s, 0)

def UpdateBombCount (s : BoulderDashGameState) (index : Int) : BoulderDashGameState × Nat :=
  if !s.gravity then (s, 0)
  else if IsType s index kElEmpty .kDown then
    let s := SetItem s index kElBombFalling
    UpdateBombFallingCount s index
  else if CanRollLeft s index then (RollLeft s index kElBomb, 0)
  else if CanRollRight s index then (RollRight s index kElBomb, 0)
  else (s, 0)

def UpdateFireflyCount (s : BoulderDashGameState) (index : Int) (direction : Direction) :
    BoulderDashGameState × Nat :=
  let new_dir := kRotateLeft direction
  if IsTypeAdjacent s index kElAgent || IsTypeAdjacent s index kElBlob then
    ExplodeCount (explodeFuel s) s index (elementToExplosionOrEmpty (GetItem s index))
  else if IsType s index kElEmpty new_dir then
    let s := SetItem s index (kDirectionToFirefly new_dir)
    (MoveItem s index new_dir, 0)
  else if IsType s index kElEmpty direction then
    let s := SetItem s index (kDirectionToFirefly direction)
    (MoveItem s index direction, 0)
  else
    (SetItem s index (kDirectionToFirefly (kRotateRight direction)), 0)

def UpdateButterflyCount (s : BoulderDashGameState) (index : Int) (direction : Direction) :
    BoulderDashGameState × Nat :=
  let new_dir := kRotateRight direction
  if IsTypeAdjacent s index kElAgent || IsTypeAdjacent s index kElBlob then
    ExplodeCount (explodeFuel s) s index (elementToExplosionOrEmpty (GetItem s index))
  else if IsType s index kElEmpty new_dir then
    let s := SetItem s index (kDirectionToButterfly new_dir)
    (MoveItem s index new_dir, 0)
  else if IsType s index kElEmpty direction then
    let s := SetItem s index (kDirectionToButterfly direction)
    (MoveItem s index direction, 0)
  else
    let s := SetItem s index (kDirectionToButterfly (kRotateLeft direction))
    if s.butterfly_move_ver == 2 then
      let new_dir := kRotateLeft direction
      (MoveItem s index new_dir, 0)
    else (s, 0)

def UpdateOrangeCount (s : BoulderDashGameState) (index : Int) (direction : Direction) :
    BoulderDashGameState × Nat :=
  if IsType s index kElEmpty direction then (MoveItem s index direction, 0)
  else if IsTypeAdjacent s index kElAgent then
    ExplodeCount (explodeFuel s) s index (elementToExplosionOrEmpty (GetItem s index))
  else
    let open_dirs := [Direction.kUp, Direction.kRight, Direction.kDown, Direction.kLeft].filter
      (fun dir => !(dir == Direction.kNoop) && InBounds s index dir &&
        IsType s index kElEmpty dir)
    if !open_dirs.isEmpty then
      let r := xorshift64 s.random_state
      let s := {s with random_state := r}
      let new_dir := listGetN open_dirs (r % open_dirs.length) Direction.kUp
      (SetItem s index (kDirectionToOrange new_dir), 0)
    else (s, 0)

def dispatchCellCount (s : BoulderDashGameState) (i : Int) : BoulderDashGameState × Nat :=
  match listGetI s.grid i .kNull with
  | .kStone => UpdateStoneCount s i
  | .kStoneFalling => UpdateStoneFallingCount s i
  | .kDiamond => UpdateDiamondCount s i
  | .kDiamondFalling => UpdateDiamondFallingCount s i
  | .kNut => (UpdateNut s i, 0)
  | .kNutFalling => (UpdateNutFalling s i, 0)
  | .kBomb => UpdateBombCount s i
  | .kBombFalling => UpdateBombFallingCount s i
  | .kExitClosed => (UpdateExit s i, 0)
  | .kBlob => (UpdateBlob s i, 0)
  | hidden_el =>
    let element := kCellTypeToElement hidden_el
    if IsButterfly element then UpdateButterflyCount s i (kButterflyToDirection element)
    else if IsFirefly element then UpdateFireflyCount s i (kFireflyToDirection element)
    else if IsOrange element then UpdateOrangeCount s i (kOrangeToDirection element)
    else if IsMagicWall element then (UpdateMagicWall s i, 0)
    else if IsExplosion element then (UpdateExplosions s i, 0)
    else (s, 0)

/-- apply_action instrumented with the total Explode invocation count of the
tick.  UpdateAgent performs no Explode call, so only the scan is counted. -/
def applyActionCount (s : BoulderDashGameState) (action : Action) :
    BoulderDashGameState × Nat :=
  let s := StartScan s
  let action_direction := action_to_direction action
  let s := UpdateAgent s s.agent_idx action_direction
  let p := (intRange (s.rows * s.cols)).foldl
    (fun (p : BoulderDashGameState × Nat) i =>
      if listGetI p.1.has_updated i false then p
      else
        let q := dispatchCellCount p.1 i
        (q.1, p.2 + q.2))
    (s, 0)
  (EndScan p.1, p.2)

/-! ### The potential used to bound the Explode invocation count (claim C3). -/

/-- Cell kinds carrying the CanExplode property (in the modelled catalog:
agent, fireflies, butterflies, oranges, bombs and falling bombs). -/
def isExplodableKind (c : HiddenCellType) : Bool :=
  (cellProperties c &&& ElementProperties.kCanExplode) > 0

/-- Whether cell i can still pay for one Explode invocation this tick: it is
explodable (flag-insensitively), or it is a falling stone or a blob whose cell
has not been updated yet. -/
def cellBudget (s : BoulderDashGameState) (i : Int) : Bool :=
  let c := listGetI s.grid i .kNull
  isExplodableKind c ||
    ((c == HiddenCellType.kStoneFalling || c == HiddenCellType.kBlob) &&
      !(listGetI s.has_updated i false))

/-- Number of budget-carrying cells in the flat index range. -/
def budget (s : BoulderDashGameState) : Nat :=
  ((intRange (s.rows * s.cols)).filter (fun i => cellBudget s i)).length

end BoulderDashGameState

/-- Kinds that carry no budget: not explodable, not a falling stone, not a blob. -/
def budgetFreeKind (c : HiddenCellType) : Bool :=
  !(BoulderDashGameState.isExplodableKind c) && !(c == HiddenCellType.kStoneFalling) &&
    !(c == HiddenCellType.kBlob)

/-- Frame facts preserved by the scan operations: the grid has rows*cols
cells, the flag list matches the grid, and rows, cols and blob_swap are
unchanged from the reference state s. -/
def BFrame (s t : BoulderDashGameState) : Prop :=
  (t.grid.length : Int) = t.rows * t.cols ∧
  t.has_updated.length = t.grid.length ∧
  t.rows = s.rows ∧ t.cols = s.cols ∧ t.blob_swap = s.blob_swap

/-! ### Concrete states used by counterexamples and witnesses. -/

/-- A 3 x 1 column: falling stone above a firefly above a butterfly (no agent;
used directly at the Explode level for claim C2). -/
def C2_state : BoulderDashGameState :=
  { magic_wall_steps := 140, blob_max_size := 0, butterfly_explosion_ver := 1,
    butterfly_move_ver := 1, gems_collected := 0, magic_wall_steps_remaining := 0,
    blob_size := 0, rows := 3, cols := 1, agent_idx := 0, gems_required := 0,
    random_state := splitmix64 0, reward_signal := 0,
    hash := boardHashG 3 [.kStoneFalling, .kFireflyUp, .kButterflyUp],
    blob_chance := 20, gravity := true, disable_explosions := false,
    magic_active := false, blob_enclosed := true, is_agent_alive := false,
    is_agent_in_exit := false, blob_swap := .kNull,
    grid := [.kStoneFalling, .kFireflyUp, .kButterflyUp],
    has_updated := [false, false, false] }

/-- A 1 x 3 row [Diamond, Empty, Empty] with a dead agent whose stale agent_idx
is 0 (the diamond cell); used by claim C8. -/
def C8_state : BoulderDashGameState :=
  { magic_wall_steps := 140, blob_max_size := 0, butterfly_explosion_ver := 1,
    butterfly_move_ver := 1, gems_collected := 0, magic_wall_steps_remaining := 0,
    blob_size := 0, rows := 1, cols := 3, agent_idx := 0, gems_required := 0,
    random_state := splitmix64 0, reward_signal := 0,
    hash := boardHashG 3 [.kDiamond, .kEmpty, .kEmpty],
    blob_chance := 20, gravity := false, disable_explosions := false,
    magic_active := false, blob_enclosed := true, is_agent_alive := false,
    is_agent_in_exit := false, blob_swap := .kNull,
    grid := [.kDiamond, .kEmpty, .kEmpty],
    has_updated := [false, false, false] }

/-! ## Helper lemmas -/

open BoulderDashGameState

/-! helper list lemmas -/

theorem listSetN_length {α : Type} (l : List α) (n : Nat) (v : α) :
    (listSetN l n v).length = l.length := by
  induction l generalizing n with
  | nil => rfl
  | cons a t ih =>
    cases n with
    | zero => rfl
    | succ m => simpa [listSetN] using ih m

theorem listGetN_setN_self {α : Type} (l : List α) (n : Nat) (v d : α) (h : n < l.length) :
    listGetN (listSetN l n v) n d = v := by
  induction l generalizing n with
  | nil => simp at h
  | cons a t ih =>
    cases n with
    | zero => rfl
    | succ m => exact ih m (by simpa using h)

theorem listGetN_setN_ne {α : Type} (l : List α) (n m : Nat) (v d : α) (h : m ≠ n) :
    listGetN (listSetN l n v) m d = listGetN l m d := by
  induction l generalizing n m with
  | nil => rfl
  | cons a t ih =>
    cases n with
    | zero =>
      cases m with
      | zero => exact absurd rfl h
      | succ k => rfl
    | succ j =>
      cases m with
      | zero => rfl
      | succ k => exact ih j k (fun hh => h (by rw [hh]))

theorem listGetN_ge {α : Type} (l : List α) (n : Nat) (d : α) (h : l.length ≤ n) :
    listGetN l n d = d := by
  induction l generalizing n with
  | nil => cases n <;> rfl
  | cons a t ih =>
    cases n with
    | zero => simp at h
    | succ m => exact ih m (by simpa using h)

theorem listGetN_mem_or {α : Type} (l : List α) (n : Nat) (d : α) :
    listGetN l n d ∈ l ∨ listGetN l n d = d := by
  induction l generalizing n with
  | nil => exact Or.inr rfl
  | cons a t ih =>
    cases n with
    | zero => exact Or.inl (List.mem_cons_self a t)
    | succ m =>
      rcases ih m with h | h
      · exact Or.inl (List.mem_cons_of_mem a h)
      · exact Or.inr h

theorem listSetI_length {α : Type} (l : List α) (i : Int) (v : α) :
    (listSetI l i v).length = l.length := by
  unfold listSetI
  split
  · rfl
  · exact listSetN_length l i.toNat v

theorem listGetI_setI_self {α : Type} (l : List α) (i : Int) (v d : α)
    (h0 : 0 ≤ i) (h : i.toNat < l.length) :
    listGetI (listSetI l i v) i d = v := by
  unfold listGetI listSetI
  rw [if_neg (by omega), if_neg (by omega)]
  exact listGetN_setN_self l i.toNat v d h

theorem listGetI_setI_ne {α : Type} (l : List α) (i j : Int) (v d : α) (h : i ≠ j) :
    listGetI (listSetI l j v) i d = listGetI l i d := by
  unfold listGetI listSetI
  by_cases hj : j < 0
  · rw [if_pos hj]
  · rw [if_neg hj]
    by_cases hi : i < 0
    · rw [if_pos hi, if_pos hi]
    · rw [if_neg hi, if_neg hi]
      exact listGetN_setN_ne l j.toNat i.toNat v d (by omega)

theorem listGetI_neg {α : Type} (l : List α) (i : Int) (d : α) (h : i < 0) :
    listGetI l i d = d := by
  unfold listGetI
  rw [if_pos h]

theorem listGetI_ge {α : Type} (l : List α) (i : Int) (d : α) (h : (l.length : Int) ≤ i) :
    listGetI l i d = d := by
  unfold listGetI
  rw [if_neg (by omega)]
  exact listGetN_ge l i.toNat d (by omega)


theorem listSetN_ge {α : Type} (l : List α) (n : Nat) (v : α) (h : l.length ≤ n) :
    listSetN l n v = l := by
  induction l generalizing n with
  | nil => rfl
  | cons a t ih =>
    cases n with
    | zero => simp at h
    | succ m => simpa [listSetN] using ih m (by simpa using h)

theorem exceptBind_ok {e a b : Type} {x : Except e a} {f : a → Except e b} {v : b}
    (h : x >>= f = Except.ok v) : ∃ u, x = Except.ok u ∧ f u = Except.ok v := by
  cases x with
  | error m => exact absurd h (by simp [Bind.bind, Except.bind])
  | ok u => exact ⟨u, rfl, by simpa [Bind.bind, Except.bind] using h⟩



theorem listGetI_setI_false_self (u : List Bool) (i : Int) :
    listGetI (listSetI u i false) i false = false := by
  by_cases hi : i < 0
  · unfold listSetI
    rw [if_pos hi]
    exact listGetI_neg u i false hi
  · by_cases hlen : i.toNat < u.length
    · exact listGetI_setI_self u i false false (by omega) hlen
    · unfold listSetI
      rw [if_neg hi, listSetN_ge u i.toNat false (by omega)]
      unfold listGetI
      rw [if_neg hi]
      exact listGetN_ge u i.toNat false (by omega)

theorem foldl_setI_false_keeps (L : List Int) (u : List Bool) (i : Int)
    (h : listGetI u i false = false) :
    listGetI (L.foldl (fun u j => listSetI u j false) u) i false = false := by
  induction L generalizing u with
  | nil => exact h
  | cons j rest ih =>
    apply ih
    by_cases hij : i = j
    · subst hij
      exact listGetI_setI_false_self u i
    · rw [listGetI_setI_ne u i j false false hij]
      exact h

theorem foldl_setI_false_mem (L : List Int) (u : List Bool) (i : Int) (hi : i ∈ L) :
    listGetI (L.foldl (fun u j => listSetI u j false) u) i false = false := by
  induction L generalizing u with
  | nil => cases hi
  | cons j rest ih =>
    rcases List.mem_cons.mp hi with h | h
    · subst h
      exact foldl_setI_false_keeps rest _ i (listGetI_setI_false_self u i)
    · exact ih _ h

theorem mem_intRange {n i : Int} : i ∈ intRange n ↔ 0 ≤ i ∧ i < n := by
  unfold intRange
  simp only [List.mem_map, List.mem_range, Int.ofNat_eq_coe]
  constructor
  · rintro ⟨k, hk, rfl⟩
    omega
  · rintro ⟨h0, h1⟩
    exact ⟨i.toNat, by omega, by omega⟩

theorem parse_board_str_inv {board_str : String} {pb : ParsedBoard}
    (h : parse_board_str board_str = Except.ok pb) :
    ∃ rows cols gems,
      stoiChars ((boardSegments board_str.toList).getD 0 []) = Except.ok rows ∧
      stoiChars ((boardSegments board_str.toList).getD 1 []) = Except.ok cols ∧
      stoiChars ((boardSegments board_str.toList).getD 2 []) = Except.ok gems ∧
      parseGridLoop ((boardSegments board_str.toList).drop 3) 3
        { rows := rows, cols := cols, gems_required := gems, grid := [],
          has_updated := [], agent_idx := -1, is_agent_alive := false,
          is_agent_in_exit := false, agent_counter := 0 } = Except.ok pb ∧
      pb.agent_counter ≠ 0 ∧ ¬ pb.agent_counter > 1 := by
  unfold parse_board_str at h
  obtain ⟨rows, h0, h⟩ := exceptBind_ok h
  obtain ⟨cols, h1, h⟩ := exceptBind_ok h
  obtain ⟨gems, h2, h⟩ := exceptBind_ok h
  obtain ⟨pb2, h3, h⟩ := exceptBind_ok h
  refine ⟨rows, cols, gems, h0, h1, h2, ?_⟩
  split at h
  · exact absurd h (by simp)
  · split at h
    · exact absurd h (by simp)
    · cases h
      rename_i hne hle
      refine ⟨h3, ?_, hle⟩
      simpa using hne

theorem constructState_inv {board_str : String} {params : GameParameters}
    {s : BoulderDashGameState} (h : constructState board_str params = Except.ok s) :
    ∃ pb, parse_board_str board_str = Except.ok pb ∧
      s.rows = pb.rows ∧ s.cols = pb.cols ∧ s.grid = pb.grid ∧
      s.has_updated = pb.has_updated ∧ s.agent_idx = pb.agent_idx ∧
      s.reward_signal = 0 ∧ s.random_state = splitmix64 0 ∧
      s.hash = boardHashG (pb.rows * pb.cols) pb.grid := by
  unfold constructState at h
  obtain ⟨pb, hpb, h⟩ := exceptBind_ok h
  cases h
  exact ⟨pb, hpb, rfl, rfl, rfl, rfl, rfl, rfl, rfl, rfl⟩






theorem parseGridLoop_inv (segs : List (List Char)) (i : Int) (pb pb2 : ParsedBoard)
    (h : parseGridLoop segs i pb = Except.ok pb2) (hi : 3 ≤ i)
    (hl : (pb.grid.length : Int) = i - 3)
    (hu : pb.has_updated.length = pb.grid.length)
    (hb : ∀ b ∈ pb.has_updated, b = false)
    (hc : 0 ≤ pb.agent_counter)
    (ha : pb.agent_counter ≠ 0 → 0 ≤ pb.agent_idx ∧ pb.agent_idx < (pb.grid.length : Int)) :
    pb2.rows = pb.rows ∧ pb2.cols = pb.cols ∧ pb2.gems_required = pb.gems_required ∧
    (pb2.grid.length : Int) = (pb.grid.length : Int) + segs.length ∧
    pb2.has_updated.length = pb2.grid.length ∧
    (∀ b ∈ pb2.has_updated, b = false) ∧
    0 ≤ pb2.agent_counter ∧
    (pb2.agent_counter ≠ 0 → 0 ≤ pb2.agent_idx ∧ pb2.agent_idx < (pb2.grid.length : Int)) := by
  induction segs generalizing i pb with
  | nil =>
    unfold parseGridLoop at h
    cases h
    refine ⟨rfl, rfl, rfl, by simp, by omega, hb, hc, ?_⟩
    intro hne
    exact ha hne
  | cons seg rest ih =>
    unfold parseGridLoop at h
    obtain ⟨v, hv, h⟩ := exceptBind_ok h
    split at h
    · exact absurd h (by simp)
    · have hb2 : ∀ b ∈ pb.has_updated ++ [false], b = false := by
        intro b hbm
        rcases List.mem_append.mp hbm with hm | hm
        · exact hb b hm
        · simpa using hm
      dsimp only at h
      split at h
      · -- agent cell found at this position
        obtain ⟨r1, r2, r3, r4, r5, r6, r7, r8⟩ :=
          ih (i + 1) _ h (by omega) (by simp; omega) (by simp [hu]) hb2 (by simp; omega)
            (by intro _; constructor <;> simp <;> omega)
        refine ⟨r1, r2, r3, ?_, r5, r6, r7, r8⟩
        simp only [List.length_append, List.length_cons, List.length_nil] at r4 ⊢
        push_cast at r4 ⊢
        omega
      · obtain ⟨r1, r2, r3, r4, r5, r6, r7, r8⟩ :=
          ih (i + 1) _ h (by omega) (by simp; omega) (by simp [hu]) hb2 hc
            (by intro hne; have := ha hne; constructor <;> simp <;> omega)
        refine ⟨r1, r2, r3, ?_, r5, r6, r7, r8⟩
        simp only [List.length_append, List.length_cons, List.length_nil] at r4 ⊢
        push_cast at r4 ⊢
        omega






/-- Structural facts about every successfully constructed state. -/
theorem constructState_wf {board_str : String} {params : GameParameters}
    {s : BoulderDashGameState} (h : constructState board_str params = Except.ok s) :
    s.has_updated.length = s.grid.length ∧
    (∀ b ∈ s.has_updated, b = false) ∧
    (0 ≤ s.agent_idx ∧ s.agent_idx < (s.grid.length : Int)) ∧
    s.reward_signal = 0 ∧ s.random_state = splitmix64 0 ∧
    s.hash = boardHashG (s.rows * s.cols) s.grid := by
  obtain ⟨pb, hpb, hrows, hcols, hgrid, hupd, hidx, hrs, hrand, hhash⟩ := constructState_inv h
  obtain ⟨rows, cols, gems, h0, h1, h2, hloop, hcnt, _⟩ := parse_board_str_inv hpb
  have hinv := parseGridLoop_inv _ 3 _ _ hloop (by omega) (by simp) (by simp)
    (by intro b hb; cases hb) (by simp) (by intro hne; simp at hne)
  obtain ⟨_, _, _, _, r5, r6, _, r8⟩ := hinv
  have hidxb := r8 hcnt
  refine ⟨?_, ?_, ?_, hrs, hrand, ?_⟩
  · rw [hupd, hgrid]; exact r5
  · intro b hb; exact r6 b (hupd ▸ hb)
  · rw [hidx, hgrid]; exact hidxb
  · rw [hhash, hrows, hcols, hgrid]





/-- C5 (amended): has_updated is all-false after construction and is reset to
all-false at the start of every tick (StartScan); it is not cleared again when
apply_action returns. -/
theorem C5_amended :
    (∀ (board_str : String) (params : GameParameters) (s : BoulderDashGameState),
      constructState board_str params = Except.ok s →
      ∀ i : Int, listGetI s.has_updated i false = false) ∧
    (∀ (s : BoulderDashGameState) (i : Int), 0 ≤ i → i < s.rows * s.cols →
      listGetI (BoulderDashGameState.StartScan s).has_updated i false = false) := by
  constructor
  · intro board_str params s h i
    have hall := (constructState_wf h).2.1
    unfold listGetI
    split
    · rfl
    · rcases listGetN_mem_or s.has_updated i.toNat false with hm | hd
      · exact hall _ hm
      · exact hd
  · intro s i h0 h1
    show listGetI ((intRange (s.rows * s.cols)).foldl (fun u j => listSetI u j false)
      s.has_updated) i false = false
    exact foldl_setI_false_mem _ _ i (mem_intRange.mpr ⟨h0, h1⟩)

theorem C5_amended_witness :
    listGetI (stateOf "1|3|0|0|1|1" {}).has_updated 1 false = false ∧
    listGetI (BoulderDashGameState.StartScan (stateOf "1|3|0|0|1|1" {})).has_updated 1 false
      = false :=
  ⟨C5_amended.1 "1|3|0|0|1|1" {} (stateOf "1|3|0|0|1|1" {}) (by decide) 1,
   C5_amended.2 (stateOf "1|3|0|0|1|1" {}) 1 (by decide) (by decide)⟩



-- C10
theorem C10_is_valid_hidden_element :
    (∀ e : HiddenCellType,
      is_valid_hidden_element e = true ↔ (0 ≤ e.toInt ∧ e.toInt < kNumVisibleCellType)) ∧
    is_valid_hidden_element .kKeyYellow = false ∧
    is_valid_hidden_element .kNut = false ∧
    is_valid_hidden_element .kNutFalling = false ∧
    is_valid_hidden_element .kBomb = false ∧
    is_valid_hidden_element .kBombFalling = false ∧
    is_valid_hidden_element .kOrangeUp = false ∧
    is_valid_hidden_element .kOrangeLeft = false ∧
    is_valid_hidden_element .kOrangeDown = false ∧
    is_valid_hidden_element .kOrangeRight = false ∧
    is_valid_hidden_element .kPebbleInDirt = false ∧
    is_valid_hidden_element .kStoneInDirt = false ∧
    is_valid_hidden_element .kVoidInDirt = false ∧
    is_valid_hidden_element .kGateGreenOpen = false ∧
    is_valid_hidden_element .kKeyGreen = false ∧
    is_valid_hidden_element .kGateYellowClosed = false ∧
    is_valid_hidden_element .kGateYellowOpen = false := by
  refine ⟨fun e => ?_, ?_⟩
  · cases e <;> decide
  · decide

-- C6 counterexample: token count 6 differs from rows*cols + 3 = 5, yet construction succeeds
theorem C6_token_count_counterexample :
    (constructState "1|2|0|0|1|1" {}).isOk = true := by decide

theorem C6_amended :
    (constructState "1|2|0|0|1|1" {}).isOk = true ∧
    constructState "1|1|0|77" {} = Except.error "Unknown element type: 77" ∧
    constructState "1|1|0|x" {} = Except.error "stoi: invalid argument" ∧
    constructState "1|2|0|1|1" {} = Except.error "Agent element not found" ∧
    constructState "1|2|0|0|0" {} = Except.error "Too many agent elements, expected only one" := by
  decide

-- C5 counterexample
theorem C5_has_updated_counterexample :
    listGetI (apply_action (stateOf "1|3|0|0|1|1" {}) Action.kRight).has_updated 1 false
      = true := by decide



/-- C7: Construction is a pure function of the level string and parameters with
the RNG seed fixed to SplitMix64(0), so two independently constructed states
stepped with the same action sequence produce identical hash and reward-signal
trajectories. -/
theorem C7_determinism (board_str : String) (params : GameParameters) (acts : List Action)
    (s1 s2 : BoulderDashGameState)
    (h1 : constructState board_str params = Except.ok s1)
    (h2 : constructState board_str params = Except.ok s2) :
    hashRewardTrajectory s1 acts = hashRewardTrajectory s2 acts ∧
    s1.random_state = splitmix64 0 := by
  have hs : s1 = s2 := Except.ok.inj (h1.symm.trans h2)
  subst hs
  exact ⟨rfl, (constructState_wf h1).2.2.2.2.1⟩

/-- Witness for C7 at a concrete level string and action sequence. -/
theorem C7_determinism_witness :
    hashRewardTrajectory (stateOf "1|3|0|0|1|1" {}) [Action.kRight, Action.kLeft] =
      hashRewardTrajectory (stateOf "1|3|0|0|1|1" {}) [Action.kRight, Action.kLeft] ∧
    (stateOf "1|3|0|0|1|1" {}).random_state = splitmix64 0 :=
  C7_determinism "1|3|0|0|1|1" {} [Action.kRight, Action.kLeft] _ _ (by decide) (by decide)


theorem SetItem_grid (s : BoulderDashGameState) (i : Int) (el : Element) (d : Direction) :
    (SetItem s i el d).grid = listSetI s.grid (IndexFromDirection s i d) el.cell_type := rfl

theorem SetItem_rows (s : BoulderDashGameState) (i : Int) (el : Element) (d : Direction) :
    (SetItem s i el d).rows = s.rows := rfl

theorem SetItem_cols (s : BoulderDashGameState) (i : Int) (el : Element) (d : Direction) :
    (SetItem s i el d).cols = s.cols := rfl

theorem IsType_inBounds {s : BoulderDashGameState} {i : Int} {el : Element} {d : Direction}
    (h : IsType s i el d = true) : InBounds s i d = true := by
  simp only [IsType, Bool.and_eq_true] at h
  exact h.1

theorem InBounds_pos {s : BoulderDashGameState} {i : Int} {d : Direction}
    (h : InBounds s i d = true) : 0 < s.cols ∧ 0 < s.rows := by
  simp only [InBounds, Bool.and_eq_true, decide_eq_true_eq] at h
  omega

/-- C4 (amended): when the falling-stone rule reaches the nut branch, the cell
below becomes Diamond and the NutToDiamond bit is OR-ed, but the stone's own
cell is left unchanged (it is not set to Empty). -/
theorem C4_stone_on_nut_amended (s : BoulderDashGameState) (index : Int)
    (h1 : IsType s index kElEmpty .kDown = false)
    (h2 : (s.butterfly_explosion_ver == 2 && IsButterfly (GetItem s index .kDown)) = false)
    (h3 : HasProperty s index ElementProperties.kCanExplode .kDown = false)
    (h4 : (IsType s index kElWallMagicOn .kDown || IsType s index kElWallMagicDormant .kDown)
        = false)
    (h5 : IsType s index kElNut .kDown = true) :
    UpdateStoneFalling s index =
      (let t := SetItem s index kElDiamond .kDown
       {t with reward_signal := t.reward_signal ||| kRewardNutToDiamond}) ∧
    listGetI (UpdateStoneFalling s index).grid index .kNull = listGetI s.grid index .kNull := by
  have heq : UpdateStoneFalling s index =
      (let t := SetItem s index kElDiamond .kDown
       {t with reward_signal := t.reward_signal ||| kRewardNutToDiamond}) := by
    unfold UpdateStoneFalling
    rw [h1, h2, h3, h4, h5]
    simp
  refine ⟨heq, ?_⟩
  rw [heq]
  show listGetI (SetItem s index kElDiamond .kDown).grid index .kNull
      = listGetI s.grid index .kNull
  rw [SetItem_grid]
  have hcols : 0 < s.cols := (InBounds_pos (IsType_inBounds h5)).1
  have : IndexFromDirection s index .kDown = index + s.cols := rfl
  rw [this]
  exact listGetI_setI_ne _ _ _ _ _ (by omega)






/-- C4 counterexample: falling stone on a nut (board 4|1|0|4|39|19|0, cells
StoneFalling/Nut/SteelWall/Agent in one column): the nut branch is reached, the
cell below becomes Diamond, but the stone cell is NOT set to Empty (it stays
StoneFalling), refuting the claim as stated. -/
theorem C4_stone_on_nut_counterexample :
    IsType (stateOf "4|1|0|4|39|19|0" {gravity := true}) 0 kElNut .kDown = true ∧
    ¬ listGetI (UpdateStoneFalling (stateOf "4|1|0|4|39|19|0" {gravity := true}) 0).grid
        0 .kNull = HiddenCellType.kEmpty ∧
    listGetI (UpdateStoneFalling (stateOf "4|1|0|4|39|19|0" {gravity := true}) 0).grid
        0 .kNull = HiddenCellType.kStoneFalling ∧
    listGetI (UpdateStoneFalling (stateOf "4|1|0|4|39|19|0" {gravity := true}) 0).grid
        1 .kNull = HiddenCellType.kDiamond := by
  decide

/-- Witness for the amended C4 at the concrete falling-stone-on-nut state. -/
theorem C4_stone_on_nut_witness :
    UpdateStoneFalling (stateOf "4|1|0|4|39|19|0" {gravity := true}) 0 =
      (let t := SetItem (stateOf "4|1|0|4|39|19|0" {gravity := true}) 0 kElDiamond .kDown
       {t with reward_signal := t.reward_signal ||| kRewardNutToDiamond}) ∧
    listGetI (UpdateStoneFalling (stateOf "4|1|0|4|39|19|0" {gravity := true}) 0).grid
        0 .kNull =
      listGetI (stateOf "4|1|0|4|39|19|0" {gravity := true}).grid 0 .kNull :=
  C4_stone_on_nut_amended (stateOf "4|1|0|4|39|19|0" {gravity := true}) 0
    (by decide) (by decide) (by decide) (by decide) (by decide)





theorem flat_bound {cols rows r c : Int} (hc : 0 ≤ c) (hc2 : c < cols)
    (hr : 0 ≤ r) (hr2 : r < rows) :
    0 ≤ cols * r + c ∧ cols * r + c < rows * cols := by
  have hcols : 0 < cols := by omega
  constructor
  · have : 0 ≤ cols * r := mul_nonneg (by omega) hr
    omega
  · have h1 : cols * (r + 1) ≤ cols * rows := by
      apply mul_le_mul_of_nonneg_left (by omega) (by omega)
    have : cols * (r + 1) = cols * r + cols := by ring
    have : rows * cols = cols * rows := by ring
    omega

theorem indexFromDirection_range {s : BoulderDashGameState} {i : Int} {d : Direction}
    (h0 : 0 ≤ i) (h : InBounds s i d = true) :
    0 ≤ IndexFromDirection s i d ∧ IndexFromDirection s i d < s.rows * s.cols := by
  have hpos := InBounds_pos h
  simp only [InBounds, Bool.and_eq_true, decide_eq_true_eq] at h
  obtain ⟨⟨⟨h1, h2⟩, h3⟩, h4⟩ := h
  have hcols : 0 < s.cols := hpos.1
  have hcne : s.cols ≠ 0 := by omega
  set q := i / s.cols with hq
  have hcol : Int.tmod i s.cols = i % s.cols := Int.tmod_eq_emod h0 (by omega)
  have hmodnn : 0 ≤ i % s.cols := Int.emod_nonneg i hcne
  have hmodlt : i % s.cols < s.cols := Int.emod_lt_of_pos i hcols
  have hsum : s.cols * q + i % s.cols = i := Int.ediv_add_emod i s.cols
  have hrow : Int.tdiv (i - Int.tmod i s.cols) s.cols = q := by
    rw [hcol]
    have : i - i % s.cols = s.cols * q := by omega
    rw [this]
    rw [Int.mul_tdiv_cancel_left q hcne]
  rw [hcol] at h1 h2
  rw [hrow] at h3 h4
  -- h1 : 0 ≤ i % cols + dc, h2 : ... < cols, h3 : 0 ≤ q + dr, h4 : q + dr < rows
  have key : ∀ dc dr : Int, 0 ≤ i % s.cols + dc → i % s.cols + dc < s.cols →
      0 ≤ q + dr → q + dr < s.rows →
      0 ≤ i + dr * s.cols + dc ∧ i + dr * s.cols + dc < s.rows * s.cols := by
    intro dc dr a1 a2 a3 a4
    have hb := flat_bound a1 a2 a3 a4
    have : s.cols * (q + dr) + (i % s.cols + dc) = i + dr * s.cols + dc := by
      linear_combination hsum
    rw [this] at hb
    exact hb
  cases d <;> simp only [kDirectionOffsets] at h1 h2 h3 h4 <;>
    simp only [IndexFromDirection]
  · exact (by have := key 0 (-1) (by omega) (by omega) (by omega) (by omega); constructor <;> omega)
  · exact (by have := key 1 0 (by omega) (by omega) (by omega) (by omega); constructor <;> omega)
  · exact (by have := key 0 1 (by omega) (by omega) (by omega) (by omega); constructor <;> omega)
  · exact (by have := key (-1) 0 (by omega) (by omega) (by omega) (by omega); constructor <;> omega)
  · exact (by have := key 0 0 (by omega) (by omega) (by omega) (by omega); constructor <;> omega)
  · exact (by have := key 1 (-1) (by omega) (by omega) (by omega) (by omega); constructor <;> omega)
  · exact (by have := key 1 1 (by omega) (by omega) (by omega) (by omega); constructor <;> omega)
  · exact (by have := key (-1) 1 (by omega) (by omega) (by omega) (by omega); constructor <;> omega)
  · exact (by have := key (-1) (-1) (by omega) (by omega) (by omega) (by omega); constructor <;> omega)






theorem MoveItem_grid (s : BoulderDashGameState) (i : Int) (d : Direction) :
    (MoveItem s i d).grid =
      listSetI (listSetI s.grid (IndexFromDirection s i d) (listGetI s.grid i .kNull))
        i HiddenCellType.kEmpty := rfl

theorem MoveItem_agent_idx (s : BoulderDashGameState) (i : Int) (d : Direction) :
    (MoveItem s i d).agent_idx = s.agent_idx := rfl

theorem StartScan_same (s : BoulderDashGameState) :
    (StartScan s).grid = s.grid ∧ (StartScan s).rows = s.rows ∧
    (StartScan s).cols = s.cols ∧ (StartScan s).agent_idx = s.agent_idx := ⟨rfl, rfl, rfl, rfl⟩

theorem IsType_StartScan (s : BoulderDashGameState) (i : Int) (el : Element) (d : Direction) :
    IsType (StartScan s) i el d = IsType s i el d := rfl

/-- The Empty/Dirt branch of UpdateAgent (boulderdash_base.cpp lines 724-726). -/
theorem UpdateAgent_move {s : BoulderDashGameState} {i : Int} {d : Direction}
    (h : (IsType s i kElEmpty d || IsType s i kElDirt d) = true) :
    UpdateAgent s i d =
      (let t := MoveItem s i d
       {t with agent_idx := IndexFromDirection s i d}) := by
  have hib : InBounds s i d = true := by
    rcases Bool.or_eq_true_iff.mp h with h1 | h1
    · exact IsType_inBounds h1
    · exact IsType_inBounds h1
  unfold UpdateAgent
  rw [hib, h]
  simp
  cases d <;> rfl






theorem IFD_StartScan (s : BoulderDashGameState) (i : Int) (d : Direction) :
    IndexFromDirection (StartScan s) i d = IndexFromDirection s i d := by
  cases d <;> rfl

/-- C8: apply_action does not guard on is_agent_alive or is_agent_in_exit: it
always runs UpdateAgent at the stale agent_idx, and when the neighbor in the
action direction is Empty or Dirt, whatever occupies agent_idx is moved there
and agent_idx is advanced to that neighbor. -/
theorem C8_dead_agent_still_updates (s : BoulderDashGameState) (a : Action)
    (hdead : s.is_agent_alive = false)
    (hlen : (s.grid.length : Int) = s.rows * s.cols)
    (hagent0 : 0 ≤ s.agent_idx) (hagent1 : s.agent_idx < s.rows * s.cols)
    (hmove : (IsType s s.agent_idx kElEmpty (action_to_direction a) ||
              IsType s s.agent_idx kElDirt (action_to_direction a)) = true) :
    apply_action s a =
      EndScan
        ((intRange
            ((UpdateAgent (StartScan s) (StartScan s).agent_idx (action_to_direction a)).rows *
             (UpdateAgent (StartScan s) (StartScan s).agent_idx (action_to_direction a)).cols)).foldl
          (fun st i => if listGetI st.has_updated i false then st else dispatchCell st i)
          (UpdateAgent (StartScan s) (StartScan s).agent_idx (action_to_direction a))) ∧
    (UpdateAgent (StartScan s) s.agent_idx (action_to_direction a)).agent_idx =
      IndexFromDirection s s.agent_idx (action_to_direction a) ∧
    listGetI (UpdateAgent (StartScan s) s.agent_idx (action_to_direction a)).grid
        (IndexFromDirection s s.agent_idx (action_to_direction a)) .kNull =
      listGetI s.grid s.agent_idx .kNull ∧
    listGetI (UpdateAgent (StartScan s) s.agent_idx (action_to_direction a)).grid
        s.agent_idx .kNull = HiddenCellType.kEmpty := by
  have hmove2 : (IsType (StartScan s) s.agent_idx kElEmpty (action_to_direction a) ||
      IsType (StartScan s) s.agent_idx kElDirt (action_to_direction a)) = true := by
    rw [IsType_StartScan, IsType_StartScan]
    exact hmove
  have hupd := UpdateAgent_move hmove2
  have hib : InBounds s s.agent_idx (action_to_direction a) = true := by
    rcases Bool.or_eq_true_iff.mp hmove with h1 | h1
    · exact IsType_inBounds h1
    · exact IsType_inBounds h1
  obtain ⟨ht0, ht1⟩ := indexFromDirection_range hagent0 hib
  have hcols : 0 < s.cols := (InBounds_pos hib).1
  have htne : IndexFromDirection s s.agent_idx (action_to_direction a) ≠ s.agent_idx := by
    cases a <;> simp only [IndexFromDirection, action_to_direction] <;> omega
  have hlen2 : ((StartScan s).grid.length : Int) = s.rows * s.cols := hlen
  refine ⟨rfl, ?_, ?_, ?_⟩
  · rw [hupd]
    show IndexFromDirection (StartScan s) s.agent_idx (action_to_direction a) =
      IndexFromDirection s s.agent_idx (action_to_direction a)
    exact IFD_StartScan s s.agent_idx (action_to_direction a)
  · rw [hupd]
    show listGetI (MoveItem (StartScan s) s.agent_idx (action_to_direction a)).grid
        (IndexFromDirection s s.agent_idx (action_to_direction a)) .kNull =
      listGetI s.grid s.agent_idx .kNull
    rw [MoveItem_grid, IFD_StartScan]
    show listGetI (listSetI (listSetI s.grid _ (listGetI s.grid s.agent_idx .kNull))
        s.agent_idx HiddenCellType.kEmpty) _ .kNull = listGetI s.grid s.agent_idx .kNull
    rw [listGetI_setI_ne _ _ _ _ _ htne]
    refine listGetI_setI_self _ _ _ _ ht0 ?_
    omega
  · rw [hupd]
    show listGetI (MoveItem (StartScan s) s.agent_idx (action_to_direction a)).grid
        s.agent_idx .kNull = HiddenCellType.kEmpty
    rw [MoveItem_grid, IFD_StartScan]
    apply listGetI_setI_self
    · exact hagent0
    · rw [listSetI_length]
      omega






/-- Witness for C8: a dead agent whose stale agent_idx holds a Diamond; the
apply_action pipeline still moves the diamond into the Empty neighbor. -/
theorem C8_dead_agent_witness :
    apply_action C8_state .kRight =
      EndScan
        ((intRange
            ((UpdateAgent (StartScan C8_state) (StartScan C8_state).agent_idx .kRight).rows *
             (UpdateAgent (StartScan C8_state) (StartScan C8_state).agent_idx .kRight).cols)).foldl
          (fun st i => if listGetI st.has_updated i false then st else dispatchCell st i)
          (UpdateAgent (StartScan C8_state) (StartScan C8_state).agent_idx .kRight)) ∧
    (UpdateAgent (StartScan C8_state) C8_state.agent_idx .kRight).agent_idx =
      IndexFromDirection C8_state C8_state.agent_idx .kRight ∧
    listGetI (UpdateAgent (StartScan C8_state) C8_state.agent_idx .kRight).grid
        (IndexFromDirection C8_state C8_state.agent_idx .kRight) .kNull =
      listGetI C8_state.grid C8_state.agent_idx .kNull ∧
    listGetI (UpdateAgent (StartScan C8_state) C8_state.agent_idx .kRight).grid
        C8_state.agent_idx .kNull = HiddenCellType.kEmpty := by
  exact C8_dead_agent_still_updates C8_state .kRight (by decide) (by decide) (by decide)
    (by decide) (by decide)






theorem foldl_congr_fun {α β : Type} (l : List β) (f g : α → β → α) (a : α)
    (h : ∀ x b, b ∈ l → f x b = g x b) : l.foldl f a = l.foldl g a := by
  induction l generalizing a with
  | nil => rfl
  | cons b t ihl =>
    rw [List.foldl_cons, List.foldl_cons, h a b (by simp)]
    exact ihl _ (fun x c hc => h x c (by simp [hc]))

/-- C2 counterexample: a falling stone explodes a firefly with a butterfly
neighbor; the recursive Explode call writes the firefly's product
(ExplosionEmpty) at the butterfly cell instead of the butterfly's own product
(ExplosionDiamond) that the claim prescribes. -/
theorem C2_explosion_product_counterexample :
    (Explode (explodeFuel C2_state) C2_state 0
        (elementToExplosionOrEmpty (GetItem C2_state 0 .kDown)) .kDown).grid ≠
      (ExplodeSpecNeighborProduct (explodeFuel C2_state) C2_state 0
        (elementToExplosionOrEmpty (GetItem C2_state 0 .kDown)) .kDown).grid ∧
    listGetI (Explode (explodeFuel C2_state) C2_state 0
        (elementToExplosionOrEmpty (GetItem C2_state 0 .kDown)) .kDown).grid 2 .kNull =
      HiddenCellType.kExplosionEmpty ∧
    listGetI (ExplodeSpecNeighborProduct (explodeFuel C2_state) C2_state 0
        (elementToExplosionOrEmpty (GetItem C2_state 0 .kDown)) .kDown).grid 2 .kNull =
      HiddenCellType.kExplosionDiamond := by
  refine ⟨by decide, by decide, by decide⟩

/-- C2 (amended): every recursive Explode call for a CanExplode neighbor passes
the explosion product of the just-exploded cell at the caller's target (read
before the overwrite), identically for all neighbors and depths. -/
theorem C2_explosion_product_amended (fuel : Nat) (s : BoulderDashGameState) (index : Int)
    (element : Element) (direction : Direction) :
    Explode fuel s index element direction =
      ExplodeSpecParentProduct fuel s index element direction := by
  induction fuel generalizing s index element direction with
  | zero => rfl
  | succ n ih =>
    unfold Explode ExplodeSpecParentProduct
    dsimp only
    apply foldl_congr_fun
    intro st dir _
    simp only [ih]
    rfl



/-! ## C9: the agent-death reward bit is never set -/

/-- OR of two even numbers is even. -/
theorem lor_even {a b : Nat} (ha : a % 2 = 0) (hb : b % 2 = 0) : (a ||| b) % 2 = 0 := by
  have h := Nat.testBit_lor a b 0
  simp only [Nat.testBit_zero] at h
  have ha' : decide (a % 2 = 1) = false := by simp only [decide_eq_false_iff_not]; omega
  have hb' : decide (b % 2 = 1) = false := by simp only [decide_eq_false_iff_not]; omega
  rw [ha', hb'] at h
  simp only [Bool.or_self, decide_eq_false_iff_not] at h
  omega

theorem kKeyToSignal_even (e : Element) : kKeyToSignal e % 2 = 0 := by
  unfold kKeyToSignal; split <;> decide

theorem kGateToSignal_even (e : Element) : kGateToSignal e % 2 = 0 := by
  unfold kGateToSignal; split <;> decide

theorem kExplosionToReward_even (e : Element) : kExplosionToReward e % 2 = 0 := by
  unfold kExplosionToReward; split <;> decide

theorem SetItem_reward (s : BoulderDashGameState) (i : Int) (e : Element) (d : Direction) :
    (SetItem s i e d).reward_signal = s.reward_signal := rfl

theorem MoveItem_reward (s : BoulderDashGameState) (i : Int) (d : Direction) :
    (MoveItem s i d).reward_signal = s.reward_signal := rfl

theorem RollLeft_reward (s : BoulderDashGameState) (i : Int) (e : Element) :
    (RollLeft s i e).reward_signal = s.reward_signal := rfl

theorem RollRight_reward (s : BoulderDashGameState) (i : Int) (e : Element) :
    (RollRight s i e).reward_signal = s.reward_signal := rfl

theorem Push_reward (s : BoulderDashGameState) (i : Int) (st fa : Element) (d : Direction) :
    (Push s i st fa d).reward_signal = s.reward_signal := by
  unfold Push; dsimp only; split <;> rfl

theorem MoveThroughMagic_reward (s : BoulderDashGameState) (i : Int) (e : Element) :
    (MoveThroughMagic s i e).reward_signal = s.reward_signal := by
  unfold MoveThroughMagic
  split
  · rfl
  · dsimp only; split <;> rfl

theorem foldl_reward_eq {α : Type} (f : BoulderDashGameState → α → BoulderDashGameState)
    (h : ∀ st a, (f st a).reward_signal = st.reward_signal) :
    ∀ (l : List α) (s : BoulderDashGameState), (l.foldl f s).reward_signal = s.reward_signal := by
  intro l
  induction l with
  | nil => intro s; rfl
  | cons a l ih => intro s; rw [List.foldl_cons, ih, h]

theorem OpenGate_reward (s : BoulderDashGameState) (e : Element) :
    (OpenGate s e).reward_signal = s.reward_signal := by
  unfold OpenGate
  exact foldl_reward_eq _ (fun st i => by split <;> rfl) _ _

theorem Explode_reward : ∀ (fuel : Nat) (s : BoulderDashGameState) (index : Int)
    (element : Element) (direction : Direction),
    (Explode fuel s index element direction).reward_signal = s.reward_signal := by
  intro fuel
  induction fuel with
  | zero => intro s i e d; rfl
  | succ n ih =>
    intro s i e d
    unfold Explode
    dsimp only
    refine Eq.trans (foldl_reward_eq _ ?_ _ _) ?_
    · intro st dir
      dsimp only
      split
      · rfl
      · split
        · exact ih _ _ _ _
        · split
          · split <;> rfl
          · rfl
    · rw [SetItem_reward]; split <;> rfl

theorem UpdateStoneFalling_even (s : BoulderDashGameState) (i : Int)
    (h : s.reward_signal % 2 = 0) : (UpdateStoneFalling s i).reward_signal % 2 = 0 := by
  unfold UpdateStoneFalling
  repeat' (first | split | dsimp only)
  all_goals try simp only [SetItem_reward, MoveItem_reward, Explode_reward,
    MoveThroughMagic_reward, RollLeft_reward, RollRight_reward]
  all_goals first
    | exact h
    | exact lor_even h (by decide)

theorem UpdateStone_even (s : BoulderDashGameState) (i : Int)
    (h : s.reward_signal % 2 = 0) : (UpdateStone s i).reward_signal % 2 = 0 := by
  unfold UpdateStone
  repeat' (first | split | dsimp only)
  all_goals try simp only [RollLeft_reward, RollRight_reward]
  all_goals first
    | exact h
    | exact UpdateStoneFalling_even _ _ h

theorem UpdateDiamondFalling_even (s : BoulderDashGameState) (i : Int)
    (h : s.reward_signal % 2 = 0) : (UpdateDiamondFalling s i).reward_signal % 2 = 0 := by
  unfold UpdateDiamondFalling
  repeat' (first | split | dsimp only)
  all_goals try simp only [SetItem_reward, MoveItem_reward, Explode_reward,
    MoveThroughMagic_reward, RollLeft_reward, RollRight_reward]
  all_goals exact h

theorem UpdateDiamond_even (s : BoulderDashGameState) (i : Int)
    (h : s.reward_signal % 2 = 0) : (UpdateDiamond s i).reward_signal % 2 = 0 := by
  unfold UpdateDiamond
  repeat' (first | split | dsimp only)
  all_goals try simp only [RollLeft_reward, RollRight_reward]
  all_goals first
    | exact h
    | exact UpdateDiamondFalling_even _ _ h

theorem UpdateNutFalling_even (s : BoulderDashGameState) (i : Int)
    (h : s.reward_signal % 2 = 0) : (UpdateNutFalling s i).reward_signal % 2 = 0 := by
  unfold UpdateNutFalling
  repeat' (first | split | dsimp only)
  all_goals try simp only [SetItem_reward, MoveItem_reward, RollLeft_reward, RollRight_reward]
  all_goals exact h

theorem UpdateNut_even (s : BoulderDashGameState) (i : Int)
    (h : s.reward_signal % 2 = 0) : (UpdateNut s i).reward_signal % 2 = 0 := by
  unfold UpdateNut
  repeat' (first | split | dsimp only)
  all_goals try simp only [RollLeft_reward, RollRight_reward]
  all_goals first
    | exact h
    | exact UpdateNutFalling_even _ _ h

theorem UpdateBombFalling_even (s : BoulderDashGameState) (i : Int)
    (h : s.reward_signal % 2 = 0) : (UpdateBombFalling s i).reward_signal % 2 = 0 := by
  unfold UpdateBombFalling
  repeat' (first | split | dsimp only)
  all_goals try simp only [SetItem_reward, MoveItem_reward, Explode_reward,
    RollLeft_reward, RollRight_reward]
  all_goals exact h

theorem UpdateBomb_even (s : BoulderDashGameState) (i : Int)
    (h : s.reward_signal % 2 = 0) : (UpdateBomb s i).reward_signal % 2 = 0 := by
  unfold UpdateBomb
  repeat' (first | split | dsimp only)
  all_goals try simp only [RollLeft_reward, RollRight_reward]
  all_goals first
    | exact h
    | exact UpdateBombFalling_even _ _ h

theorem UpdateExit_even (s : BoulderDashGameState) (i : Int)
    (h : s.reward_signal % 2 = 0) : (UpdateExit s i).reward_signal % 2 = 0 := by
  unfold UpdateExit
  split
  · rw [SetItem_reward]; exact h
  · exact h

theorem UpdateAgent_even (s : BoulderDashGameState) (i : Int) (d : Direction)
    (h : s.reward_signal % 2 = 0) : (UpdateAgent s i d).reward_signal % 2 = 0 := by
  unfold UpdateAgent
  repeat' (first | split | dsimp only)
  all_goals try simp only [SetItem_reward, MoveItem_reward, Push_reward, OpenGate_reward]
  all_goals first
    | exact h
    | exact lor_even h (by decide)
    | exact lor_even (lor_even h (by decide)) (kKeyToSignal_even _)
    | exact lor_even (lor_even h (by decide)) (kGateToSignal_even _)
    | exact lor_even (lor_even (lor_even h (by decide)) (by decide)) (kGateToSignal_even _)
    | exact lor_even (lor_even (lor_even (lor_even h (by decide)) (kKeyToSignal_even _))
        (by decide)) (kGateToSignal_even _)

theorem UpdateFirefly_even (s : BoulderDashGameState) (i : Int) (d : Direction)
    (h : s.reward_signal % 2 = 0) : (UpdateFirefly s i d).reward_signal % 2 = 0 := by
  unfold UpdateFirefly
  repeat' (first | split | dsimp only)
  all_goals try simp only [SetItem_reward, MoveItem_reward, Explode_reward]
  all_goals exact h

theorem UpdateButterfly_even (s : BoulderDashGameState) (i : Int) (d : Direction)
    (h : s.reward_signal % 2 = 0) : (UpdateButterfly s i d).reward_signal % 2 = 0 := by
  unfold UpdateButterfly
  repeat' (first | split | dsimp only)
  all_goals try simp only [SetItem_reward, MoveItem_reward, Explode_reward]
  all_goals exact h

theorem UpdateOrange_even (s : BoulderDashGameState) (i : Int) (d : Direction)
    (h : s.reward_signal % 2 = 0) : (UpdateOrange s i d).reward_signal % 2 = 0 := by
  unfold UpdateOrange
  repeat' (first | split | dsimp only)
  all_goals try simp only [SetItem_reward, MoveItem_reward, Explode_reward]
  all_goals exact h

theorem UpdateMagicWall_even (s : BoulderDashGameState) (i : Int)
    (h : s.reward_signal % 2 = 0) : (UpdateMagicWall s i).reward_signal % 2 = 0 := by
  unfold UpdateMagicWall
  repeat' (first | split | dsimp only)
  all_goals try simp only [SetItem_reward]
  all_goals exact h

theorem UpdateBlob_even (s : BoulderDashGameState) (i : Int)
    (h : s.reward_signal % 2 = 0) : (UpdateBlob s i).reward_signal % 2 = 0 := by
  unfold UpdateBlob
  repeat' (first | split | dsimp only)
  all_goals try simp only [SetItem_reward]
  all_goals exact h

theorem UpdateExplosions_even (s : BoulderDashGameState) (i : Int)
    (h : s.reward_signal % 2 = 0) : (UpdateExplosions s i).reward_signal % 2 = 0 := by
  unfold UpdateExplosions
  dsimp only
  simp only [SetItem_reward]
  exact lor_even h (kExplosionToReward_even _)

theorem dispatchCell_even (s : BoulderDashGameState) (i : Int)
    (h : s.reward_signal % 2 = 0) : (dispatchCell s i).reward_signal % 2 = 0 := by
  unfold dispatchCell
  repeat' (first | split | dsimp only)
  · exact UpdateStone_even _ _ h
  · exact UpdateStoneFalling_even _ _ h
  · exact UpdateDiamond_even _ _ h
  · exact UpdateDiamondFalling_even _ _ h
  · exact UpdateNut_even _ _ h
  · exact UpdateNutFalling_even _ _ h
  · exact UpdateBomb_even _ _ h
  · exact UpdateBombFalling_even _ _ h
  · exact UpdateExit_even _ _ h
  · exact UpdateBlob_even _ _ h
  · exact UpdateButterfly_even _ _ _ h
  · exact UpdateFirefly_even _ _ _ h
  · exact UpdateOrange_even _ _ _ h
  · exact UpdateMagicWall_even _ _ h
  · exact UpdateExplosions_even _ _ h
  · exact h

theorem foldl_reward_even {α : Type} (f : BoulderDashGameState → α → BoulderDashGameState)
    (h : ∀ st a, st.reward_signal % 2 = 0 → (f st a).reward_signal % 2 = 0) :
    ∀ (l : List α) (s : BoulderDashGameState),
      s.reward_signal % 2 = 0 → (l.foldl f s).reward_signal % 2 = 0 := by
  intro l
  induction l with
  | nil => intro s hs; exact hs
  | cons a l ih => intro s hs; rw [List.foldl_cons]; exact ih _ (h s a hs)

theorem StartScan_reward (s : BoulderDashGameState) : (StartScan s).reward_signal = 0 := rfl

theorem EndScan_reward (s : BoulderDashGameState) :
    (EndScan s).reward_signal = s.reward_signal := by
  unfold EndScan
  repeat' (first | split | dsimp only)
  all_goals rfl

theorem apply_action_even (s : BoulderDashGameState) (a : Action) :
    (apply_action s a).reward_signal % 2 = 0 := by
  unfold apply_action
  dsimp only
  rw [EndScan_reward]
  refine foldl_reward_even _ ?_ _ _ ?_
  · intro st i hst
    dsimp only
    split
    · exact hst
    · exact dispatchCell_even _ _ hst
  · refine UpdateAgent_even _ _ _ ?_
    rw [StartScan_reward]

/-- C9: The kRewardAgentDies bit (1 <<< 0) of reward_signal is never set by any
operation: for every reachable state, get_reward_signal has bit 0 equal to
zero (an explosion that kills the agent only clears is_agent_alive). -/
theorem C9_agent_dies_never_rewarded (s : BoulderDashGameState) (h : Reachable s) :
    BoulderDashGameState.get_reward_signal s &&& kRewardAgentDies = 0 := by
  have he : s.reward_signal % 2 = 0 := by
    induction h with
    | init str p t hok =>
      have hr := (constructState_wf hok).2.2.2.1
      omega
    | step t a ht iht => exact apply_action_even t a
  have hone : kRewardAgentDies = 1 := by decide
  show s.reward_signal &&& kRewardAgentDies = 0
  rw [hone, Nat.and_one_is_mod]
  exact he

theorem C9_agent_dies_never_rewarded_witness :
    BoulderDashGameState.get_reward_signal (stateOf "1|2|0|0|1" {}) &&& kRewardAgentDies = 0 :=
  C9_agent_dies_never_rewarded _
    (Reachable.init "1|2|0|0|1" {} (stateOf "1|2|0|0|1" {}) (by decide))

/-! ## C1 machinery: hash updates, bounds, and frame lemmas -/

theorem listSetI_out {α : Type} (l : List α) (i : Int) (v : α)
    (h : i < 0 ∨ (l.length : Int) ≤ i) : listSetI l i v = l := by
  unfold listSetI
  rcases h with h | h
  · rw [if_pos h]
  · rw [if_neg (by omega)]
    exact listSetN_ge l i.toNat v (by omega)

theorem intRange_nodup (n : Int) : (intRange n).Nodup := by
  unfold intRange
  exact (List.nodup_range n.toNat).map (fun a b => Int.ofNat.inj)

theorem foldl_xor_acc (l : List Int) (f : Int → Nat) :
    ∀ a : Nat, l.foldl (fun h i => h ^^^ f i) a = a ^^^ l.foldl (fun h i => h ^^^ f i) 0 := by
  induction l with
  | nil => intro a; simp
  | cons x t ih =>
    intro a
    rw [List.foldl_cons, List.foldl_cons, ih (a ^^^ f x), ih (0 ^^^ f x)]
    rw [Nat.zero_xor, Nat.xor_assoc]

theorem foldl_xor_congr (l : List Int) (f f' : Int → Nat)
    (h : ∀ i ∈ l, f' i = f i) :
    ∀ a : Nat, l.foldl (fun h i => h ^^^ f' i) a = l.foldl (fun h i => h ^^^ f i) a := by
  induction l with
  | nil => intro a; rfl
  | cons x t ih =>
    intro a
    rw [List.foldl_cons, List.foldl_cons, h x (List.mem_cons_self x t),
      ih (fun i hi => h i (List.mem_cons_of_mem x hi))]

theorem foldl_xor_one_diff (l : List Int) (f f' : Int → Nat) (j : Int)
    (hnd : l.Nodup) (hmem : j ∈ l) (hoff : ∀ i ∈ l, i ≠ j → f' i = f i) :
    l.foldl (fun h i => h ^^^ f' i) 0 =
      l.foldl (fun h i => h ^^^ f i) 0 ^^^ f j ^^^ f' j := by
  induction l with
  | nil => cases hmem
  | cons x t ih =>
    rw [List.foldl_cons, List.foldl_cons]
    rcases List.mem_cons.mp hmem with hx | ht
    · subst hx
      have hjt : j ∉ t := (List.nodup_cons.mp hnd).1
      have hcong : t.foldl (fun h i => h ^^^ f' i) (0 ^^^ f' j)
          = t.foldl (fun h i => h ^^^ f i) (0 ^^^ f' j) :=
        foldl_xor_congr t f f' (fun i hi => hoff i (List.mem_cons_of_mem j hi)
          (fun he => hjt (he ▸ hi))) (0 ^^^ f' j)
      rw [hcong, foldl_xor_acc, foldl_xor_acc t f (0 ^^^ f j)]
      simp only [Nat.zero_xor]
      rw [Nat.xor_comm (f' j), Nat.xor_comm (f j)]
      simp only [Nat.xor_assoc]
      rw [← Nat.xor_assoc (f j), Nat.xor_self, Nat.zero_xor]
    · have hxj : x ≠ j := fun he => (List.nodup_cons.mp hnd).1 (he ▸ ht)
      have hfx : f' x = f x := hoff x (List.mem_cons_self x t) hxj
      rw [hfx]
      rw [foldl_xor_acc t f' (0 ^^^ f x), foldl_xor_acc t f (0 ^^^ f x)]
      rw [ih (List.Nodup.of_cons hnd) ht
        (fun i hi hij => hoff i (List.mem_cons_of_mem x hi) hij)]
      simp only [Nat.xor_assoc]

theorem mem_intRange_iff (n j : Int) : j ∈ intRange n ↔ 0 ≤ j ∧ j < n := by
  unfold intRange
  simp only [List.mem_map, List.mem_range]
  constructor
  · rintro ⟨m, hm, rfl⟩
    constructor
    · exact Int.ofNat_nonneg m
    · have : (m : Int) < (n.toNat : Int) := by exact_mod_cast hm
      simp only [Int.ofNat_eq_coe]
      omega
  · rintro ⟨h0, h1⟩
    refine ⟨j.toNat, ?_, ?_⟩
    · omega
    · simp only [Int.ofNat_eq_coe]; omega

/-- Pointwise update of the from-scratch board hash: writing c at j XORs out
the hash of the value read at j before the write and XORs in the hash of the
value read at j after the write (out-of-range writes are no-ops and the two
terms cancel). -/
theorem boardHashG_upd (g : List HiddenCellType) (n j : Int) (c : HiddenCellType)
    (hlen : (g.length : Int) = n) :
    boardHashG n (listSetI g j c) =
      boardHashG n g ^^^ to_local_hash n (listGetI g j .kNull) j ^^^
        to_local_hash n (listGetI (listSetI g j c) j .kNull) j := by
  by_cases hj : 0 ≤ j ∧ j < n
  · have hkey : listGetI (listSetI g j c) j .kNull = c :=
      listGetI_setI_self g j c .kNull hj.1 (by omega)
    rw [hkey]
    unfold boardHashG
    rw [foldl_xor_one_diff (intRange n)
      (fun i => to_local_hash n (listGetI g i .kNull) i)
      (fun i => to_local_hash n (listGetI (listSetI g j c) i .kNull) i) j
      (intRange_nodup n) ((mem_intRange_iff n j).mpr hj)
      (fun i _ hij => by
        show to_local_hash n (listGetI (listSetI g j c) i .kNull) i
            = to_local_hash n (listGetI g i .kNull) i
        rw [listGetI_setI_ne g i j c .kNull hij])]
    rw [hkey]
  · have hset : listSetI g j c = g := by
      apply listSetI_out
      omega
    rw [hset, Nat.xor_assoc, Nat.xor_self, Nat.xor_zero]

/-- InBounds alone places the offset target inside [0, rows*cols); the source
index may be arbitrary. -/
theorem indexFromDirection_range2 {s : BoulderDashGameState} {i : Int} {d : Direction}
    (h : InBounds s i d = true) :
    0 ≤ IndexFromDirection s i d ∧ IndexFromDirection s i d < s.rows * s.cols := by
  simp only [InBounds, Bool.and_eq_true, decide_eq_true_eq] at h
  obtain ⟨⟨⟨h1, h2⟩, h3⟩, h4⟩ := h
  have hcols : 0 < s.cols := by omega
  have hcne : s.cols ≠ 0 := by omega
  set m := Int.tmod i s.cols with hm
  set q := Int.tdiv i s.cols with hq
  have hsum : s.cols * q + m = i := Int.tdiv_add_tmod i s.cols
  have hrow : Int.tdiv (i - m) s.cols = q := by
    have : i - m = s.cols * q := by omega
    rw [this]
    exact Int.mul_tdiv_cancel_left q hcne
  rw [hrow] at h3 h4
  have key : ∀ dc dr : Int, 0 ≤ m + dc → m + dc < s.cols →
      0 ≤ q + dr → q + dr < s.rows →
      0 ≤ i + dr * s.cols + dc ∧ i + dr * s.cols + dc < s.rows * s.cols := by
    intro dc dr a1 a2 a3 a4
    have hb := flat_bound a1 a2 a3 a4
    have : s.cols * (q + dr) + (m + dc) = i + dr * s.cols + dc := by
      linear_combination hsum
    rw [this] at hb
    exact hb
  cases d <;> simp only [kDirectionOffsets] at h1 h2 h3 h4 <;>
    simp only [IndexFromDirection]
  · exact (by have := key 0 (-1) (by omega) (by omega) (by omega) (by omega); constructor <;> omega)
  · exact (by have := key 1 0 (by omega) (by omega) (by omega) (by omega); constructor <;> omega)
  · exact (by have := key 0 1 (by omega) (by omega) (by omega) (by omega); constructor <;> omega)
  · exact (by have := key (-1) 0 (by omega) (by omega) (by omega) (by omega); constructor <;> omega)
  · exact (by have := key 0 0 (by omega) (by omega) (by omega) (by omega); constructor <;> omega)
  · exact (by have := key 1 (-1) (by omega) (by omega) (by omega) (by omega); constructor <;> omega)
  · exact (by have := key 1 1 (by omega) (by omega) (by omega) (by omega); constructor <;> omega)
  · exact (by have := key (-1) 1 (by omega) (by omega) (by omega) (by omega); constructor <;> omega)
  · exact (by have := key (-1) (-1) (by omega) (by omega) (by omega) (by omega); constructor <;> omega)

/-- An element read that is not the out-of-range default pins its index inside
the grid. -/
theorem GetItem_ne_null_range {s : BoulderDashGameState} {i : Int} {d : Direction}
    (h : GetItem s i d ≠ kNullElement) :
    0 ≤ IndexFromDirection s i d ∧ IndexFromDirection s i d < (s.grid.length : Int) := by
  by_contra hc
  apply h
  unfold GetItem
  rcases (by omega : IndexFromDirection s i d < 0 ∨
      (s.grid.length : Int) ≤ IndexFromDirection s i d) with hlt | hge
  · rw [listGetI_neg _ _ _ hlt]; rfl
  · rw [listGetI_ge _ _ _ hge]; rfl

theorem SetItem_WF {s : BoulderDashGameState} {i : Int} {el : Element} {d : Direction}
    (hwf : WF s) (ht : 0 ≤ IndexFromDirection s i d)
    (ht2 : IndexFromDirection s i d < s.rows * s.cols) :
    WF (SetItem s i el d) := by
  obtain ⟨hnn, hgl, hul, hab, hh⟩ := hwf
  refine ⟨hnn, ?_, ?_, hab, ?_⟩
  · show ((listSetI s.grid (IndexFromDirection s i d) el.cell_type).length : Int)
        = s.rows * s.cols
    rw [listSetI_length]; exact hgl
  · show (listSetI s.has_updated (IndexFromDirection s i d) true).length
        = (listSetI s.grid (IndexFromDirection s i d) el.cell_type).length
    rw [listSetI_length, listSetI_length]; exact hul
  · show s.hash ^^^ to_local_hash (s.rows * s.cols)
        (listGetI s.grid (IndexFromDirection s i d) .kNull) (IndexFromDirection s i d) ^^^
        to_local_hash (s.rows * s.cols) el.cell_type (IndexFromDirection s i d)
      = boardHash (SetItem s i el d)
    unfold boardHash
    rw [SetItem_rows, SetItem_cols, SetItem_grid]
    rw [boardHashG_upd s.grid (s.rows * s.cols) (IndexFromDirection s i d) el.cell_type hgl]
    rw [listGetI_setI_self s.grid (IndexFromDirection s i d) el.cell_type .kNull ht (by omega)]
    rw [hh]
    rfl

theorem MoveItem_WF {s : BoulderDashGameState} {i : Int} {d : Direction}
    (hwf : WF s) (hi : 0 ≤ i) (hi2 : i < s.rows * s.cols) :
    WF (MoveItem s i d) := by
  obtain ⟨hnn, hgl, hul, hab, hh⟩ := hwf
  refine ⟨hnn, ?_, ?_, hab, ?_⟩
  · show ((listSetI (listSetI s.grid (IndexFromDirection s i d)
        (listGetI s.grid i .kNull)) i HiddenCellType.kEmpty).length : Int) = s.rows * s.cols
    rw [listSetI_length, listSetI_length]; exact hgl
  · show (listSetI s.has_updated (IndexFromDirection s i d) true).length
        = (listSetI (listSetI s.grid (IndexFromDirection s i d)
        (listGetI s.grid i .kNull)) i HiddenCellType.kEmpty).length
    rw [listSetI_length, listSetI_length, listSetI_length]; exact hul
  · have hg1 : ((listSetI s.grid (IndexFromDirection s i d)
        (listGetI s.grid i .kNull)).length : Int) = s.rows * s.cols := by
      rw [listSetI_length]; exact hgl
    show s.hash ^^^ to_local_hash (s.rows * s.cols)
        (listGetI s.grid (IndexFromDirection s i d) .kNull) (IndexFromDirection s i d) ^^^
        to_local_hash (s.rows * s.cols)
          (listGetI (listSetI s.grid (IndexFromDirection s i d) (listGetI s.grid i .kNull))
            (IndexFromDirection s i d) .kNull) (IndexFromDirection s i d) ^^^
        to_local_hash (s.rows * s.cols)
          (listGetI (listSetI s.grid (IndexFromDirection s i d) (listGetI s.grid i .kNull))
            i .kNull) i ^^^
        to_local_hash (s.rows * s.cols) HiddenCellType.kEmpty i
      = boardHash (MoveItem s i d)
    unfold boardHash
    rw [show (MoveItem s i d).rows = s.rows from rfl, show (MoveItem s i d).cols = s.cols from rfl,
      MoveItem_grid]
    rw [boardHashG_upd _ (s.rows * s.cols) i HiddenCellType.kEmpty hg1]
    rw [boardHashG_upd s.grid (s.rows * s.cols) (IndexFromDirection s i d)
      (listGetI s.grid i .kNull) hgl]
    rw [listGetI_setI_self _ i HiddenCellType.kEmpty .kNull hi (by
      rw [listSetI_length]; omega)]
    rw [hh]
    rfl

/-- Generic invariant preservation through a left fold. -/
theorem foldl_inv {α β : Type} (P : β → Prop) (f : β → α → β) (l : List α)
    (h : ∀ st a, a ∈ l → P st → P (f st a)) :
    ∀ st, P st → P (l.foldl f st) := by
  induction l with
  | nil => intro st hst; exact hst
  | cons a t ih =>
    intro st hst
    rw [List.foldl_cons]
    exact ih (fun st' b hb hst' => h st' b (List.mem_cons_of_mem a hb) hst') _
      (h st a (List.mem_cons_self a t) hst)

theorem MoveItem_rows (s : BoulderDashGameState) (i : Int) (d : Direction) :
    (MoveItem s i d).rows = s.rows := rfl

theorem MoveItem_cols (s : BoulderDashGameState) (i : Int) (d : Direction) :
    (MoveItem s i d).cols = s.cols := rfl

theorem Push_rows (s : BoulderDashGameState) (i : Int) (st fa : Element) (d : Direction) :
    (Push s i st fa d).rows = s.rows := by
  unfold Push; dsimp only; split <;> rfl

theorem Push_cols (s : BoulderDashGameState) (i : Int) (st fa : Element) (d : Direction) :
    (Push s i st fa d).cols = s.cols := by
  unfold Push; dsimp only; split <;> rfl

theorem MoveThroughMagic_rows (s : BoulderDashGameState) (i : Int) (e : Element) :
    (MoveThroughMagic s i e).rows = s.rows := by
  unfold MoveThroughMagic
  split
  · rfl
  · dsimp only; split <;> rfl

theorem MoveThroughMagic_cols (s : BoulderDashGameState) (i : Int) (e : Element) :
    (MoveThroughMagic s i e).cols = s.cols := by
  unfold MoveThroughMagic
  split
  · rfl
  · dsimp only; split <;> rfl

theorem OpenGate_rows (s : BoulderDashGameState) (e : Element) :
    (OpenGate s e).rows = s.rows := by
  unfold OpenGate
  refine foldl_inv (fun st => st.rows = s.rows) _ _ ?_ s rfl
  intro st a _ hst
  dsimp only
  split <;> exact hst

theorem OpenGate_cols (s : BoulderDashGameState) (e : Element) :
    (OpenGate s e).cols = s.cols := by
  unfold OpenGate
  refine foldl_inv (fun st => st.cols = s.cols) _ _ ?_ s rfl
  intro st a _ hst
  dsimp only
  split <;> exact hst

theorem Explode_rows_cols : ∀ (fuel : Nat) (s : BoulderDashGameState) (i : Int)
    (e : Element) (d : Direction),
    (Explode fuel s i e d).rows = s.rows ∧ (Explode fuel s i e d).cols = s.cols := by
  intro fuel
  induction fuel with
  | zero => intro s i e d; exact ⟨rfl, rfl⟩
  | succ n ih =>
    intro s i e d
    unfold Explode
    dsimp only
    refine foldl_inv (fun (st : BoulderDashGameState) => st.rows = s.rows ∧ st.cols = s.cols) _ _ ?_ _ ?_
    · intro st dir _ hst
      dsimp only
      split
      · exact hst
      · split
        · exact ⟨((ih st _ _ dir).1).trans hst.1, ((ih st _ _ dir).2).trans hst.2⟩
        · split
          · split
            · exact hst
            · exact hst
          · exact hst
    · split
      · exact ⟨rfl, rfl⟩
      · exact ⟨rfl, rfl⟩

theorem Explode_rows (fuel : Nat) (s : BoulderDashGameState) (i : Int) (e : Element)
    (d : Direction) : (Explode fuel s i e d).rows = s.rows :=
  (Explode_rows_cols fuel s i e d).1

theorem Explode_cols (fuel : Nat) (s : BoulderDashGameState) (i : Int) (e : Element)
    (d : Direction) : (Explode fuel s i e d).cols = s.cols :=
  (Explode_rows_cols fuel s i e d).2

theorem UpdateStoneFalling_rows (s : BoulderDashGameState) (i : Int) :
    (UpdateStoneFalling s i).rows = s.rows := by
  unfold UpdateStoneFalling
  repeat' (first | split | dsimp only)
  all_goals try simp only [SetItem_rows, SetItem_cols, MoveItem_rows, MoveItem_cols,
    Explode_rows, Explode_cols, MoveThroughMagic_rows,
    MoveThroughMagic_cols, Push_rows, Push_cols, OpenGate_rows, OpenGate_cols]
  all_goals rfl

theorem UpdateStoneFalling_cols (s : BoulderDashGameState) (i : Int) :
    (UpdateStoneFalling s i).cols = s.cols := by
  unfold UpdateStoneFalling
  repeat' (first | split | dsimp only)
  all_goals try simp only [SetItem_rows, SetItem_cols, MoveItem_rows, MoveItem_cols,
    Explode_rows, Explode_cols, MoveThroughMagic_rows,
    MoveThroughMagic_cols, Push_rows, Push_cols, OpenGate_rows, OpenGate_cols]
  all_goals rfl

theorem UpdateStone_rows (s : BoulderDashGameState) (i : Int) :
    (UpdateStone s i).rows = s.rows := by
  unfold UpdateStone
  repeat' (first | split | dsimp only)
  all_goals try simp only [SetItem_rows, SetItem_cols, MoveItem_rows, MoveItem_cols,
    Explode_rows, Explode_cols, MoveThroughMagic_rows,
    MoveThroughMagic_cols, Push_rows, Push_cols, OpenGate_rows, OpenGate_cols, UpdateStoneFalling_rows, UpdateStoneFalling_cols]
  all_goals rfl

theorem UpdateStone_cols (s : BoulderDashGameState) (i : Int) :
    (UpdateStone s i).cols = s.cols := by
  unfold UpdateStone
  repeat' (first | split | dsimp only)
  all_goals try simp only [SetItem_rows, SetItem_cols, MoveItem_rows, MoveItem_cols,
    Explode_rows, Explode_cols, MoveThroughMagic_rows,
    MoveThroughMagic_cols, Push_rows, Push_cols, OpenGate_rows, OpenGate_cols, UpdateStoneFalling_rows, UpdateStoneFalling_cols]
  all_goals rfl

theorem UpdateDiamondFalling_rows (s : BoulderDashGameState) (i : Int) :
    (UpdateDiamondFalling s i).rows = s.rows := by
  unfold UpdateDiamondFalling
  repeat' (first | split | dsimp only)
  all_goals try simp only [SetItem_rows, SetItem_cols, MoveItem_rows, MoveItem_cols,
    Explode_rows, Explode_cols, MoveThroughMagic_rows,
    MoveThroughMagic_cols, Push_rows, Push_cols, OpenGate_rows, OpenGate_cols]
  all_goals rfl

theorem UpdateDiamondFalling_cols (s : BoulderDashGameState) (i : Int) :
    (UpdateDiamondFalling s i).cols = s.cols := by
  unfold UpdateDiamondFalling
  repeat' (first | split | dsimp only)
  all_goals try simp only [SetItem_rows, SetItem_cols, MoveItem_rows, MoveItem_cols,
    Explode_rows, Explode_cols, MoveThroughMagic_rows,
    MoveThroughMagic_cols, Push_rows, Push_cols, OpenGate_rows, OpenGate_cols]
  all_goals rfl

theorem UpdateDiamond_rows (s : BoulderDashGameState) (i : Int) :
    (UpdateDiamond s i).rows = s.rows := by
  unfold UpdateDiamond
  repeat' (first | split | dsimp only)
  all_goals try simp only [SetItem_rows, SetItem_cols, MoveItem_rows, MoveItem_cols,
    Explode_rows, Explode_cols, MoveThroughMagic_rows,
    MoveThroughMagic_cols, Push_rows, Push_cols, OpenGate_rows, OpenGate_cols, UpdateDiamondFalling_rows, UpdateDiamondFalling_cols]
  all_goals rfl

theorem UpdateDiamond_cols (s : BoulderDashGameState) (i : Int) :
    (UpdateDiamond s i).cols = s.cols := by
  unfold UpdateDiamond
  repeat' (first | split | dsimp only)
  all_goals try simp only [SetItem_rows, SetItem_cols, MoveItem_rows, MoveItem_cols,
    Explode_rows, Explode_cols, MoveThroughMagic_rows,
    MoveThroughMagic_cols, Push_rows, Push_cols, OpenGate_rows, OpenGate_cols, UpdateDiamondFalling_rows, UpdateDiamondFalling_cols]
  all_goals rfl

theorem UpdateNutFalling_rows (s : BoulderDashGameState) (i : Int) :
    (UpdateNutFalling s i).rows = s.rows := by
  unfold UpdateNutFalling
  repeat' (first | split | dsimp only)
  all_goals try simp only [SetItem_rows, SetItem_cols, MoveItem_rows, MoveItem_cols,
    Explode_rows, Explode_cols, MoveThroughMagic_rows,
    MoveThroughMagic_cols, Push_rows, Push_cols, OpenGate_rows, OpenGate_cols]
  all_goals rfl

theorem UpdateNutFalling_cols (s : BoulderDashGameState) (i : Int) :
    (UpdateNutFalling s i).cols = s.cols := by
  unfold UpdateNutFalling
  repeat' (first | split | dsimp only)
  all_goals try simp only [SetItem_rows, SetItem_cols, MoveItem_rows, MoveItem_cols,
    Explode_rows, Explode_cols, MoveThroughMagic_rows,
    MoveThroughMagic_cols, Push_rows, Push_cols, OpenGate_rows, OpenGate_cols]
  all_goals rfl

theorem UpdateNut_rows (s : BoulderDashGameState) (i : Int) :
    (UpdateNut s i).rows = s.rows := by
  unfold UpdateNut
  repeat' (first | split | dsimp only)
  all_goals try simp only [SetItem_rows, SetItem_cols, MoveItem_rows, MoveItem_cols,
    Explode_rows, Explode_cols, MoveThroughMagic_rows,
    MoveThroughMagic_cols, Push_rows, Push_cols, OpenGate_rows, OpenGate_cols, UpdateNutFalling_rows, UpdateNutFalling_cols]
  all_goals rfl

theorem UpdateNut_cols (s : BoulderDashGameState) (i : Int) :
    (UpdateNut s i).cols = s.cols := by
  unfold UpdateNut
  repeat' (first | split | dsimp only)
  all_goals try simp only [SetItem_rows, SetItem_cols, MoveItem_rows, MoveItem_cols,
    Explode_rows, Explode_cols, MoveThroughMagic_rows,
    MoveThroughMagic_cols, Push_rows, Push_cols, OpenGate_rows, OpenGate_cols, UpdateNutFalling_rows, UpdateNutFalling_cols]
  all_goals rfl

theorem UpdateBombFalling_rows (s : BoulderDashGameState) (i : Int) :
    (UpdateBombFalling s i).rows = s.rows := by
  unfold UpdateBombFalling
  repeat' (first | split | dsimp only)
  all_goals try simp only [SetItem_rows, SetItem_cols, MoveItem_rows, MoveItem_cols,
    Explode_rows, Explode_cols, MoveThroughMagic_rows,
    MoveThroughMagic_cols, Push_rows, Push_cols, OpenGate_rows, OpenGate_cols]
  all_goals rfl

theorem UpdateBombFalling_cols (s : BoulderDashGameState) (i : Int) :
    (UpdateBombFalling s i).cols = s.cols := by
  unfold UpdateBombFalling
  repeat' (first | split | dsimp only)
  all_goals try simp only [SetItem_rows, SetItem_cols, MoveItem_rows, MoveItem_cols,
    Explode_rows, Explode_cols, MoveThroughMagic_rows,
    MoveThroughMagic_cols, Push_rows, Push_cols, OpenGate_rows, OpenGate_cols]
  all_goals rfl

theorem UpdateBomb_rows (s : BoulderDashGameState) (i : Int) :
    (UpdateBomb s i).rows = s.rows := by
  unfold UpdateBomb
  repeat' (first | split | dsimp only)
  all_goals try simp only [SetItem_rows, SetItem_cols, MoveItem_rows, MoveItem_cols,
    Explode_rows, Explode_cols, MoveThroughMagic_rows,
    MoveThroughMagic_cols, Push_rows, Push_cols, OpenGate_rows, OpenGate_cols, UpdateBombFalling_rows, UpdateBombFalling_cols]
  all_goals rfl

theorem UpdateBomb_cols (s : BoulderDashGameState) (i : Int) :
    (UpdateBomb s i).cols = s.cols := by
  unfold UpdateBomb
  repeat' (first | split | dsimp only)
  all_goals try simp only [SetItem_rows, SetItem_cols, MoveItem_rows, MoveItem_cols,
    Explode_rows, Explode_cols, MoveThroughMagic_rows,
    MoveThroughMagic_cols, Push_rows, Push_cols, OpenGate_rows, OpenGate_cols, UpdateBombFalling_rows, UpdateBombFalling_cols]
  all_goals rfl

theorem UpdateExit_rows (s : BoulderDashGameState) (i : Int) :
    (UpdateExit s i).rows = s.rows := by
  unfold UpdateExit
  repeat' (first | split | dsimp only)
  all_goals try simp only [SetItem_rows, SetItem_cols, MoveItem_rows, MoveItem_cols,
    Explode_rows, Explode_cols, MoveThroughMagic_rows,
    MoveThroughMagic_cols, Push_rows, Push_cols, OpenGate_rows, OpenGate_cols]
  all_goals rfl

theorem UpdateExit_cols (s : BoulderDashGameState) (i : Int) :
    (UpdateExit s i).cols = s.cols := by
  unfold UpdateExit
  repeat' (first | split | dsimp only)
  all_goals try simp only [SetItem_rows, SetItem_cols, MoveItem_rows, MoveItem_cols,
    Explode_rows, Explode_cols, MoveThroughMagic_rows,
    MoveThroughMagic_cols, Push_rows, Push_cols, OpenGate_rows, OpenGate_cols]
  all_goals rfl

theorem UpdateAgent_rows (s : BoulderDashGameState) (i : Int) (d : Direction) :
    (UpdateAgent s i d).rows = s.rows := by
  unfold UpdateAgent
  repeat' (first | split | dsimp only)
  all_goals try simp only [SetItem_rows, SetItem_cols, MoveItem_rows, MoveItem_cols,
    Explode_rows, Explode_cols, MoveThroughMagic_rows,
    MoveThroughMagic_cols, Push_rows, Push_cols, OpenGate_rows, OpenGate_cols]
  all_goals rfl

theorem UpdateAgent_cols (s : BoulderDashGameState) (i : Int) (d : Direction) :
    (UpdateAgent s i d).cols = s.cols := by
  unfold UpdateAgent
  repeat' (first | split | dsimp only)
  all_goals try simp only [SetItem_rows, SetItem_cols, MoveItem_rows, MoveItem_cols,
    Explode_rows, Explode_cols, MoveThroughMagic_rows,
    MoveThroughMagic_cols, Push_rows, Push_cols, OpenGate_rows, OpenGate_cols]
  all_goals rfl

theorem UpdateFirefly_rows (s : BoulderDashGameState) (i : Int) (d : Direction) :
    (UpdateFirefly s i d).rows = s.rows := by
  unfold UpdateFirefly
  repeat' (first | split | dsimp only)
  all_goals try simp only [SetItem_rows, SetItem_cols, MoveItem_rows, MoveItem_cols,
    Explode_rows, Explode_cols, MoveThroughMagic_rows,
    MoveThroughMagic_cols, Push_rows, Push_cols, OpenGate_rows, OpenGate_cols]
  all_goals rfl

theorem UpdateFirefly_cols (s : BoulderDashGameState) (i : Int) (d : Direction) :
    (UpdateFirefly s i d).cols = s.cols := by
  unfold UpdateFirefly
  repeat' (first | split | dsimp only)
  all_goals try simp only [SetItem_rows, SetItem_cols, MoveItem_rows, MoveItem_cols,
    Explode_rows, Explode_cols, MoveThroughMagic_rows,
    MoveThroughMagic_cols, Push_rows, Push_cols, OpenGate_rows, OpenGate_cols]
  all_goals rfl

theorem UpdateButterfly_rows (s : BoulderDashGameState) (i : Int) (d : Direction) :
    (UpdateButterfly s i d).rows = s.rows := by
  unfold UpdateButterfly
  repeat' (first | split | dsimp only)
  all_goals try simp only [SetItem_rows, SetItem_cols, MoveItem_rows, MoveItem_cols,
    Explode_rows, Explode_cols, MoveThroughMagic_rows,
    MoveThroughMagic_cols, Push_rows, Push_cols, OpenGate_rows, OpenGate_cols]
  all_goals rfl

theorem UpdateButterfly_cols (s : BoulderDashGameState) (i : Int) (d : Direction) :
    (UpdateButterfly s i d).cols = s.cols := by
  unfold UpdateButterfly
  repeat' (first | split | dsimp only)
  all_goals try simp only [SetItem_rows, SetItem_cols, MoveItem_rows, MoveItem_cols,
    Explode_rows, Explode_cols, MoveThroughMagic_rows,
    MoveThroughMagic_cols, Push_rows, Push_cols, OpenGate_rows, OpenGate_cols]
  all_goals rfl

theorem UpdateOrange_rows (s : BoulderDashGameState) (i : Int) (d : Direction) :
    (UpdateOrange s i d).rows = s.rows := by
  unfold UpdateOrange
  repeat' (first | split | dsimp only)
  all_goals try simp only [SetItem_rows, SetItem_cols, MoveItem_rows, MoveItem_cols,
    Explode_rows, Explode_cols, MoveThroughMagic_rows,
    MoveThroughMagic_cols, Push_rows, Push_cols, OpenGate_rows, OpenGate_cols]
  all_goals rfl

theorem UpdateOrange_cols (s : BoulderDashGameState) (i : Int) (d : Direction) :
    (UpdateOrange s i d).cols = s.cols := by
  unfold UpdateOrange
  repeat' (first | split | dsimp only)
  all_goals try simp only [SetItem_rows, SetItem_cols, MoveItem_rows, MoveItem_cols,
    Explode_rows, Explode_cols, MoveThroughMagic_rows,
    MoveThroughMagic_cols, Push_rows, Push_cols, OpenGate_rows, OpenGate_cols]
  all_goals rfl

theorem UpdateMagicWall_rows (s : BoulderDashGameState) (i : Int) :
    (UpdateMagicWall s i).rows = s.rows := by
  unfold UpdateMagicWall
  repeat' (first | split | dsimp only)
  all_goals try simp only [SetItem_rows, SetItem_cols, MoveItem_rows, MoveItem_cols,
    Explode_rows, Explode_cols, MoveThroughMagic_rows,
    MoveThroughMagic_cols, Push_rows, Push_cols, OpenGate_rows, OpenGate_cols]
  all_goals rfl

theorem UpdateMagicWall_cols (s : BoulderDashGameState) (i : Int) :
    (UpdateMagicWall s i).cols = s.cols := by
  unfold UpdateMagicWall
  repeat' (first | split | dsimp only)
  all_goals try simp only [SetItem_rows, SetItem_cols, MoveItem_rows, MoveItem_cols,
    Explode_rows, Explode_cols, MoveThroughMagic_rows,
    MoveThroughMagic_cols, Push_rows, Push_cols, OpenGate_rows, OpenGate_cols]
  all_goals rfl

theorem UpdateBlob_rows (s : BoulderDashGameState) (i : Int) :
    (UpdateBlob s i).rows = s.rows := by
  unfold UpdateBlob
  repeat' (first | split | dsimp only)
  all_goals try simp only [SetItem_rows, SetItem_cols, MoveItem_rows, MoveItem_cols,
    Explode_rows, Explode_cols, MoveThroughMagic_rows,
    MoveThroughMagic_cols, Push_rows, Push_cols, OpenGate_rows, OpenGate_cols]
  all_goals rfl

theorem UpdateBlob_cols (s : BoulderDashGameState) (i : Int) :
    (UpdateBlob s i).cols = s.cols := by
  unfold UpdateBlob
  repeat' (first | split | dsimp only)
  all_goals try simp only [SetItem_rows, SetItem_cols, MoveItem_rows, MoveItem_cols,
    Explode_rows, Explode_cols, MoveThroughMagic_rows,
    MoveThroughMagic_cols, Push_rows, Push_cols, OpenGate_rows, OpenGate_cols]
  all_goals rfl

theorem UpdateExplosions_rows (s : BoulderDashGameState) (i : Int) :
    (UpdateExplosions s i).rows = s.rows := by
  unfold UpdateExplosions
  repeat' (first | split | dsimp only)
  all_goals try simp only [SetItem_rows, SetItem_cols, MoveItem_rows, MoveItem_cols,
    Explode_rows, Explode_cols, MoveThroughMagic_rows,
    MoveThroughMagic_cols, Push_rows, Push_cols, OpenGate_rows, OpenGate_cols]
  all_goals rfl

theorem UpdateExplosions_cols (s : BoulderDashGameState) (i : Int) :
    (UpdateExplosions s i).cols = s.cols := by
  unfold UpdateExplosions
  repeat' (first | split | dsimp only)
  all_goals try simp only [SetItem_rows, SetItem_cols, MoveItem_rows, MoveItem_cols,
    Explode_rows, Explode_cols, MoveThroughMagic_rows,
    MoveThroughMagic_cols, Push_rows, Push_cols, OpenGate_rows, OpenGate_cols]
  all_goals rfl

theorem dispatchCell_rows (s : BoulderDashGameState) (i : Int) :
    (dispatchCell s i).rows = s.rows := by
  unfold dispatchCell
  repeat' (first | split | dsimp only)
  all_goals try simp only [UpdateStone_rows, UpdateStoneFalling_rows, UpdateDiamond_rows,
    UpdateDiamondFalling_rows, UpdateNut_rows, UpdateNutFalling_rows, UpdateBomb_rows,
    UpdateBombFalling_rows, UpdateExit_rows, UpdateBlob_rows, UpdateButterfly_rows,
    UpdateFirefly_rows, UpdateOrange_rows, UpdateMagicWall_rows, UpdateExplosions_rows]
  all_goals rfl

theorem dispatchCell_cols (s : BoulderDashGameState) (i : Int) :
    (dispatchCell s i).cols = s.cols := by
  unfold dispatchCell
  repeat' (first | split | dsimp only)
  all_goals try simp only [UpdateStone_cols, UpdateStoneFalling_cols, UpdateDiamond_cols,
    UpdateDiamondFalling_cols, UpdateNut_cols, UpdateNutFalling_cols, UpdateBomb_cols,
    UpdateBombFalling_cols, UpdateExit_cols, UpdateBlob_cols, UpdateButterfly_cols,
    UpdateFirefly_cols, UpdateOrange_cols, UpdateMagicWall_cols, UpdateExplosions_cols]
  all_goals rfl

theorem WF_set_agent {s : BoulderDashGameState} (hwf : WF s) (a : Int)
    (h1 : 0 ≤ a) (h2 : a < s.rows * s.cols) : WF {s with agent_idx := a} := by
  obtain ⟨hnn, hgl, hul, _, hh⟩ := hwf
  exact ⟨hnn, hgl, hul, ⟨h1, h2⟩, hh⟩

theorem IsType_range {s : BoulderDashGameState} {i : Int} {el : Element} {d : Direction}
    (h : IsType s i el d = true) :
    0 ≤ IndexFromDirection s i d ∧ IndexFromDirection s i d < s.rows * s.cols :=
  indexFromDirection_range2 (IsType_inBounds h)

theorem HasProperty_inBounds {s : BoulderDashGameState} {i : Int} {p : Nat} {d : Direction}
    (h : HasProperty s i p d = true) : InBounds s i d = true := by
  simp only [HasProperty, Bool.and_eq_true] at h
  exact h.1

theorem HasProperty_range {s : BoulderDashGameState} {i : Int} {p : Nat} {d : Direction}
    (h : HasProperty s i p d = true) :
    0 ≤ IndexFromDirection s i d ∧ IndexFromDirection s i d < s.rows * s.cols :=
  indexFromDirection_range2 (HasProperty_inBounds h)

theorem SetItem_WF2 (s : BoulderDashGameState) (i : Int) (el : Element) (d : Direction)
    (hwf : WF s) (ht : 0 ≤ IndexFromDirection s i d)
    (ht2 : IndexFromDirection s i d < s.rows * s.cols) : WF (SetItem s i el d) :=
  SetItem_WF hwf ht ht2

theorem MoveItem_WF2 (s : BoulderDashGameState) (i : Int) (d : Direction)
    (hwf : WF s) (hi : 0 ≤ i) (hi2 : i < s.rows * s.cols) : WF (MoveItem s i d) :=
  MoveItem_WF hwf hi hi2

theorem IFD_MoveItem (s : BoulderDashGameState) (j : Int) (e : Direction) (i : Int)
    (d : Direction) :
    IndexFromDirection (MoveItem s j e) i d = IndexFromDirection s i d := by
  unfold IndexFromDirection; cases d <;> rfl

theorem IFD_SetItem (s : BoulderDashGameState) (j : Int) (el : Element) (e : Direction)
    (i : Int) (d : Direction) :
    IndexFromDirection (SetItem s j el e) i d = IndexFromDirection s i d := by
  unfold IndexFromDirection; cases d <;> rfl

theorem IFD_OpenGate (s : BoulderDashGameState) (el : Element) (i : Int) (d : Direction) :
    IndexFromDirection (OpenGate s el) i d = IndexFromDirection s i d := by
  unfold IndexFromDirection; cases d <;> simp [OpenGate_cols]

theorem RollLeft_WF {s : BoulderDashGameState} {i : Int} {el : Element}
    (hwf : WF s) (hi : 0 ≤ i) (hi2 : i < s.rows * s.cols) : WF (RollLeft s i el) := by
  unfold RollLeft
  dsimp only
  exact MoveItem_WF (SetItem_WF hwf hi hi2) hi hi2

theorem RollRight_WF {s : BoulderDashGameState} {i : Int} {el : Element}
    (hwf : WF s) (hi : 0 ≤ i) (hi2 : i < s.rows * s.cols) : WF (RollRight s i el) := by
  unfold RollRight
  dsimp only
  exact MoveItem_WF (SetItem_WF hwf hi hi2) hi hi2

theorem Push_WF {s : BoulderDashGameState} {i : Int} {st fa : Element} {d : Direction}
    (hwf : WF s) (hi : 0 ≤ i) (hi2 : i < s.rows * s.cols)
    (hib : InBounds s i d = true) : WF (Push s i st fa d) := by
  have hnew := indexFromDirection_range2 hib
  unfold Push
  dsimp only
  split
  case isTrue hemp =>
    have hnext := IsType_range hemp
    have w3 := MoveItem_WF2 _ i d
      (SetItem_WF2 _ (IndexFromDirection s (IndexFromDirection s i d) d)
        (if IsType s (IndexFromDirection s (IndexFromDirection s i d) d) kElEmpty
            Direction.kDown = true then fa else st)
        Direction.kNoop
        (MoveItem_WF2 _ (IndexFromDirection s i d) d hwf hnew.1 hnew.2)
        hnext.1 hnext.2)
      hi hi2
    obtain ⟨hnn, hgl, hul, _, hh⟩ := w3
    simp only [IFD_MoveItem, IFD_SetItem]
    exact ⟨hnn, hgl, hul, ⟨hnew.1, hnew.2⟩, hh⟩
  case isFalse _ => exact hwf


theorem MoveThroughMagic_WF {s : BoulderDashGameState} {i : Int} {e : Element}
    (hwf : WF s) (hi : 0 ≤ i) (hi2 : i < s.rows * s.cols) :
    WF (MoveThroughMagic s i e) := by
  unfold MoveThroughMagic
  split
  · exact hwf
  · dsimp only
    split
    case isTrue hemp =>
      have h2 := IsType_range hemp
      exact SetItem_WF (SetItem_WF hwf hi hi2) h2.1 h2.2
    case isFalse _ => exact hwf

theorem OpenGate_WF {s : BoulderDashGameState} (e : Element) (hwf : WF s) :
    WF (OpenGate s e) := by
  unfold OpenGate
  have h := foldl_inv
    (fun (st : BoulderDashGameState) => WF st ∧ st.rows = s.rows ∧ st.cols = s.cols)
    (fun st index =>
      if (listGetI st.grid index HiddenCellType.kNull == e.cell_type) = true then
        SetItem st index (kGateOpenMap (GetItem st index))
      else st)
    (intRange (s.rows * s.cols)) ?_ s ⟨hwf, rfl, rfl⟩
  · exact h.1
  · intro st a hmem hst
    obtain ⟨hwst, hr, hc⟩ := hst
    dsimp only
    split
    · have ha := (mem_intRange_iff _ a).mp hmem
      refine ⟨SetItem_WF hwst ha.1 ?_, hr, hc⟩
      rw [hr, hc]
      exact ha.2
    · exact ⟨hwst, hr, hc⟩

theorem Explode_WF : ∀ (fuel : Nat) (s : BoulderDashGameState) (i : Int)
    (e : Element) (d : Direction),
    WF s → 0 ≤ IndexFromDirection s i d → IndexFromDirection s i d < s.rows * s.cols →
    WF (Explode fuel s i e d) := by
  intro fuel
  induction fuel with
  | zero => intro s i e d hwf _ _; exact hwf
  | succ n ih =>
    intro s i e d hwf ht ht2
    unfold Explode
    dsimp only
    have hstart : WF (SetItem
        (if GetItem s (IndexFromDirection s i d) == kElAgent
          then {s with is_agent_alive := false} else s)
        (IndexFromDirection s i d) e) := by
      split
      · exact SetItem_WF (show WF {s with is_agent_alive := false} from hwf) ht ht2
      · exact SetItem_WF hwf ht ht2
    refine (foldl_inv
      (fun (st : BoulderDashGameState) => WF st ∧ st.rows = s.rows ∧ st.cols = s.cols)
      _ allDirections ?_ _ ⟨hstart, ?_, ?_⟩).1
    · intro st dir _ hst
      obtain ⟨hwst, hr, hc⟩ := hst
      try dsimp only
      split
      · exact ⟨hwst, hr, hc⟩
      case isFalse hcond =>
        have hib : InBounds st (IndexFromDirection s i d) dir = true := by
          simp only [Bool.or_eq_true, Bool.not_eq_true', not_or] at hcond
          have h2 := hcond.2
          simp only [Bool.not_eq_false] at h2
          exact h2
        split
        · have hrg := indexFromDirection_range2 hib
          refine ⟨ih st _ _ dir hwst hrg.1 hrg.2, ?_, ?_⟩
          · rw [Explode_rows]; exact hr
          · rw [Explode_cols]; exact hc
        · split
          · have hrg := indexFromDirection_range2 hib
            have hset : WF (SetItem st (IndexFromDirection s i d)
                (elementToExplosionOrEmpty (GetItem s (IndexFromDirection s i d))) dir) :=
              SetItem_WF hwst hrg.1 hrg.2
            split
            · exact ⟨hset, hr, hc⟩
            · exact ⟨hset, hr, hc⟩
          · exact ⟨hwst, hr, hc⟩
    · split <;> rfl
    · split <;> rfl

theorem UpdateStoneFalling_WF (s : BoulderDashGameState) (i : Int)
    (hwf : WF s) (hi : 0 ≤ i) (hi2 : i < s.rows * s.cols) :
    WF (UpdateStoneFalling s i) := by
  unfold UpdateStoneFalling
  repeat' (first | split | dsimp only)
  case isTrue => exact MoveItem_WF hwf hi hi2
  case isFalse.isTrue h2 =>
    have hbf : IsButterfly (GetItem s i Direction.kDown) = true := by
      simp only [Bool.and_eq_true] at h2; exact h2.2
    have hr0 := GetItem_ne_null_range (fun he => by rw [he] at hbf; exact absurd hbf (by decide))
    have hr2 : IndexFromDirection s i Direction.kDown < s.rows * s.cols :=
      hwf.2.1 ▸ hr0.2
    obtain ⟨hnn, hgl, hul, hab, hh⟩ :=
      SetItem_WF2 _ i kElDiamond Direction.kDown
        (SetItem_WF2 s i kElEmpty Direction.kNoop hwf hi hi2) hr0.1 hr2
    exact ⟨hnn, hgl, hul, hab, hh⟩
  case isFalse.isFalse.isTrue h3 =>
    have hr := HasProperty_range h3
    exact Explode_WF _ s i _ Direction.kDown hwf hr.1 hr.2
  case isFalse.isFalse.isFalse.isTrue =>
    exact MoveThroughMagic_WF hwf hi hi2
  case isFalse.isFalse.isFalse.isFalse.isTrue h5 =>
    have hr := IsType_range h5
    obtain ⟨hnn, hgl, hul, hab, hh⟩ :=
      SetItem_WF2 s i kElDiamond Direction.kDown hwf hr.1 hr.2
    exact ⟨hnn, hgl, hul, hab, hh⟩
  case isFalse.isFalse.isFalse.isFalse.isFalse.isTrue =>
    exact Explode_WF _ s i _ Direction.kNoop hwf hi hi2
  case isFalse.isFalse.isFalse.isFalse.isFalse.isFalse.isTrue =>
    exact RollLeft_WF hwf hi hi2
  case isFalse.isFalse.isFalse.isFalse.isFalse.isFalse.isFalse.isTrue =>
    exact RollRight_WF hwf hi hi2
  case isFalse.isFalse.isFalse.isFalse.isFalse.isFalse.isFalse.isFalse =>
    exact SetItem_WF hwf hi hi2

theorem UpdateStone_WF (s : BoulderDashGameState) (i : Int)
    (hwf : WF s) (hi : 0 ≤ i) (hi2 : i < s.rows * s.cols) :
    WF (UpdateStone s i) := by
  unfold UpdateStone
  repeat' (first | split | dsimp only)
  case isTrue => exact hwf
  case isFalse.isTrue =>
    exact UpdateStoneFalling_WF _ i
      (SetItem_WF2 s i kElStoneFalling Direction.kNoop hwf hi hi2) hi hi2
  case isFalse.isFalse.isTrue => exact RollLeft_WF hwf hi hi2
  case isFalse.isFalse.isFalse.isTrue => exact RollRight_WF hwf hi hi2
  case isFalse.isFalse.isFalse.isFalse => exact hwf

theorem UpdateDiamondFalling_WF (s : BoulderDashGameState) (i : Int)
    (hwf : WF s) (hi : 0 ≤ i) (hi2 : i < s.rows * s.cols) :
    WF (UpdateDiamondFalling s i) := by
  unfold UpdateDiamondFalling
  repeat' (first | split | dsimp only)
  case isTrue => exact MoveItem_WF hwf hi hi2
  case isFalse.isTrue h2 =>
    simp only [Bool.and_eq_true] at h2
    have hr := HasProperty_range h2.1.1
    exact Explode_WF _ s i _ Direction.kDown hwf hr.1 hr.2
  case isFalse.isFalse.isTrue => exact MoveThroughMagic_WF hwf hi hi2
  case isFalse.isFalse.isFalse.isTrue => exact RollLeft_WF hwf hi hi2
  case isFalse.isFalse.isFalse.isFalse.isTrue => exact RollRight_WF hwf hi hi2
  case isFalse.isFalse.isFalse.isFalse.isFalse => exact SetItem_WF hwf hi hi2

theorem UpdateDiamond_WF (s : BoulderDashGameState) (i : Int)
    (hwf : WF s) (hi : 0 ≤ i) (hi2 : i < s.rows * s.cols) :
    WF (UpdateDiamond s i) := by
  unfold UpdateDiamond
  repeat' (first | split | dsimp only)
  case isTrue => exact hwf
  case isFalse.isTrue =>
    exact UpdateDiamondFalling_WF _ i
      (SetItem_WF2 s i kElDiamondFalling Direction.kNoop hwf hi hi2) hi hi2
  case isFalse.isFalse.isTrue => exact RollLeft_WF hwf hi hi2
  case isFalse.isFalse.isFalse.isTrue => exact RollRight_WF hwf hi hi2
  case isFalse.isFalse.isFalse.isFalse => exact hwf

theorem UpdateNutFalling_WF (s : BoulderDashGameState) (i : Int)
    (hwf : WF s) (hi : 0 ≤ i) (hi2 : i < s.rows * s.cols) :
    WF (UpdateNutFalling s i) := by
  unfold UpdateNutFalling
  repeat' (first | split | dsimp only)
  case isTrue => exact MoveItem_WF hwf hi hi2
  case isFalse.isTrue => exact RollLeft_WF hwf hi hi2
  case isFalse.isFalse.isTrue => exact RollRight_WF hwf hi hi2
  case isFalse.isFalse.isFalse => exact SetItem_WF hwf hi hi2

theorem UpdateNut_WF (s : BoulderDashGameState) (i : Int)
    (hwf : WF s) (hi : 0 ≤ i) (hi2 : i < s.rows * s.cols) :
    WF (UpdateNut s i) := by
  unfold UpdateNut
  repeat' (first | split | dsimp only)
  case isTrue => exact hwf
  case isFalse.isTrue =>
    exact UpdateNutFalling_WF _ i
      (SetItem_WF2 s i kElNutFalling Direction.kNoop hwf hi hi2) hi hi2
  case isFalse.isFalse.isTrue => exact RollLeft_WF hwf hi hi2
  case isFalse.isFalse.isFalse.isTrue => exact RollRight_WF hwf hi hi2
  case isFalse.isFalse.isFalse.isFalse => exact hwf

theorem UpdateBombFalling_WF (s : BoulderDashGameState) (i : Int)
    (hwf : WF s) (hi : 0 ≤ i) (hi2 : i < s.rows * s.cols) :
    WF (UpdateBombFalling s i) := by
  unfold UpdateBombFalling
  repeat' (first | split | dsimp only)
  case isTrue => exact MoveItem_WF hwf hi hi2
  case isFalse.isTrue => exact RollLeft_WF hwf hi hi2
  case isFalse.isFalse.isTrue => exact RollRight_WF hwf hi hi2
  case isFalse.isFalse.isFalse.isTrue =>
    exact Explode_WF _ s i _ Direction.kNoop hwf hi hi2
  case isFalse.isFalse.isFalse.isFalse => exact hwf

theorem UpdateBomb_WF (s : BoulderDashGameState) (i : Int)
    (hwf : WF s) (hi : 0 ≤ i) (hi2 : i < s.rows * s.cols) :
    WF (UpdateBomb s i) := by
  unfold UpdateBomb
  repeat' (first | split | dsimp only)
  case isTrue => exact hwf
  case isFalse.isTrue =>
    exact UpdateBombFalling_WF _ i
      (SetItem_WF2 s i kElBombFalling Direction.kNoop hwf hi hi2) hi hi2
  case isFalse.isFalse.isTrue => exact RollLeft_WF hwf hi hi2
  case isFalse.isFalse.isFalse.isTrue => exact RollRight_WF hwf hi hi2
  case isFalse.isFalse.isFalse.isFalse => exact hwf

theorem UpdateExit_WF (s : BoulderDashGameState) (i : Int)
    (hwf : WF s) (hi : 0 ≤ i) (hi2 : i < s.rows * s.cols) :
    WF (UpdateExit s i) := by
  unfold UpdateExit
  split
  · exact SetItem_WF hwf hi hi2
  · exact hwf

theorem UpdateMagicWall_WF (s : BoulderDashGameState) (i : Int)
    (hwf : WF s) (hi : 0 ≤ i) (hi2 : i < s.rows * s.cols) :
    WF (UpdateMagicWall s i) := by
  unfold UpdateMagicWall
  repeat' split
  all_goals exact SetItem_WF hwf hi hi2

theorem UpdateExplosions_WF (s : BoulderDashGameState) (i : Int)
    (hwf : WF s) (hi : 0 ≤ i) (hi2 : i < s.rows * s.cols) :
    WF (UpdateExplosions s i) := by
  unfold UpdateExplosions
  dsimp only
  refine SetItem_WF ?_ ?_ ?_
  · exact hwf
  · exact hi
  · exact hi2

theorem UpdateFirefly_WF (s : BoulderDashGameState) (i : Int) (d : Direction)
    (hwf : WF s) (hi : 0 ≤ i) (hi2 : i < s.rows * s.cols) :
    WF (UpdateFirefly s i d) := by
  unfold UpdateFirefly
  repeat' (first | split | dsimp only)
  case isTrue => exact Explode_WF _ s i _ Direction.kNoop hwf hi hi2
  case isFalse.isTrue.isTrue => refine MoveItem_WF2 _ i _ (SetItem_WF2 s i _ Direction.kNoop hwf hi hi2) hi hi2
  case isFalse.isTrue.isFalse => refine MoveItem_WF2 _ i _ (SetItem_WF2 s i _ Direction.kNoop hwf hi hi2) hi hi2
  case isFalse.isFalse.isTrue => refine MoveItem_WF2 _ i _ (SetItem_WF2 s i _ Direction.kNoop hwf hi hi2) hi hi2
  case isFalse.isFalse.isFalse => exact SetItem_WF hwf hi hi2

theorem UpdateButterfly_WF (s : BoulderDashGameState) (i : Int) (d : Direction)
    (hwf : WF s) (hi : 0 ≤ i) (hi2 : i < s.rows * s.cols) :
    WF (UpdateButterfly s i d) := by
  unfold UpdateButterfly
  repeat' (first | split | dsimp only)
  case isTrue => exact Explode_WF _ s i _ Direction.kNoop hwf hi hi2
  case isFalse.isTrue.isTrue => refine MoveItem_WF2 _ i _ (SetItem_WF2 s i _ Direction.kNoop hwf hi hi2) hi hi2
  case isFalse.isTrue.isFalse => refine MoveItem_WF2 _ i _ (SetItem_WF2 s i _ Direction.kNoop hwf hi hi2) hi hi2
  case isFalse.isFalse.isTrue => refine MoveItem_WF2 _ i _ (SetItem_WF2 s i _ Direction.kNoop hwf hi hi2) hi hi2
  case isFalse.isFalse.isFalse.isTrue => refine MoveItem_WF2 _ i _ (SetItem_WF2 s i _ Direction.kNoop hwf hi hi2) hi hi2
  case isFalse.isFalse.isFalse.isFalse => exact SetItem_WF hwf hi hi2

theorem UpdateOrange_WF (s : BoulderDashGameState) (i : Int) (d : Direction)
    (hwf : WF s) (hi : 0 ≤ i) (hi2 : i < s.rows * s.cols) :
    WF (UpdateOrange s i d) := by
  unfold UpdateOrange
  repeat' (first | split | dsimp only)
  case isTrue => exact MoveItem_WF hwf hi hi2
  case isFalse.isTrue => exact Explode_WF _ s i _ Direction.kNoop hwf hi hi2
  case isFalse.isFalse.isTrue =>
    refine SetItem_WF ?_ ?_ ?_
    · exact hwf
    · exact hi
    · exact hi2
  case isFalse.isFalse.isFalse => exact hwf

theorem UpdateBlob_WF (s : BoulderDashGameState) (i : Int)
    (hwf : WF s) (hi : 0 ≤ i) (hi2 : i < s.rows * s.cols) :
    WF (UpdateBlob s i) := by
  unfold UpdateBlob
  repeat' (first | split | dsimp only)
  case isTrue => exact SetItem_WF hwf hi hi2
  case isFalse.isTrue.isTrue => first
    | exact hwf
    | (rename_i hx
       simp only [Bool.and_eq_true, Bool.or_eq_true] at hx
       rcases hx.2 with hx2 | hx2
       · refine SetItem_WF ?_ ?_ ?_
         · exact hwf
         · exact (IsType_range hx2).1
         · exact (IsType_range hx2).2
       · refine SetItem_WF ?_ ?_ ?_
         · exact hwf
         · exact (IsType_range hx2).1
         · exact (IsType_range hx2).2)
  case isFalse.isTrue.isFalse => first
    | exact hwf
    | (rename_i hx
       simp only [Bool.and_eq_true, Bool.or_eq_true] at hx
       rcases hx.2 with hx2 | hx2
       · refine SetItem_WF ?_ ?_ ?_
         · exact hwf
         · exact (IsType_range hx2).1
         · exact (IsType_range hx2).2
       · refine SetItem_WF ?_ ?_ ?_
         · exact hwf
         · exact (IsType_range hx2).1
         · exact (IsType_range hx2).2)
  case isFalse.isFalse.isTrue => first
    | exact hwf
    | (rename_i hx
       simp only [Bool.and_eq_true, Bool.or_eq_true] at hx
       rcases hx.2 with hx2 | hx2
       · refine SetItem_WF ?_ ?_ ?_
         · exact hwf
         · exact (IsType_range hx2).1
         · exact (IsType_range hx2).2
       · refine SetItem_WF ?_ ?_ ?_
         · exact hwf
         · exact (IsType_range hx2).1
         · exact (IsType_range hx2).2)
  case isFalse.isFalse.isFalse => first
    | exact hwf
    | (rename_i hx
       simp only [Bool.and_eq_true, Bool.or_eq_true] at hx
       rcases hx.2 with hx2 | hx2
       · refine SetItem_WF ?_ ?_ ?_
         · exact hwf
         · exact (IsType_range hx2).1
         · exact (IsType_range hx2).2
       · refine SetItem_WF ?_ ?_ ?_
         · exact hwf
         · exact (IsType_range hx2).1
         · exact (IsType_range hx2).2)

theorem IFD_upd_reward (s : BoulderDashGameState) (r : Nat) (i : Int) (d : Direction) :
    IndexFromDirection {s with reward_signal := r} i d = IndexFromDirection s i d := by
  unfold IndexFromDirection; cases d <;> rfl

theorem IFD_upd_gems_reward (s : BoulderDashGameState) (g : Int) (r : Nat) (i : Int)
    (d : Direction) :
    IndexFromDirection
      {s with gems_collected := g, reward_signal := r} i d = IndexFromDirection s i d := by
  unfold IndexFromDirection; cases d <;> rfl

/-- Moving the agent and recording its new index preserves well-formedness when
the source index and the InBounds-checked target are inside the grid. -/
theorem WF_move_set_agent (t : BoulderDashGameState) (i : Int) (d : Direction)
    (hwf : WF t) (hi : 0 ≤ i) (hi2 : i < t.rows * t.cols)
    (h1 : 0 ≤ IndexFromDirection t i d) (h2 : IndexFromDirection t i d < t.rows * t.cols) :
    WF {(MoveItem t i d) with
        agent_idx := IndexFromDirection (MoveItem t i d) i d} := by
  obtain ⟨hnn, hgl, hul, _, hh⟩ := MoveItem_WF2 t i d hwf hi hi2
  refine ⟨hnn, hgl, hul, ⟨?_, ?_⟩, hh⟩
  · simp only [IFD_MoveItem]; exact h1
  · simp only [IFD_MoveItem]; exact h2

/-- As WF_move_set_agent, additionally overwriting the reward signal. -/
theorem WF_move_set_agent_reward (t : BoulderDashGameState) (i : Int) (d : Direction) (r : Nat)
    (hwf : WF t) (hi : 0 ≤ i) (hi2 : i < t.rows * t.cols)
    (h1 : 0 ≤ IndexFromDirection t i d) (h2 : IndexFromDirection t i d < t.rows * t.cols) :
    WF {(MoveItem t i d) with
        agent_idx := IndexFromDirection (MoveItem t i d) i d, reward_signal := r} := by
  obtain ⟨hnn, hgl, hul, _, hh⟩ := MoveItem_WF2 t i d hwf hi hi2
  refine ⟨hnn, hgl, hul, ⟨?_, ?_⟩, hh⟩
  · simp only [IFD_MoveItem]; exact h1
  · simp only [IFD_MoveItem]; exact h2

/-- The gate-walk write pattern: place the agent at the gate target, clear the
source, record the new agent index and a reward value. -/
theorem WF_gate_helper (t : BoulderDashGameState) (nxt i : Int) (d : Direction) (r : Nat)
    (hwf : WF t) (hi : 0 ≤ i) (hi2 : i < t.rows * t.cols)
    (h1 : 0 ≤ IndexFromDirection t nxt d) (h2 : IndexFromDirection t nxt d < t.rows * t.cols) :
    WF {(SetItem (SetItem t nxt kElAgent d) i kElEmpty) with
        agent_idx := IndexFromDirection (SetItem (SetItem t nxt kElAgent d) i kElEmpty) nxt d,
        reward_signal := r} := by
  have t1 : 0 ≤ IndexFromDirection (SetItem t nxt kElAgent d) i Direction.kNoop := hi
  have t2 : IndexFromDirection (SetItem t nxt kElAgent d) i Direction.kNoop
      < (SetItem t nxt kElAgent d).rows * (SetItem t nxt kElAgent d).cols := hi2
  obtain ⟨hnn, hgl, hul, _, hh⟩ := SetItem_WF2 _ i kElEmpty Direction.kNoop
    (SetItem_WF2 t nxt kElAgent d hwf h1 h2) t1 t2
  refine ⟨hnn, hgl, hul, ⟨?_, ?_⟩, hh⟩
  · simp only [IFD_SetItem]; exact h1
  · simp only [IFD_SetItem]; exact h2

/-- The exit-walk write pattern: move the agent, convert the target to
agent-in-exit, record the new agent index, the exit flag, and a reward. -/
theorem WF_exit_helper (s : BoulderDashGameState) (i : Int) (d : Direction) (r : Nat)
    (hwf : WF s) (hi : 0 ≤ i) (hi2 : i < s.rows * s.cols)
    (hib : InBounds s i d = true) :
    WF {(SetItem (MoveItem s i d) i kElAgentInExit d) with
        agent_idx := IndexFromDirection (SetItem (MoveItem s i d) i kElAgentInExit d) i d,
        is_agent_in_exit := true, reward_signal := r} := by
  have hnew := indexFromDirection_range2 hib
  have t1 : 0 ≤ IndexFromDirection (MoveItem s i d) i d := by
    rw [IFD_MoveItem]; exact hnew.1
  have t2 : IndexFromDirection (MoveItem s i d) i d
      < (MoveItem s i d).rows * (MoveItem s i d).cols := by
    rw [IFD_MoveItem]; exact hnew.2
  obtain ⟨hnn, hgl, hul, _, hh⟩ := SetItem_WF2 _ i kElAgentInExit d
    (MoveItem_WF2 s i d hwf hi hi2) t1 t2
  refine ⟨hnn, hgl, hul, ⟨?_, ?_⟩, hh⟩
  · simp only [IFD_SetItem, IFD_MoveItem]; exact hnew.1
  · simp only [IFD_SetItem, IFD_MoveItem]; exact hnew.2

theorem UpdateAgent_WF (s : BoulderDashGameState) (i : Int) (d : Direction)
    (hwf : WF s) (hi : 0 ≤ i) (hi2 : i < s.rows * s.cols) :
    WF (UpdateAgent s i d) := by
  unfold UpdateAgent
  repeat' (first | split | dsimp only)
  case isTrue => exact hwf
  case isFalse.isTrue =>
    rename_i hx
    rcases Bool.or_eq_true_iff.mp hx with hx2 | hx2 <;>
      exact WF_move_set_agent s i d hwf hi hi2
        (indexFromDirection_range2 (IsType_inBounds hx2)).1
        (indexFromDirection_range2 (IsType_inBounds hx2)).2
  case isFalse.isFalse.isTrue =>
    rename_i hx
    rcases Bool.or_eq_true_iff.mp hx with hx2 | hx2 <;>
      exact WF_move_set_agent
        {s with gems_collected := s.gems_collected + 1,
                reward_signal := s.reward_signal ||| kRewardCollectDiamond} i d hwf hi hi2
        ((IFD_upd_gems_reward s (s.gems_collected + 1)
          (s.reward_signal ||| kRewardCollectDiamond) i d).symm ▸
          (indexFromDirection_range2 (IsType_inBounds hx2)).1)
        ((IFD_upd_gems_reward s (s.gems_collected + 1)
          (s.reward_signal ||| kRewardCollectDiamond) i d).symm ▸
          (indexFromDirection_range2 (IsType_inBounds hx2)).2)
  case isFalse.isFalse.isFalse.isTrue =>
    rename_i hx
    simp only [Bool.and_eq_true] at hx
    exact Push_WF hwf hi hi2 (HasProperty_inBounds hx.2)
  case isFalse.isFalse.isFalse.isFalse.isTrue =>
    rename_i hk
    have hne : GetItem s i d ≠ kNullElement := fun he => by
      rw [he] at hk; exact absurd hk (by decide)
    have hr0 := GetItem_ne_null_range hne
    have hr2 : IndexFromDirection s i d < s.rows * s.cols := hwf.2.1 ▸ hr0.2
    refine WF_move_set_agent_reward
      (OpenGate s (kKeyToGate (GetItem s i d))) i d _
      (OpenGate_WF _ hwf) hi ?_ ?_ ?_
    · simp only [OpenGate_rows, OpenGate_cols]; exact hi2
    · simp only [IFD_OpenGate]; exact hr0.1
    · simp only [IFD_OpenGate, OpenGate_rows, OpenGate_cols]; exact hr2
  case isFalse.isFalse.isFalse.isFalse.isFalse.isTrue.isTrue.isTrue =>
    rename_i hp hdum
    have hr2 := indexFromDirection_range2 (HasProperty_inBounds hp)
    refine WF_gate_helper
      {s with gems_collected := s.gems_collected + 1,
              reward_signal := s.reward_signal ||| kRewardCollectDiamond}
      (IndexFromDirection s i d) i d _ hwf hi hi2 ?_ ?_
    · simp only [IFD_upd_gems_reward]; exact hr2.1
    · simp only [IFD_upd_gems_reward]; exact hr2.2
  case isFalse.isFalse.isFalse.isFalse.isFalse.isTrue.isTrue.isFalse.isTrue =>
    rename_i hp hnd hkey
    have hr2 := indexFromDirection_range2 (HasProperty_inBounds hp)
    refine WF_gate_helper
      {(OpenGate s (kKeyToGate (GetItem s (IndexFromDirection s i d) d))) with
        reward_signal :=
          ((OpenGate s (kKeyToGate (GetItem s (IndexFromDirection s i d) d))).reward_signal |||
            kRewardCollectKey) |||
          kKeyToSignal (GetItem s (IndexFromDirection s i d) d)}
      (IndexFromDirection s i d) i d _ ?_ hi ?_ ?_ ?_
    · exact OpenGate_WF _ hwf
    · simp only [OpenGate_rows, OpenGate_cols]; exact hi2
    · simp only [IFD_upd_reward, IFD_OpenGate]; exact hr2.1
    · simp only [IFD_upd_reward, IFD_OpenGate, OpenGate_rows, OpenGate_cols]; exact hr2.2
  case isFalse.isFalse.isFalse.isFalse.isFalse.isTrue.isTrue.isFalse.isFalse =>
    rename_i hp hnd hnkey
    have hr2 := indexFromDirection_range2 (HasProperty_inBounds hp)
    exact WF_gate_helper s (IndexFromDirection s i d) i d _ hwf hi hi2 hr2.1 hr2.2
  case isFalse.isFalse.isFalse.isFalse.isFalse.isTrue.isFalse => exact hwf
  case isFalse.isFalse.isFalse.isFalse.isFalse.isFalse.isTrue =>
    rename_i hx
    exact WF_exit_helper s i d _ hwf hi hi2 (IsType_inBounds hx)
  case isFalse.isFalse.isFalse.isFalse.isFalse.isFalse.isFalse => exact hwf

theorem dispatchCell_WF (s : BoulderDashGameState) (i : Int)
    (hwf : WF s) (hi : 0 ≤ i) (hi2 : i < s.rows * s.cols) :
    WF (dispatchCell s i) := by
  unfold dispatchCell
  repeat' (first | split | dsimp only)
  case h_1 => exact UpdateStone_WF s i hwf hi hi2
  case h_2 => exact UpdateStoneFalling_WF s i hwf hi hi2
  case h_3 => exact UpdateDiamond_WF s i hwf hi hi2
  case h_4 => exact UpdateDiamondFalling_WF s i hwf hi hi2
  case h_5 => exact UpdateNut_WF s i hwf hi hi2
  case h_6 => exact UpdateNutFalling_WF s i hwf hi hi2
  case h_7 => exact UpdateBomb_WF s i hwf hi hi2
  case h_8 => exact UpdateBombFalling_WF s i hwf hi hi2
  case h_9 => exact UpdateExit_WF s i hwf hi hi2
  case h_10 => exact UpdateBlob_WF s i hwf hi hi2
  case h_11.isTrue => exact UpdateButterfly_WF s i _ hwf hi hi2
  case h_11.isFalse.isTrue => exact UpdateFirefly_WF s i _ hwf hi hi2
  case h_11.isFalse.isFalse.isTrue => exact UpdateOrange_WF s i _ hwf hi hi2
  case h_11.isFalse.isFalse.isFalse.isTrue => exact UpdateMagicWall_WF s i hwf hi hi2
  case h_11.isFalse.isFalse.isFalse.isFalse.isTrue => exact UpdateExplosions_WF s i hwf hi hi2
  case h_11.isFalse.isFalse.isFalse.isFalse.isFalse => exact hwf


theorem foldl_setI_length (L : List Int) (u : List Bool) :
    (L.foldl (fun v j => listSetI v j false) u).length = u.length := by
  induction L generalizing u with
  | nil => rfl
  | cons a t ih => rw [List.foldl_cons, ih, listSetI_length]

theorem StartScan_WF (s : BoulderDashGameState) (hwf : WF s) : WF (StartScan s) := by
  obtain ⟨hnn, hgl, hul, hab, hh⟩ := hwf
  refine ⟨hnn, hgl, ?_, hab, hh⟩
  show (List.foldl (fun v j => listSetI v j false) s.has_updated
      (intRange (s.rows * s.cols))).length = s.grid.length
  rw [foldl_setI_length]
  exact hul

theorem EndScan_WF (s : BoulderDashGameState) (hwf : WF s) : WF (EndScan s) := by
  unfold EndScan
  repeat' (first | split | dsimp only)
  all_goals exact hwf

theorem scan_fold_WF (s0 : BoulderDashGameState) (hwf : WF s0) :
    WF ((intRange (s0.rows * s0.cols)).foldl
      (fun st i => if listGetI st.has_updated i false then st else dispatchCell st i) s0) := by
  refine (foldl_inv
    (fun (st : BoulderDashGameState) => WF st ∧ st.rows = s0.rows ∧ st.cols = s0.cols)
    _ _ ?_ s0 ⟨hwf, rfl, rfl⟩).1
  intro st a hmem hst
  obtain ⟨hw, hr, hc⟩ := hst
  try dsimp only
  split
  · exact ⟨hw, hr, hc⟩
  · have ha := (mem_intRange_iff _ a).mp hmem
    refine ⟨dispatchCell_WF st a hw ha.1 ?_, ?_, ?_⟩
    · rw [hr, hc]; exact ha.2
    · rw [dispatchCell_rows]; exact hr
    · rw [dispatchCell_cols]; exact hc

theorem apply_action_WF (s : BoulderDashGameState) (a : Action) (hwf : WF s) :
    WF (BoulderDashGameState.apply_action s a) := by
  unfold BoulderDashGameState.apply_action
  dsimp only
  have hws1 := StartScan_WF s hwf
  have hws2 := UpdateAgent_WF (StartScan s) (StartScan s).agent_idx (action_to_direction a)
    hws1 hws1.2.2.2.1.1 hws1.2.2.2.1.2
  exact EndScan_WF _ (scan_fold_WF _ hws2)

/-- C1 (amended): on well-formed constructions (token count rows*cols + 3, the
count the NDEBUG-disabled assert expects), the incremental hash equals the
from-scratch XOR of H(grid[i], i) over all cells, after construction and after
every apply_action step. -/
theorem C1_hash_invariant_amended (s : BoulderDashGameState) (h : ReachableWF s) :
    BoulderDashGameState.get_hash s = boardHash s := by
  have hwf : WF s := by
    induction h with
    | init str p t hok hlen =>
      obtain ⟨hul, _, hidx, _, _, hhash⟩ := constructState_wf hok
      refine ⟨?_, hlen, hul, ⟨hidx.1, ?_⟩, ?_⟩
      · rw [← hlen]; exact Int.ofNat_nonneg _
      · rw [← hlen]; exact hidx.2
      · exact hhash
    | step t a ht iht => exact apply_action_WF t a iht
  exact hwf.2.2.2.2

theorem C1_hash_invariant_witness :
    BoulderDashGameState.get_hash
        (BoulderDashGameState.apply_action (stateOf "1|2|0|0|1" {}) Action.kRight)
      = boardHash (BoulderDashGameState.apply_action (stateOf "1|2|0|0|1" {}) Action.kRight) :=
  C1_hash_invariant_amended _
    (ReachableWF.step _ _ (ReachableWF.init "1|2|0|0|1" {} (stateOf "1|2|0|0|1" {})
      (by decide) (by decide)))

/-- C1 counterexample: the malformed token count "1|2|0|1|1|0" constructs
successfully in release builds (claim C6), is therefore reachable, and one kUp
step breaks the incremental-hash identity: the falling stone at flat index 0
moves to the out-of-range index 2, the no-op write XORs a nonzero term into
hash, and the from-scratch hash no longer matches. -/
theorem C1_hash_invariant_counterexample :
    constructState "1|2|0|1|1|0" {} = Except.ok (stateOf "1|2|0|1|1|0" {}) ∧
    BoulderDashGameState.get_hash
        (BoulderDashGameState.apply_action (stateOf "1|2|0|1|1|0" {}) Action.kUp)
      ≠ boardHash (BoulderDashGameState.apply_action (stateOf "1|2|0|1|1|0" {}) Action.kUp) :=
  ⟨by decide, by decide⟩

theorem filter_cons_len (a : Int) (t : List Int) (p : Int → Bool) :
    ((a :: t).filter p).length
      = (if p a = true then 1 else 0) + (t.filter p).length := by
  cases hp : p a with
  | true => simp only [List.filter_cons, hp, if_pos, List.length_cons]; omega
  | false => simp [List.filter_cons, hp]

theorem filter_mono_len {l : List Int} {p q : Int → Bool}
    (h : ∀ x ∈ l, p x = true → q x = true) :
    (l.filter p).length ≤ (l.filter q).length := by
  induction l with
  | nil => exact Nat.le_refl 0
  | cons a t ih =>
    have ht := ih (fun x hx hp => h x (List.mem_cons_of_mem a hx) hp)
    rw [filter_cons_len, filter_cons_len]
    by_cases hp : p a = true
    · rw [if_pos hp, if_pos (h a (List.mem_cons_self a t) hp)]
      omega
    · rw [if_neg hp]
      split <;> omega


theorem filter_perm_len {l l' : List Int} (h : l.Perm l') (p : Int → Bool) :
    (l.filter p).length = (l'.filter p).length :=
  (h.filter p).length_eq


theorem filter_congr_len {l : List Int} {p q : Int → Bool}
    (h : ∀ x ∈ l, p x = q x) : (l.filter p).length = (l.filter q).length := by
  rw [List.filter_congr h]

/-- Flipping exactly one member from counted to uncounted strictly decreases
the filtered length. -/
theorem filter_one_flip {l : List Int} (hnd : l.Nodup) {p q : Int → Bool} {j : Int}
    (hoff : ∀ x ∈ l, x ≠ j → p x = q x) (hpj : p j = false) (hqj : q j = true)
    (hj : j ∈ l) :
    (l.filter p).length + 1 ≤ (l.filter q).length := by
  have hperm := List.perm_cons_erase hj
  rw [filter_perm_len hperm p, filter_perm_len hperm q]
  rw [filter_cons_len, filter_cons_len]
  have hjer : j ∉ l.erase j := hnd.not_mem_erase
  have hrest : ((l.erase j).filter p).length = ((l.erase j).filter q).length := by
    refine filter_congr_len (fun x hx => ?_)
    exact hoff x (List.mem_of_mem_erase hx) (fun he => hjer (he ▸ hx))
  rw [hpj, hqj, hrest, if_neg (by decide : ¬(false = true)), if_pos (rfl : true = true)]
  omega

/-- A move exchange: the source i stops being counted, and the target t is
counted afterwards only if the source was counted before. -/
theorem filter_two_exchange {l : List Int} (hnd : l.Nodup) {p q : Int → Bool} {i t : Int}
    (hoff : ∀ x ∈ l, x ≠ i → x ≠ t → p x = q x) (hpi : p i = false)
    (himp : p t = true → q i = true) (hi : i ∈ l) :
    (l.filter p).length ≤ (l.filter q).length := by
  have hperm := List.perm_cons_erase hi
  rw [filter_perm_len hperm p, filter_perm_len hperm q]
  rw [filter_cons_len, filter_cons_len]
  have hier : i ∉ l.erase i := hnd.not_mem_erase
  by_cases hti : t = i
  · have hrest : ((l.erase i).filter p).length = ((l.erase i).filter q).length := by
      refine filter_congr_len (fun x hx => ?_)
      have hxi : x ≠ i := fun he => hier (he ▸ hx)
      exact hoff x (List.mem_of_mem_erase hx) hxi (hti ▸ hxi)
    rw [hpi, hrest, if_neg (by decide : ¬(false = true))]
    split <;> omega
  · by_cases htl : t ∈ l.erase i
    · have hperm2 := List.perm_cons_erase htl
      rw [filter_perm_len hperm2 p, filter_perm_len hperm2 q]
      rw [filter_cons_len, filter_cons_len]
      have hter : t ∉ (l.erase i).erase t := ((hnd.erase i).not_mem_erase)
      have hrest : (((l.erase i).erase t).filter p).length
          = (((l.erase i).erase t).filter q).length := by
        refine filter_congr_len (fun x hx => ?_)
        have hx1 : x ∈ l.erase i := List.mem_of_mem_erase hx
        have hxl : x ∈ l := List.mem_of_mem_erase hx1
        have hxt : x ≠ t := fun he => hter (he ▸ hx)
        have hxi : x ≠ i := fun he => hier (he ▸ hx1)
        exact hoff x hxl hxi hxt
      rw [hpi, hrest, if_neg (by decide : ¬(false = true))]
      cases hpt : p t with
      | true =>
        rw [himp hpt, if_pos (rfl : true = true)]
        split <;> omega
      | false =>
        rw [if_neg (by decide : ¬(false = true))]
        split <;> split <;> omega
    · have hrest : ((l.erase i).filter p).length = ((l.erase i).filter q).length := by
        refine filter_congr_len (fun x hx => ?_)
        have hxi : x ≠ i := fun he => hier (he ▸ hx)
        have hxt : x ≠ t := fun he => htl (he ▸ hx)
        exact hoff x (List.mem_of_mem_erase hx) hxi hxt
      rw [hpi, hrest, if_neg (by decide : ¬(false = true))]
      split <;> omega
theorem cellBudget_eq (s : BoulderDashGameState) (j : Int) :
    cellBudget s j
      = (BoulderDashGameState.isExplodableKind (listGetI s.grid j .kNull) ||
          ((listGetI s.grid j .kNull == HiddenCellType.kStoneFalling ||
              listGetI s.grid j .kNull == HiddenCellType.kBlob) &&
            !(listGetI s.has_updated j false))) := rfl

theorem kind_free_clause {c : HiddenCellType} (hfree : budgetFreeKind c = true) (b : Bool) :
    (BoulderDashGameState.isExplodableKind c ||
      ((c == HiddenCellType.kStoneFalling || c == HiddenCellType.kBlob) && !b)) = false := by
  unfold budgetFreeKind at hfree
  simp only [Bool.and_eq_true, Bool.not_eq_true'] at hfree
  rw [hfree.1.1, hfree.1.2, hfree.2]
  simp

theorem intRange_length (n : Int) : (intRange n).length = n.toNat := by
  unfold intRange
  simp

theorem budget_le_n (s : BoulderDashGameState) : budget s ≤ (s.rows * s.cols).toNat := by
  unfold BoulderDashGameState.budget
  calc ((intRange (s.rows * s.cols)).filter (fun i => cellBudget s i)).length
      ≤ (intRange (s.rows * s.cols)).length := List.length_filter_le _ _
    _ = (s.rows * s.cols).toNat := intRange_length _

theorem cellBudget_true_range {s : BoulderDashGameState} {j : Int}
    (h : cellBudget s j = true) : 0 ≤ j ∧ j < (s.grid.length : Int) := by
  by_contra hc
  have hnull : listGetI s.grid j .kNull = .kNull := by
    rcases (by omega : j < 0 ∨ (s.grid.length : Int) ≤ j) with hlt | hge
    · exact listGetI_neg _ _ _ hlt
    · exact listGetI_ge _ _ _ hge
  rw [cellBudget_eq, hnull,
    kind_free_clause (show budgetFreeKind HiddenCellType.kNull = true from rfl)] at h
  exact Bool.false_ne_true h

theorem SetItem_updated (s : BoulderDashGameState) (i : Int) (el : Element) (d : Direction) :
    (SetItem s i el d).has_updated
      = listSetI s.has_updated (IndexFromDirection s i d) true := rfl

theorem MoveItem_updated (s : BoulderDashGameState) (i : Int) (d : Direction) :
    (MoveItem s i d).has_updated
      = listSetI s.has_updated (IndexFromDirection s i d) true := rfl

theorem cellBudget_SetItem_ne {s : BoulderDashGameState} {i : Int} {el : Element}
    {d : Direction} {x : Int} (hx : x ≠ IndexFromDirection s i d) :
    cellBudget (SetItem s i el d) x = cellBudget s x := by
  rw [cellBudget_eq, cellBudget_eq, SetItem_grid, SetItem_updated,
    listGetI_setI_ne _ _ _ _ _ hx, listGetI_setI_ne _ _ _ _ _ hx]

theorem SetItem_budget_nonexpl {s : BoulderDashGameState} {i : Int} {el : Element}
    {d : Direction} (hul : s.has_updated.length = s.grid.length)
    (hne : BoulderDashGameState.isExplodableKind el.cell_type = false) :
    budget (SetItem s i el d) ≤ budget s := by
  unfold BoulderDashGameState.budget
  rw [SetItem_rows, SetItem_cols]
  refine filter_mono_len (fun x _ hp => ?_)
  by_cases hx : x = IndexFromDirection s i d
  · by_cases hr : 0 ≤ x ∧ x < (s.grid.length : Int)
    · exfalso
      rw [cellBudget_eq, SetItem_grid, SetItem_updated, ← hx,
        listGetI_setI_self _ _ _ _ hr.1 (by omega),
        listGetI_setI_self _ _ _ _ hr.1 (by omega), hne] at hp
      simp at hp
    · rw [cellBudget_eq, SetItem_grid, SetItem_updated, ← hx,
        listSetI_out _ _ _ (by omega), listSetI_out _ _ _ (by omega)] at hp
      rw [cellBudget_eq]
      exact hp
  · rw [cellBudget_SetItem_ne hx] at hp
    exact hp

theorem SetItem_budget_pre {s : BoulderDashGameState} {i : Int} {el : Element}
    {d : Direction} (h : cellBudget s (IndexFromDirection s i d) = true) :
    budget (SetItem s i el d) ≤ budget s := by
  unfold BoulderDashGameState.budget
  rw [SetItem_rows, SetItem_cols]
  refine filter_mono_len (fun x _ hp => ?_)
  by_cases hx : x = IndexFromDirection s i d
  · rw [hx]
    exact h
  · rw [cellBudget_SetItem_ne hx] at hp
    exact hp

theorem SetItem_budget_consume {s : BoulderDashGameState} {i : Int} {el : Element}
    {d : Direction} (hlen : (s.grid.length : Int) = s.rows * s.cols)
    (h : cellBudget s (IndexFromDirection s i d) = true)
    (hfree : budgetFreeKind el.cell_type = true) :
    budget (SetItem s i el d) + 1 ≤ budget s := by
  have hr := cellBudget_true_range h
  unfold BoulderDashGameState.budget
  rw [SetItem_rows, SetItem_cols]
  refine filter_one_flip (intRange_nodup _) (fun x _ hx => cellBudget_SetItem_ne hx) ?_ h ?_
  · show cellBudget (SetItem s i el d) (IndexFromDirection s i d) = false
    rw [cellBudget_eq, SetItem_grid, listGetI_setI_self _ _ _ _ hr.1 (by omega),
      kind_free_clause hfree]
  · exact (mem_intRange_iff _ _).mpr ⟨hr.1, by omega⟩

theorem MoveItem_budget {s : BoulderDashGameState} {i : Int} {d : Direction}
    (hlen : (s.grid.length : Int) = s.rows * s.cols)
    (hul : s.has_updated.length = s.grid.length)
    (hi : 0 ≤ i) (hi2 : i < s.rows * s.cols) :
    budget (MoveItem s i d) ≤ budget s := by
  unfold BoulderDashGameState.budget
  rw [show (MoveItem s i d).rows = s.rows from rfl, show (MoveItem s i d).cols = s.cols from rfl]
  by_cases ht : 0 ≤ IndexFromDirection s i d ∧
      IndexFromDirection s i d < (s.grid.length : Int)
  · by_cases hti : IndexFromDirection s i d = i
    · refine filter_mono_len (fun x _ hp => ?_)
      by_cases hx : x = i
      · exfalso
        rw [hx, cellBudget_eq, MoveItem_grid, MoveItem_updated,
          listGetI_setI_self _ _ _ _ hi (by rw [listSetI_length]; omega),
          kind_free_clause (show budgetFreeKind HiddenCellType.kEmpty = true from rfl)] at hp
        exact Bool.false_ne_true hp
      · rw [cellBudget_eq, MoveItem_grid, MoveItem_updated, hti,
          listGetI_setI_ne _ _ _ _ _ hx, listGetI_setI_ne _ _ _ _ _ hx,
          listGetI_setI_ne _ _ _ _ _ hx] at hp
        rw [cellBudget_eq]
        exact hp
    · refine @filter_two_exchange (intRange (s.rows * s.cols)) (intRange_nodup _) _ _
        i (IndexFromDirection s i d) (fun x _ hxi hxt => ?_) ?_ ?_
        ((mem_intRange_iff _ _).mpr ⟨hi, hi2⟩)
      · rw [cellBudget_eq, cellBudget_eq, MoveItem_grid, MoveItem_updated,
          listGetI_setI_ne _ _ _ _ _ hxi, listGetI_setI_ne _ _ _ _ _ hxt,
          listGetI_setI_ne _ _ _ _ _ hxt]
      · show cellBudget (MoveItem s i d) i = false
        rw [cellBudget_eq, MoveItem_grid,
          listGetI_setI_self _ _ _ _ hi (by rw [listSetI_length]; omega),
          kind_free_clause (show budgetFreeKind HiddenCellType.kEmpty = true from rfl)]
      · intro hp
        rw [cellBudget_eq, MoveItem_grid, MoveItem_updated,
          listGetI_setI_ne _ _ _ _ _ hti,
          listGetI_setI_self _ _ _ _ ht.1 (by omega),
          listGetI_setI_self _ _ _ _ ht.1 (by omega)] at hp
        simp only [Bool.not_true, Bool.and_false, Bool.or_false] at hp
        rw [cellBudget_eq]
        simp only [hp, Bool.true_or]
  · have hsetg : listSetI s.grid (IndexFromDirection s i d) (listGetI s.grid i .kNull)
        = s.grid := listSetI_out _ _ _ (by omega)
    have hsetu : listSetI s.has_updated (IndexFromDirection s i d) true
        = s.has_updated := listSetI_out _ _ _ (by omega)
    refine filter_mono_len (fun x _ hp => ?_)
    by_cases hx : x = i
    · exfalso
      rw [hx, cellBudget_eq, MoveItem_grid, MoveItem_updated, hsetg, hsetu,
        listGetI_setI_self _ _ _ _ hi (by omega),
        kind_free_clause (show budgetFreeKind HiddenCellType.kEmpty = true from rfl)] at hp
      exact Bool.false_ne_true hp
    · rw [cellBudget_eq, MoveItem_grid, MoveItem_updated, hsetg, hsetu,
        listGetI_setI_ne _ _ _ _ _ hx] at hp
      rw [cellBudget_eq]
      exact hp

theorem IFD_noop (s : BoulderDashGameState) (i : Int) :
    IndexFromDirection s i .kNoop = i := rfl

theorem element_beq_iff (a b : Element) : (a == b) = true ↔ a.cell_type = b.cell_type := by
  show (a.cell_type == b.cell_type) = true ↔ a.cell_type = b.cell_type
  exact beq_iff_eq

theorem IsType_cell {s : BoulderDashGameState} {i : Int} {el : Element} {d : Direction}
    (h : IsType s i el d = true) :
    listGetI s.grid (IndexFromDirection s i d) .kNull = el.cell_type := by
  simp only [IsType, Bool.and_eq_true] at h
  have h2 := h.2
  unfold GetItem at h2
  rw [IFD_noop] at h2
  exact (element_beq_iff _ _).mp h2

theorem InBounds_SetItem (s : BoulderDashGameState) (j : Int) (el : Element) (e : Direction)
    (i : Int) (d : Direction) :
    InBounds (SetItem s j el e) i d = InBounds s i d := rfl

theorem budgetFree_nonexpl {c : HiddenCellType} (h : budgetFreeKind c = true) :
    BoulderDashGameState.isExplodableKind c = false := by
  unfold budgetFreeKind at h
  simp only [Bool.and_eq_true, Bool.not_eq_true'] at h
  exact h.1.1

theorem budgetFree_explosionOrEmpty (e : Element) :
    budgetFreeKind (elementToExplosionOrEmpty e).cell_type = true := by
  unfold elementToExplosionOrEmpty
  split <;> rfl

theorem HasProperty_explode_cellBudget {s : BoulderDashGameState} {i : Int} {d : Direction}
    (h : HasProperty s i ElementProperties.kCanExplode d = true) :
    cellBudget s (IndexFromDirection s i d) = true := by
  simp only [HasProperty, Bool.and_eq_true, decide_eq_true_eq] at h
  have h2 := h.2
  unfold GetItem at h2
  rw [IFD_noop] at h2
  have h3 : cellProperties (listGetI s.grid (IndexFromDirection s i d) .kNull) &&&
      ElementProperties.kCanExplode > 0 := h2
  rw [cellBudget_eq]
  simp only [BoulderDashGameState.isExplodableKind]
  rw [decide_eq_true h3, Bool.true_or]

theorem budget_alive (s : BoulderDashGameState) (b : Bool) :
    budget {s with is_agent_alive := b} = budget s := rfl

theorem SetItem_blob_swap (s : BoulderDashGameState) (i : Int) (el : Element) (d : Direction) :
    (SetItem s i el d).blob_swap = s.blob_swap := rfl

theorem MoveItem_blob_swap (s : BoulderDashGameState) (i : Int) (d : Direction) :
    (MoveItem s i d).blob_swap = s.blob_swap := rfl

theorem OpenGate_blob_swap (s : BoulderDashGameState) (e : Element) :
    (OpenGate s e).blob_swap = s.blob_swap := by
  unfold OpenGate
  refine foldl_inv (fun st => st.blob_swap = s.blob_swap) _ _ ?_ s rfl
  intro st a _ hst
  dsimp only
  split <;> exact hst

theorem Push_blob_swap (s : BoulderDashGameState) (i : Int) (st fa : Element) (d : Direction) :
    (Push s i st fa d).blob_swap = s.blob_swap := by
  unfold Push
  dsimp only
  split <;> rfl

theorem MoveThroughMagic_blob_swap (s : BoulderDashGameState) (i : Int) (e : Element) :
    (MoveThroughMagic s i e).blob_swap = s.blob_swap := by
  unfold MoveThroughMagic
  split
  · rfl
  · dsimp only
    split <;> rfl

theorem UpdateAgent_blob_swap (s : BoulderDashGameState) (i : Int) (d : Direction) :
    (UpdateAgent s i d).blob_swap = s.blob_swap := by
  unfold UpdateAgent
  repeat' (first | split | dsimp only)
  all_goals try simp only [SetItem_blob_swap, MoveItem_blob_swap, Push_blob_swap,
    OpenGate_blob_swap, MoveThroughMagic_blob_swap]
  all_goals rfl

theorem StartScan_blob_swap (s : BoulderDashGameState) :
    (StartScan s).blob_swap = s.blob_swap := rfl

theorem BFrame_trans {a b c : BoulderDashGameState} (h1 : BFrame a b) (h2 : BFrame b c) :
    BFrame a c := by
  obtain ⟨_, _, hr1, hc1, hb1⟩ := h1
  obtain ⟨hl2, hu2, hr2, hc2, hb2⟩ := h2
  exact ⟨hl2, hu2, hr2.trans hr1, hc2.trans hc1, hb2.trans hb1⟩

theorem BFrame_SetItem {s t : BoulderDashGameState} (h : BFrame s t) (i : Int)
    (el : Element) (d : Direction) : BFrame s (SetItem t i el d) := by
  obtain ⟨h1, h2, h3, h4, h5⟩ := h
  refine ⟨?_, ?_, h3, h4, h5⟩
  · rw [SetItem_grid, listSetI_length, SetItem_rows, SetItem_cols]
    exact h1
  · rw [SetItem_updated, SetItem_grid, listSetI_length, listSetI_length]
    exact h2

theorem BFrame_MoveItem {s t : BoulderDashGameState} (h : BFrame s t) (i : Int)
    (d : Direction) : BFrame s (MoveItem t i d) := by
  obtain ⟨h1, h2, h3, h4, h5⟩ := h
  refine ⟨?_, ?_, h3, h4, h5⟩
  · rw [MoveItem_grid, listSetI_length, listSetI_length]
    exact h1
  · rw [MoveItem_updated, MoveItem_grid, listSetI_length, listSetI_length, listSetI_length]
    exact h2

theorem BFrame_alive {s t : BoulderDashGameState} (h : BFrame s t) (b : Bool) :
    BFrame s {t with is_agent_alive := b} := h

theorem ExplodeCount_budget : ∀ (fuel : Nat) (s : BoulderDashGameState) (index : Int)
    (element : Element) (d : Direction),
    (s.grid.length : Int) = s.rows * s.cols →
    s.has_updated.length = s.grid.length →
    budgetFreeKind element.cell_type = true →
    cellBudget s (IndexFromDirection s index d) = true →
    (ExplodeCount fuel s index element d).2
        + budget (ExplodeCount fuel s index element d).1 ≤ budget s
      ∧ BFrame s (ExplodeCount fuel s index element d).1 := by
  intro fuel
  induction fuel with
  | zero =>
    intro s index element d hlen hul _ _
    refine ⟨?_, hlen, hul, rfl, rfl, rfl⟩
    show (0 : Nat) + budget s ≤ budget s
    omega
  | succ n ih =>
    intro s index element d hlen hul hfree hpay
    unfold ExplodeCount
    dsimp only
    by_cases hag : (GetItem s (IndexFromDirection s index d) == kElAgent) = true
    · rw [if_pos hag]
      refine foldl_inv
        (fun (p : BoulderDashGameState × Nat) => p.2 + budget p.1 ≤ budget s ∧ BFrame s p.1)
        _ allDirections ?_ _ ⟨?_, ?_⟩
      · intro p dir _ hP
        obtain ⟨hb, hlen1, hul1, hr1, hc1, hbs1⟩ := hP
        try dsimp only
        by_cases h1 : (dir == Direction.kNoop
            || !(InBounds p.1 (IndexFromDirection s index d) dir)) = true
        · rw [if_pos h1]
          exact ⟨hb, hlen1, hul1, hr1, hc1, hbs1⟩
        · rw [if_neg h1]
          by_cases h2 : (HasProperty p.1 (IndexFromDirection s index d)
              ElementProperties.kCanExplode dir) = true
          · rw [if_pos h2]
            have hq := ih p.1 (IndexFromDirection s index d)
              (elementToExplosionOrEmpty (GetItem s (IndexFromDirection s index d))) dir
              hlen1 hul1 (budgetFree_explosionOrEmpty _)
              (HasProperty_explode_cellBudget h2)
            obtain ⟨hq1, hqBF⟩ := hq
            refine ⟨?_, BFrame_trans ⟨hlen1, hul1, hr1, hc1, hbs1⟩ hqBF⟩
            try dsimp only
            omega
          · rw [if_neg h2]
            by_cases h3 : (HasProperty p.1 (IndexFromDirection s index d)
                ElementProperties.kConsumable dir) = true
            · rw [if_pos h3]
              have hb2 : budget (SetItem p.1 (IndexFromDirection s index d)
                  (elementToExplosionOrEmpty (GetItem s (IndexFromDirection s index d))) dir)
                  ≤ budget p.1 :=
                SetItem_budget_nonexpl hul1
                  (budgetFree_nonexpl (budgetFree_explosionOrEmpty _))
              have hBF2 := BFrame_SetItem ⟨hlen1, hul1, hr1, hc1, hbs1⟩
                (IndexFromDirection s index d)
                (elementToExplosionOrEmpty (GetItem s (IndexFromDirection s index d))) dir
              constructor
              · try dsimp only
                split
                · rw [budget_alive]
                  omega
                · omega
              · try dsimp only
                split
                · exact BFrame_alive hBF2 false
                · exact hBF2
            · rw [if_neg h3]
              exact ⟨hb, hlen1, hul1, hr1, hc1, hbs1⟩
      · try dsimp only
        rw [Nat.add_comm]
        exact SetItem_budget_consume hlen hpay hfree
      · refine ⟨?_, ?_, rfl, rfl, rfl⟩
        · rw [SetItem_grid, listSetI_length, SetItem_rows, SetItem_cols]
          exact hlen
        · rw [SetItem_updated, SetItem_grid, listSetI_length, listSetI_length]
          exact hul
    · rw [if_neg hag]
      refine foldl_inv
        (fun (p : BoulderDashGameState × Nat) => p.2 + budget p.1 ≤ budget s ∧ BFrame s p.1)
        _ allDirections ?_ _ ⟨?_, ?_⟩
      · intro p dir _ hP
        obtain ⟨hb, hlen1, hul1, hr1, hc1, hbs1⟩ := hP
        try dsimp only
        by_cases h1 : (dir == Direction.kNoop
            || !(InBounds p.1 (IndexFromDirection s index d) dir)) = true
        · rw [if_pos h1]
          exact ⟨hb, hlen1, hul1, hr1, hc1, hbs1⟩
        · rw [if_neg h1]
          by_cases h2 : (HasProperty p.1 (IndexFromDirection s index d)
              ElementProperties.kCanExplode dir) = true
          · rw [if_pos h2]
            have hq := ih p.1 (IndexFromDirection s index d)
              (elementToExplosionOrEmpty (GetItem s (IndexFromDirection s index d))) dir
              hlen1 hul1 (budgetFree_explosionOrEmpty _)
              (HasProperty_explode_cellBudget h2)
            obtain ⟨hq1, hqBF⟩ := hq
            refine ⟨?_, BFrame_trans ⟨hlen1, hul1, hr1, hc1, hbs1⟩ hqBF⟩
            try dsimp only
            omega
          · rw [if_neg h2]
            by_cases h3 : (HasProperty p.1 (IndexFromDirection s index d)
                ElementProperties.kConsumable dir) = true
            · rw [if_pos h3]
              have hb2 : budget (SetItem p.1 (IndexFromDirection s index d)
                  (elementToExplosionOrEmpty (GetItem s (IndexFromDirection s index d))) dir)
                  ≤ budget p.1 :=
                SetItem_budget_nonexpl hul1
                  (budgetFree_nonexpl (budgetFree_explosionOrEmpty _))
              have hBF2 := BFrame_SetItem ⟨hlen1, hul1, hr1, hc1, hbs1⟩
                (IndexFromDirection s index d)
                (elementToExplosionOrEmpty (GetItem s (IndexFromDirection s index d))) dir
              constructor
              · try dsimp only
                split
                · rw [budget_alive]
                  omega
                · omega
              · try dsimp only
                split
                · exact BFrame_alive hBF2 false
                · exact hBF2
            · rw [if_neg h3]
              exact ⟨hb, hlen1, hul1, hr1, hc1, hbs1⟩
      · try dsimp only
        rw [Nat.add_comm]
        exact SetItem_budget_consume hlen hpay hfree
      · refine ⟨?_, ?_, rfl, rfl, rfl⟩
        · rw [SetItem_grid, listSetI_length, SetItem_rows, SetItem_cols]
          exact hlen
        · rw [SetItem_updated, SetItem_grid, listSetI_length, listSetI_length]
          exact hul

end boulderdash
